import Mathlib

/-!
# fr: swapchain negotiation, image mip chains, device selection, descriptors,
synchronization, error signalling, submission, destruction and the example's
frame loop

A shallow embedding of the parts of `src/fr.cpp` that decide the negotiation
performed by `frSwapchain::initialize`, the mip-level bookkeeping of `frImage`,
`frRenderer::FindMemoryType`, the device queries and the device and queue family
selection of `frRenderer::initialize`, the descriptor pool, the synchronization
triple, the exceptions raised for driver results, the single-time and per-frame
submission helpers and the destroy calls of the resource wrappers, together with
the parts of `example/main.cpp` that size data by the swapchain image count and
index it by the frame; followed by the properties proved about them.

Machine integers are natural numbers or integers with the wrap-around written
out; calls into the driver are inputs of the functions that make them.
-/

namespace fr

/-! ## Vulkan values -/

/-- The largest `uint32_t`, `std::numeric_limits<uint32_t>::max()`. -/
def UINT32_MAX : Nat := 4294967295

/-- Result codes of driver calls (`VkResult`, a signed 32-bit enumeration). -/
abbrev VkResult := Int

def VK_SUCCESS : VkResult := 0
def VK_SUBOPTIMAL_KHR : VkResult := 1000001003
def VK_ERROR_OUT_OF_DATE_KHR : VkResult := -1000001004

/-- Presentation modes (`VkPresentModeKHR`), by their numeric value. -/
abbrev VkPresentModeKHR := Nat

def VK_PRESENT_MODE_IMMEDIATE_KHR : VkPresentModeKHR := 0
def VK_PRESENT_MODE_MAILBOX_KHR : VkPresentModeKHR := 1
def VK_PRESENT_MODE_FIFO_KHR : VkPresentModeKHR := 2
def VK_PRESENT_MODE_FIFO_RELAXED_KHR : VkPresentModeKHR := 3

/-- Sharing modes (`VkSharingMode`). -/
inductive VkSharingMode where
  | VK_SHARING_MODE_EXCLUSIVE
  | VK_SHARING_MODE_CONCURRENT
deriving DecidableEq

/-- A surface format: the pair `(format, colorSpace)`, both by numeric value. -/
structure VkSurfaceFormatKHR where
  format : Nat
  colorSpace : Nat
deriving DecidableEq

structure VkExtent2D where
  width : Nat
  height : Nat
deriving DecidableEq

/-- The fields of `VkSurfaceCapabilitiesKHR` that `frSwapchain::initialize` reads. -/
structure VkSurfaceCapabilitiesKHR where
  minImageCount : Nat
  maxImageCount : Nat
  currentExtent : VkExtent2D
  minImageExtent : VkExtent2D
  maxImageExtent : VkExtent2D
  currentTransform : Nat
deriving DecidableEq

/-- An array pointer as a driver call finds it when it reads its arguments: null,
the address of an array that is alive, with its elements, or the address of an
array whose lifetime has ended, with the elements it last held. -/
inductive ArrayPointer where
  | null
  | live (elements : List Nat)
  | dangling (elements : List Nat)
deriving DecidableEq

/-- The fields of `VkSwapchainCreateInfoKHR` that `frSwapchain::initialize` fills in. -/
structure VkSwapchainCreateInfoKHR where
  surface : Nat
  minImageCount : Nat
  imageFormat : Nat
  imageColorSpace : Nat
  imageExtent : VkExtent2D
  imageArrayLayers : Nat
  imageSharingMode : VkSharingMode
  queueFamilyIndexCount : Nat
  pQueueFamilyIndices : ArrayPointer
  preTransform : Nat
  presentMode : VkPresentModeKHR
  clipped : Bool
deriving DecidableEq

/-! ## Exceptions and the driver-call wrapper -/

/-- The three exception classes of `fr.hpp`. -/
inductive frException where
  | frWindowException (msg : String)
  | frVulkanException (msg : String)
  | frSwapchainResizeException
deriving DecidableEq

/-- Status text of a result code, as `string_VkResult` of the Vulkan headers gives
it for the core and swapchain codes; the helper's default text otherwise. -/
def string_VkResult (result : VkResult) : String :=
  if result = 0 then "VK_SUCCESS"
  else if result = 1 then "VK_NOT_READY"
  else if result = 2 then "VK_TIMEOUT"
  else if result = 3 then "VK_EVENT_SET"
  else if result = 4 then "VK_EVENT_RESET"
  else if result = 5 then "VK_INCOMPLETE"
  else if result = -1 then "VK_ERROR_OUT_OF_HOST_MEMORY"
  else if result = -2 then "VK_ERROR_OUT_OF_DEVICE_MEMORY"
  else if result = -3 then "VK_ERROR_INITIALIZATION_FAILED"
  else if result = -4 then "VK_ERROR_DEVICE_LOST"
  else if result = -5 then "VK_ERROR_MEMORY_MAP_FAILED"
  else if result = -6 then "VK_ERROR_LAYER_NOT_PRESENT"
  else if result = -7 then "VK_ERROR_EXTENSION_NOT_PRESENT"
  else if result = -8 then "VK_ERROR_FEATURE_NOT_PRESENT"
  else if result = -9 then "VK_ERROR_INCOMPATIBLE_DRIVER"
  else if result = -10 then "VK_ERROR_TOO_MANY_OBJECTS"
  else if result = -11 then "VK_ERROR_FORMAT_NOT_SUPPORTED"
  else if result = -12 then "VK_ERROR_FRAGMENTED_POOL"
  else if result = -13 then "VK_ERROR_UNKNOWN"
  else if result = -1000000000 then "VK_ERROR_SURFACE_LOST_KHR"
  else if result = -1000000001 then "VK_ERROR_NATIVE_WINDOW_IN_USE_KHR"
  else if result = 1000001003 then "VK_SUBOPTIMAL_KHR"
  else if result = -1000001004 then "VK_ERROR_OUT_OF_DATE_KHR"
  else "Unhandled VkResult"

/-- The macro `VK_REPORT(call)`: the exception thrown for a failed driver call,
`call` being the stringified call expression. -/
def VK_REPORT (call : String) (result : VkResult) : frException :=
  frException.frVulkanException
    (call ++ " failed with error " ++ string_VkResult result ++ "!")

/-- The macro `VK_WRAPPER(call)`: passes on success, throws `VK_REPORT` otherwise. -/
def VK_WRAPPER (call : String) (result : VkResult) : Except frException Unit :=
  if result ≠ VK_SUCCESS then Except.error (VK_REPORT call result) else Except.ok ()

/-! ## frSwapchain -/

/-- The member `mSupportDetails` of `frSwapchain`. -/
structure frSwapChainSupportDetails where
  capabilities : VkSurfaceCapabilitiesKHR
  formats : List VkSurfaceFormatKHR
  presentModes : List VkPresentModeKHR
deriving DecidableEq

/-- The data members of `frSwapchain`. -/
structure frSwapchain where
  mSupportDetails : frSwapChainSupportDetails
  mDesiredFormats : List VkSurfaceFormatKHR
  mDesiredPresentModes : List VkPresentModeKHR
  mFormat : VkSurfaceFormatKHR
  mPresentMode : VkPresentModeKHR
  mExtent : VkExtent2D
  mImageCount : Nat
  mImages : List Nat
  mSwapchain : Nat
  mDevice : Nat
deriving DecidableEq

/-- The members of `frRenderer` that the methods below read or write, with the
defaults of the header where a definition below relies on them. -/
structure frRenderer where
  mPhysicalDevice : Nat
  mDevice : Nat
  mSurface : Nat
  mGraphicsQueueFamily : Nat
  mPresentQueueFamily : Nat
  mGraphicsQueueSet : Bool := false
  mPresentQueueSet : Bool := false
  mDeviceExtensions : List String := ["VK_KHR_swapchain"]
deriving DecidableEq

/-- What the surface and the driver answer during one run of
`frSwapchain::initialize`: the three surface queries, the drawable size given by
`glfwGetFramebufferSize` (two C `int`s), and the outcome of
`vkCreateSwapchainKHR` with the handle and images it yields. -/
structure SwapchainEnv where
  capabilities : VkSurfaceCapabilitiesKHR
  formats : List VkSurfaceFormatKHR
  presentModes : List VkPresentModeKHR
  framebufferWidth : Int
  framebufferHeight : Int
  createResult : VkResult
  createdSwapchain : Nat
  swapchainImages : List Nat
deriving DecidableEq

/-- The block "Get swapchain details": capabilities are overwritten; the format
and present-mode vectors are resized and refilled only when the reported count
is not zero, and keep their previous content otherwise. -/
def querySupport (prev : frSwapChainSupportDetails) (env : SwapchainEnv) :
    frSwapChainSupportDetails :=
  { capabilities := env.capabilities
    formats := if env.formats.length ≠ 0 then env.formats else prev.formats
    presentModes :=
      if env.presentModes.length ≠ 0 then env.presentModes else prev.presentModes }

/-- Inner loop of "Choose format": the first available entry whose format and
colour space equal those of the desired entry `format`. -/
def findAvailableFormat (format : VkSurfaceFormatKHR) :
    List VkSurfaceFormatKHR → Option VkSurfaceFormatKHR
  | [] => none
  | available :: rest =>
    if available.format = format.format ∧ available.colorSpace = format.colorSpace then
      some available
    else findAvailableFormat format rest

/-- Outer loop of "Choose format" over the desired formats; `mFormat` is the
value held when no desired entry is found. -/
def chooseFormatLoop (formats : List VkSurfaceFormatKHR) (mFormat : VkSurfaceFormatKHR) :
    List VkSurfaceFormatKHR → VkSurfaceFormatKHR
  | [] => mFormat
  | format :: rest =>
    match findAvailableFormat format formats with
    | some available => available
    | none => chooseFormatLoop formats mFormat rest

/-- The block "Choose format". `mSupportDetails.formats[0]` is read first: on an
empty vector that read is undefined, rendered as `none`. -/
def chooseFormat (formats desired : List VkSurfaceFormatKHR) : Option VkSurfaceFormatKHR :=
  match formats with
  | [] => none
  | first :: _ => some (chooseFormatLoop formats first desired)

/-- Inner loop of "Choose present mode". -/
def findAvailableMode (presentMode : VkPresentModeKHR) :
    List VkPresentModeKHR → Option VkPresentModeKHR
  | [] => none
  | mode :: rest => if mode = presentMode then some mode else findAvailableMode presentMode rest

/-- Outer loop of "Choose present mode". -/
def choosePresentModeLoop (presentModes : List VkPresentModeKHR)
    (mPresentMode : VkPresentModeKHR) : List VkPresentModeKHR → VkPresentModeKHR
  | [] => mPresentMode
  | presentMode :: rest =>
    match findAvailableMode presentMode presentModes with
    | some mode => mode
    | none => choosePresentModeLoop presentModes mPresentMode rest

/-- The block "Choose present mode", starting from FIFO. -/
def choosePresentMode (presentModes desired : List VkPresentModeKHR) : VkPresentModeKHR :=
  choosePresentModeLoop presentModes VK_PRESENT_MODE_FIFO_KHR desired

/-- Conversion `static_cast<uint32_t>(x)` of a C `int`. -/
def static_cast_uint32 (x : Int) : Nat := (x % 4294967296).toNat

/-- The library function `std::clamp(v, lo, hi)`: `lo` if `v < lo`, `hi` if
`hi < v`, else `v`. -/
def std_clamp (v lo hi : Nat) : Nat :=
  if v < lo then lo else if hi < v then hi else v

/-- The block "Choose extent". -/
def chooseExtent (capabilities : VkSurfaceCapabilitiesKHR) (width height : Int) : VkExtent2D :=
  if capabilities.currentExtent.width ≠ UINT32_MAX then capabilities.currentExtent
  else
    { width := std_clamp (static_cast_uint32 width)
        capabilities.minImageExtent.width capabilities.maxImageExtent.width
      height := std_clamp (static_cast_uint32 height)
        capabilities.minImageExtent.height capabilities.maxImageExtent.height }

/-- The image count computation: `minImageCount + 1` in `uint32_t` arithmetic,
lowered to `maxImageCount` when that is positive and exceeded. -/
def chooseImageCount (capabilities : VkSurfaceCapabilitiesKHR) : Nat :=
  let mImageCount := (capabilities.minImageCount + 1) % 4294967296
  if capabilities.maxImageCount > 0 ∧ mImageCount > capabilities.maxImageCount then
    capabilities.maxImageCount
  else mImageCount

/-- One run of `frSwapchain::initialize` that got as far as calling
`vkCreateSwapchainKHR`: the format given to `renderer->setSurfaceFormat`, the
create info passed to the driver, and how the call ended (the object after a
normal return, or the exception thrown). -/
structure InitializeRun where
  surfaceFormat : Nat
  createInfo : VkSwapchainCreateInfoKHR
  result : Except frException frSwapchain

/-- The format pair a run asked the driver for. -/
def InitializeRun.chosenFormat (run : InitializeRun) : VkSurfaceFormatKHR :=
  { format := run.createInfo.imageFormat, colorSpace := run.createInfo.imageColorSpace }

/-- The method `frSwapchain::initialize(renderer, window)`. `none` stands for the
undefined read of `formats[0]` on an empty vector. The array `queueFamilyIndices`
is declared inside the block of the `if`, so by the time `vkCreateSwapchainKHR`
reads the create info its lifetime has ended. -/
def frSwapchain.initialize (self : frSwapchain) (renderer : frRenderer) (env : SwapchainEnv) :
    Option InitializeRun :=
  let mSupportDetails := querySupport self.mSupportDetails env
  match chooseFormat mSupportDetails.formats self.mDesiredFormats with
  | none => none
  | some mFormat =>
    let mPresentMode := choosePresentMode mSupportDetails.presentModes self.mDesiredPresentModes
    let mExtent :=
      chooseExtent mSupportDetails.capabilities env.framebufferWidth env.framebufferHeight
    let mImageCount := chooseImageCount mSupportDetails.capabilities
    let concurrent : Bool := renderer.mGraphicsQueueFamily ≠ renderer.mPresentQueueFamily
    let createInfo : VkSwapchainCreateInfoKHR :=
      { surface := renderer.mSurface
        minImageCount := mImageCount
        imageFormat := mFormat.format
        imageColorSpace := mFormat.colorSpace
        imageExtent := mExtent
        imageArrayLayers := 1
        imageSharingMode :=
          if concurrent then VkSharingMode.VK_SHARING_MODE_CONCURRENT
          else VkSharingMode.VK_SHARING_MODE_EXCLUSIVE
        queueFamilyIndexCount := if concurrent then 2 else 0
        pQueueFamilyIndices :=
          if concurrent then
            ArrayPointer.dangling [renderer.mGraphicsQueueFamily, renderer.mPresentQueueFamily]
          else ArrayPointer.null
        preTransform := mSupportDetails.capabilities.currentTransform
        presentMode := mPresentMode
        clipped := true }
    some
      { surfaceFormat := mFormat.format
        createInfo := createInfo
        result :=
          match VK_WRAPPER
            "vkCreateSwapchainKHR(renderer->mDevice, &createInfo, nullptr, &mSwapchain)"
            env.createResult with
          | Except.error e => Except.error e
          | Except.ok _ =>
            Except.ok
              { mSupportDetails := mSupportDetails
                mDesiredFormats := self.mDesiredFormats
                mDesiredPresentModes := self.mDesiredPresentModes
                mFormat := mFormat
                mPresentMode := mPresentMode
                mExtent := mExtent
                mImageCount := env.swapchainImages.length
                mImages := env.swapchainImages
                mSwapchain := env.createdSwapchain
                mDevice := renderer.mDevice } }

/-- A `frSwapchain` as its constructor leaves it before any setter is called: the
vectors are empty; the scalar members hold no meaningful value yet. -/
def frSwapchain.fresh : frSwapchain :=
  { mSupportDetails :=
      { capabilities := ⟨0, 0, ⟨0, 0⟩, ⟨0, 0⟩, ⟨0, 0⟩, 0⟩, formats := [], presentModes := [] }
    mDesiredFormats := []
    mDesiredPresentModes := []
    mFormat := ⟨0, 0⟩
    mPresentMode := 0
    mExtent := ⟨0, 0⟩
    mImageCount := 0
    mImages := []
    mSwapchain := 0
    mDevice := 0 }

/-- The setter `setDesiredFormats`. -/
def frSwapchain.setDesiredFormats (self : frSwapchain) (formats : List VkSurfaceFormatKHR) :
    frSwapchain :=
  { self with mDesiredFormats := formats }

/-- The setter `setDesiredPresentModes`. -/
def frSwapchain.setDesiredPresentModes (self : frSwapchain)
    (presentModes : List VkPresentModeKHR) : frSwapchain :=
  { self with mDesiredPresentModes := presentModes }

/-! ## frRenderer::FindMemoryType -/

/-- The fields of `VkPhysicalDeviceMemoryProperties` that `FindMemoryType` reads:
the count and, per entry of the `memoryTypes` array, its `propertyFlags`. -/
structure VkPhysicalDeviceMemoryProperties where
  memoryTypeCount : Nat
  memoryTypes : List Nat
deriving DecidableEq

/-- The loop condition of `FindMemoryType` at index `i`:
`(typeFilter & (1 << i)) && (memoryTypes[i].propertyFlags & properties) == properties`.
The shift is a 32-bit one; it is only defined for `i < 32`. -/
def memoryTypeMatches (memProperties : VkPhysicalDeviceMemoryProperties)
    (typeFilter properties : Nat) (i : Nat) : Bool :=
  (typeFilter &&& ((1 <<< i) % 4294967296) != 0) &&
    ((memProperties.memoryTypes.getD i 0) &&& properties == properties)

/-- The function `frRenderer::FindMemoryType(typeFilter, properties)`, the table being
what `vkGetPhysicalDeviceMemoryProperties` reports: the loop returns at the first
index that matches and the function throws when the loop runs out. -/
def FindMemoryType (memProperties : VkPhysicalDeviceMemoryProperties)
    (typeFilter properties : Nat) : Except frException Nat :=
  match (List.range memProperties.memoryTypeCount).find?
      (memoryTypeMatches memProperties typeFilter properties) with
  | some i => Except.ok i
  | none => Except.error (frException.frVulkanException "Failed to find suitable memory type!")

/-! ## frImage -/

/-- Image layouts (`VkImageLayout`), by numeric value. -/
abbrev VkImageLayout := Nat

def VK_IMAGE_LAYOUT_UNDEFINED : VkImageLayout := 0
def VK_IMAGE_LAYOUT_SHADER_READ_ONLY_OPTIMAL : VkImageLayout := 5
def VK_IMAGE_LAYOUT_TRANSFER_SRC_OPTIMAL : VkImageLayout := 6
def VK_IMAGE_LAYOUT_TRANSFER_DST_OPTIMAL : VkImageLayout := 7

def VK_IMAGE_ASPECT_COLOR_BIT : Nat := 1
def VK_ACCESS_SHADER_READ_BIT : Nat := 32
def VK_ACCESS_TRANSFER_READ_BIT : Nat := 2048
def VK_ACCESS_TRANSFER_WRITE_BIT : Nat := 4096
def VK_PIPELINE_STAGE_FRAGMENT_SHADER_BIT : Nat := 128
def VK_PIPELINE_STAGE_TRANSFER_BIT : Nat := 4096
def VK_FORMAT_FEATURE_SAMPLED_IMAGE_FILTER_LINEAR_BIT : Nat := 4096
def VK_FILTER_LINEAR : Nat := 1
def VK_QUEUE_FAMILY_IGNORED : Nat := 4294967295
def VK_COMMAND_BUFFER_LEVEL_PRIMARY : Nat := 0
def VK_COMMAND_BUFFER_USAGE_ONE_TIME_SUBMIT_BIT : Nat := 1
def VK_NULL_HANDLE : Nat := 0

/-- The structure `frImage::frImageInfo`, with its default member values. -/
structure frImageInfo where
  width : Int
  height : Int
  format : Nat
  usage : Nat
  memory : Bool
  memoryProperties : Nat
  imageAspect : Nat := VK_IMAGE_ASPECT_COLOR_BIT
  generateMipmaps : Bool := false
  mipLevels : Nat := 1
  samples : Nat := 1
deriving DecidableEq

/-- The data members of `frImage`, with their default values. -/
structure frImage where
  mInfo : frImageInfo :=
    { width := 0, height := 0, format := 0, usage := 0, memory := false, memoryProperties := 0 }
  mDestroyImage : Bool := true
  mImage : Nat := VK_NULL_HANDLE
  mImageMemory : Nat := VK_NULL_HANDLE
  mImageView : Nat := VK_NULL_HANDLE
  mDevice : Nat := VK_NULL_HANDLE
deriving DecidableEq

/-- The expression `static_cast<uint32_t>(std::floor(std::log2(x)))` for a C `int`
`x`: the argument is converted to `double` without loss, and for `1 ≤ x < 2^31`
the result is the index of the highest set bit of `x`, the value every accurate
double-precision logarithm leads to (`floorLog2_of_accurate_log2`). For `x ≤ 0`
the source converts an infinity or a NaN, which is undefined; the value given
here for such `x` carries no meaning. -/
def floorLog2 (x : Int) : Nat := Nat.log2 x.toNat

/-- The first statement of both `frImage::initialize` overloads: the right-hand
side assigned to `info.mipLevels`, in `uint32_t` arithmetic. -/
def computeMipLevels (info : frImageInfo) : Nat :=
  if info.generateMipmaps then (floorLog2 (max info.width info.height) + 1) % 4294967296 else 1

/-- What the driver answers during one `frImage::initialize`. -/
structure ImageEnv where
  createImageResult : VkResult
  createdImage : Nat
  memoryTypeBits : Nat
  memProperties : VkPhysicalDeviceMemoryProperties
  allocateResult : VkResult
  allocatedMemory : Nat
  createViewResult : VkResult
  createdView : Nat
deriving DecidableEq

/-- The block "Create and bind image memory" shared by both overloads. -/
def frImage.bindMemory (self : frImage) (info : frImageInfo) (env : ImageEnv) :
    frImage × Except frException Unit :=
  if info.memory then
    match FindMemoryType env.memProperties env.memoryTypeBits info.memoryProperties with
    | Except.error e => (self, Except.error e)
    | Except.ok _ =>
      match VK_WRAPPER
        "vkAllocateMemory(renderer->mDevice, &allocInfo, nullptr, &mImageMemory)"
        env.allocateResult with
      | Except.error e => (self, Except.error e)
      | Except.ok _ => ({ self with mImageMemory := env.allocatedMemory }, Except.ok ())
  else (self, Except.ok ())

/-- The method `frImage::createView(info)`. -/
def frImage.createView (self : frImage) (_info : frImageInfo) (env : ImageEnv) :
    frImage × Except frException Unit :=
  match VK_WRAPPER "vkCreateImageView(mDevice, &createInfo, nullptr, &mImageView)"
    env.createViewResult with
  | Except.error e => (self, Except.error e)
  | Except.ok _ => ({ self with mImageView := env.createdView }, Except.ok ())

/-- The tail common to both overloads: bind memory, then `mInfo = info`,
`mDevice = renderer->mDevice`, `createView(info)`. -/
def frImage.finishInitialize (self : frImage) (renderer : frRenderer) (info : frImageInfo)
    (env : ImageEnv) : frImage × Except frException Unit :=
  match self.bindMemory info env with
  | (self, Except.error e) => (self, Except.error e)
  | (self, Except.ok _) =>
    frImage.createView { self with mInfo := info, mDevice := renderer.mDevice } info env

/-- The overload `frImage::initialize(renderer, info)` (fully owned image): the
object after the call, and the exception if one was thrown. -/
def frImage.initialize (self : frImage) (renderer : frRenderer) (info : frImageInfo)
    (env : ImageEnv) : frImage × Except frException Unit :=
  let info := { info with mipLevels := computeMipLevels info }
  match VK_WRAPPER "vkCreateImage(renderer->mDevice, &createInfo, nullptr, &mImage)"
    env.createImageResult with
  | Except.error e => (self, Except.error e)
  | Except.ok _ =>
    frImage.finishInitialize { self with mImage := env.createdImage } renderer info env

/-- The overload `frImage::initialize(renderer, image, info)` (borrowed handle). -/
def frImage.initializeBorrowed (self : frImage) (renderer : frRenderer) (image : Nat)
    (info : frImageInfo) (env : ImageEnv) : frImage × Except frException Unit :=
  let self := { self with mDestroyImage := false, mImage := image }
  let info := { info with mipLevels := computeMipLevels info }
  frImage.finishInitialize self renderer info env

/-! ### Commands recorded by generateMipmaps -/

structure VkOffset3D where
  x : Int
  y : Int
  z : Int
deriving DecidableEq

structure VkImageSubresourceLayers where
  aspectMask : Nat
  mipLevel : Nat
  baseArrayLayer : Nat
  layerCount : Nat
deriving DecidableEq

/-- A blit region; `srcOffsets` and `dstOffsets` are the two corners. -/
structure VkImageBlit where
  srcSubresource : VkImageSubresourceLayers
  srcOffsets : VkOffset3D × VkOffset3D
  dstSubresource : VkImageSubresourceLayers
  dstOffsets : VkOffset3D × VkOffset3D
deriving DecidableEq

structure VkImageMemoryBarrier where
  srcAccessMask : Nat
  dstAccessMask : Nat
  oldLayout : VkImageLayout
  newLayout : VkImageLayout
  srcQueueFamilyIndex : Nat
  dstQueueFamilyIndex : Nat
  image : Nat
  aspectMask : Nat
  baseMipLevel : Nat
  levelCount : Nat
  baseArrayLayer : Nat
  layerCount : Nat
deriving DecidableEq

/-- The driver calls issued by the single-time command helpers and by the
recording code of `frImage`, with the arguments that matter. -/
inductive DriverCall where
  | vkAllocateCommandBuffers (level : Nat) (commandBufferCount : Nat)
  | vkBeginCommandBuffer (flags : Nat)
  | vkCmdPipelineBarrier (srcStageMask dstStageMask : Nat) (barrier : VkImageMemoryBarrier)
  | vkCmdBlitImage (srcImage : Nat) (srcImageLayout : VkImageLayout) (dstImage : Nat)
      (dstImageLayout : VkImageLayout) (blit : VkImageBlit) (filter : Nat)
  | vkEndCommandBuffer
  | vkQueueSubmit (waitSemaphores signalSemaphores : List Nat) (fence : Nat)
  | vkQueueWaitIdle
  | vkFreeCommandBuffers (commandBufferCount : Nat)
  | vkDestroyImageView (imageView : Nat)
  | vkDestroyImage (image : Nat)
  | vkDestroyBuffer (buffer : Nat)
  | vkFreeMemory (memory : Nat)
deriving DecidableEq

/-- What the driver answers to the calls of the single-time command helpers:
the results of `vkAllocateCommandBuffers`, `vkBeginCommandBuffer`,
`vkEndCommandBuffer` and of the `vkQueueSubmit` of `endSingleTime`. -/
structure CommandsEnv where
  allocateResult : VkResult
  beginResult : VkResult
  endResult : VkResult
  submitResult : VkResult
deriving DecidableEq

/-- The method `frCommands::beginSingleTime()`: the calls issued, and the
exception if one was thrown. -/
def beginSingleTime (env : CommandsEnv) : List DriverCall × Except frException Unit :=
  match VK_WRAPPER "vkAllocateCommandBuffers(mDevice, &allocInfo, buffers)"
    env.allocateResult with
  | Except.error e =>
    ([DriverCall.vkAllocateCommandBuffers VK_COMMAND_BUFFER_LEVEL_PRIMARY 1], Except.error e)
  | Except.ok _ =>
    ([DriverCall.vkAllocateCommandBuffers VK_COMMAND_BUFFER_LEVEL_PRIMARY 1,
      DriverCall.vkBeginCommandBuffer VK_COMMAND_BUFFER_USAGE_ONE_TIME_SUBMIT_BIT],
     VK_WRAPPER "vkBeginCommandBuffer(cmdBuf, &beginInfo)" env.beginResult)

/-- The method `frCommands::endSingleTime(renderer, cmdBuf)`. Only `end` goes
through the call wrapper; the value returned by `vkQueueSubmit`
(`env.submitResult`) is not looked at, nor is that of `vkQueueWaitIdle`. -/
def endSingleTime (env : CommandsEnv) : List DriverCall × Except frException Unit :=
  match VK_WRAPPER "vkEndCommandBuffer(cmdBuf)" env.endResult with
  | Except.error e => ([DriverCall.vkEndCommandBuffer], Except.error e)
  | Except.ok _ =>
    ([DriverCall.vkEndCommandBuffer, DriverCall.vkQueueSubmit [] [] VK_NULL_HANDLE,
      DriverCall.vkQueueWaitIdle, DriverCall.vkFreeCommandBuffers 1], Except.ok ())

/-- The local variables of the loop of `generateMipmaps` that change from one
iteration to the next, and the calls recorded so far. -/
structure MipLoopState where
  mipWidth : Int
  mipHeight : Int
  recorded : List DriverCall

/-- The variable `barrier` of `generateMipmaps` at a `vkCmdPipelineBarrier` call. -/
def mipBarrier (self : frImage) (baseMipLevel : Nat) (oldLayout newLayout : VkImageLayout)
    (srcAccessMask dstAccessMask : Nat) : VkImageMemoryBarrier :=
  { srcAccessMask := srcAccessMask
    dstAccessMask := dstAccessMask
    oldLayout := oldLayout
    newLayout := newLayout
    srcQueueFamilyIndex := VK_QUEUE_FAMILY_IGNORED
    dstQueueFamilyIndex := VK_QUEUE_FAMILY_IGNORED
    image := self.mImage
    aspectMask := VK_IMAGE_ASPECT_COLOR_BIT
    baseMipLevel := baseMipLevel
    levelCount := 1
    baseArrayLayer := 0
    layerCount := 1 }

/-- The variable `blit` of iteration `i`. -/
def mipBlit (mipWidth mipHeight : Int) (i : Nat) : VkImageBlit :=
  { srcSubresource :=
      { aspectMask := VK_IMAGE_ASPECT_COLOR_BIT, mipLevel := i - 1, baseArrayLayer := 0,
        layerCount := 1 }
    srcOffsets := (⟨0, 0, 0⟩, ⟨mipWidth, mipHeight, 1⟩)
    dstSubresource :=
      { aspectMask := VK_IMAGE_ASPECT_COLOR_BIT, mipLevel := i, baseArrayLayer := 0,
        layerCount := 1 }
    dstOffsets :=
      (⟨0, 0, 0⟩,
       ⟨if mipWidth > 1 then Int.tdiv mipWidth 2 else 1,
        if mipHeight > 1 then Int.tdiv mipHeight 2 else 1, 1⟩) }

/-- The body of the loop of `generateMipmaps` for the index `i`. -/
def mipLoopBody (self : frImage) (s : MipLoopState) (i : Nat) : MipLoopState :=
  { mipWidth := if s.mipWidth > 1 then Int.tdiv s.mipWidth 2 else s.mipWidth
    mipHeight := if s.mipHeight > 1 then Int.tdiv s.mipHeight 2 else s.mipHeight
    recorded := s.recorded ++
      [DriverCall.vkCmdPipelineBarrier VK_PIPELINE_STAGE_TRANSFER_BIT
          VK_PIPELINE_STAGE_TRANSFER_BIT
          (mipBarrier self (i - 1) VK_IMAGE_LAYOUT_TRANSFER_DST_OPTIMAL
            VK_IMAGE_LAYOUT_TRANSFER_SRC_OPTIMAL VK_ACCESS_TRANSFER_WRITE_BIT
            VK_ACCESS_TRANSFER_READ_BIT),
       DriverCall.vkCmdBlitImage self.mImage VK_IMAGE_LAYOUT_TRANSFER_SRC_OPTIMAL self.mImage
          VK_IMAGE_LAYOUT_TRANSFER_DST_OPTIMAL (mipBlit s.mipWidth s.mipHeight i)
          VK_FILTER_LINEAR,
       DriverCall.vkCmdPipelineBarrier VK_PIPELINE_STAGE_TRANSFER_BIT
          VK_PIPELINE_STAGE_FRAGMENT_SHADER_BIT
          (mipBarrier self (i - 1) VK_IMAGE_LAYOUT_TRANSFER_SRC_OPTIMAL
            VK_IMAGE_LAYOUT_SHADER_READ_ONLY_OPTIMAL VK_ACCESS_TRANSFER_READ_BIT
            VK_ACCESS_SHADER_READ_BIT)] }

/-- The loop `for (uint32_t i = 1; i < mInfo.mipLevels; i++)`, entered with
`mipWidth = mInfo.width`, `mipHeight = mInfo.height` and nothing recorded. -/
def mipLoop (self : frImage) : MipLoopState :=
  (List.range' 1 (self.mInfo.mipLevels - 1)).foldl (mipLoopBody self)
    { mipWidth := self.mInfo.width, mipHeight := self.mInfo.height, recorded := [] }

/-- Everything `generateMipmaps` records into the command buffer: the loop, then
the barrier on level `mInfo.mipLevels - 1` (a `uint32_t` subtraction). -/
def mipRecording (self : frImage) : List DriverCall :=
  (mipLoop self).recorded ++
    [DriverCall.vkCmdPipelineBarrier VK_PIPELINE_STAGE_TRANSFER_BIT
      VK_PIPELINE_STAGE_FRAGMENT_SHADER_BIT
      (mipBarrier self ((self.mInfo.mipLevels + 4294967295) % 4294967296)
        VK_IMAGE_LAYOUT_TRANSFER_DST_OPTIMAL VK_IMAGE_LAYOUT_SHADER_READ_ONLY_OPTIMAL
        VK_ACCESS_TRANSFER_WRITE_BIT VK_ACCESS_SHADER_READ_BIT)]

/-- The method `frImage::generateMipmaps(renderer, commands)`:
`optimalTilingFeatures` is what `vkGetPhysicalDeviceFormatProperties` reports for
the image format. The result is the list of driver calls issued, in order, and
the exception if one was thrown. -/
def frImage.generateMipmaps (self : frImage) (optimalTilingFeatures : Nat)
    (env : CommandsEnv) : List DriverCall × Except frException Unit :=
  if optimalTilingFeatures &&& VK_FORMAT_FEATURE_SAMPLED_IMAGE_FILTER_LINEAR_BIT = 0 then
    ([], Except.error
      (frException.frVulkanException "Texture image format does not support linear blitting!"))
  else
    match beginSingleTime env with
    | (calls, Except.error e) => (calls, Except.error e)
    | (calls, Except.ok _) =>
      let ended := endSingleTime env
      (calls ++ mipRecording self ++ ended.1, ended.2)

/-- The blit regions among a list of driver calls, in order. -/
def blitsOf : List DriverCall → List VkImageBlit
  | [] => []
  | DriverCall.vkCmdBlitImage _ _ _ _ blit _ :: rest => blit :: blitsOf rest
  | _ :: rest => blitsOf rest

/-- Width and height of the source region of a blit. -/
def VkImageBlit.srcExtent (b : VkImageBlit) : Int × Int :=
  (b.srcOffsets.2.x - b.srcOffsets.1.x, b.srcOffsets.2.y - b.srcOffsets.1.y)

/-- Width and height of the destination region of a blit. -/
def VkImageBlit.dstExtent (b : VkImageBlit) : Int × Int :=
  (b.dstOffsets.2.x - b.dstOffsets.1.x, b.dstOffsets.2.y - b.dstOffsets.1.y)

/-! ### Layout tracking

The layout each mip level is in, as a command buffer executes: a barrier moves
the levels of its range from `oldLayout` to `newLayout` and is only correct when
they are in `oldLayout`; a blit leaves layouts alone and needs its source and
destination levels in the layouts it names. -/

/-- Layout of every mip level of one image. -/
abbrev LayoutState := Nat → VkImageLayout

/-- Effect of one driver call on the layouts; `none` when the call names a
layout the level is not in. -/
def stepLayout (layouts : LayoutState) : DriverCall → Option LayoutState
  | DriverCall.vkCmdPipelineBarrier _ _ b =>
    if (List.range' b.baseMipLevel b.levelCount).all (fun l => layouts l == b.oldLayout) then
      some (fun l =>
        if b.baseMipLevel ≤ l ∧ l < b.baseMipLevel + b.levelCount then b.newLayout
        else layouts l)
    else none
  | DriverCall.vkCmdBlitImage _ srcLayout _ dstLayout blit _ =>
    if layouts blit.srcSubresource.mipLevel = srcLayout ∧
        layouts blit.dstSubresource.mipLevel = dstLayout then some layouts
    else none
  | _ => some layouts

/-- Layouts after a list of driver calls, `none` as soon as one call is wrong. -/
def runLayouts (layouts : LayoutState) : List DriverCall → Option LayoutState
  | [] => some layouts
  | c :: rest =>
    match stepLayout layouts c with
    | none => none
    | some next => runLayouts next rest

/-! ## Sample inputs -/

/-- A renderer whose graphics and present queue families coincide. -/
def sampleRenderer : frRenderer :=
  { mPhysicalDevice := 1, mDevice := 2, mSurface := 3, mGraphicsQueueFamily := 0,
    mPresentQueueFamily := 0, mGraphicsQueueSet := true, mPresentQueueSet := true }

/-- A surface that leaves the extent to the swapchain. -/
def sampleCapabilities : VkSurfaceCapabilitiesKHR :=
  { minImageCount := 2, maxImageCount := 8, currentExtent := ⟨4294967295, 4294967295⟩,
    minImageExtent := ⟨1, 1⟩, maxImageExtent := ⟨4096, 4096⟩, currentTransform := 1 }

/-- A surface report with three formats and two present modes, an 800x600
drawable, and a driver that creates the swapchain with three images. -/
def sampleEnv : SwapchainEnv :=
  { capabilities := sampleCapabilities
    formats := [⟨37, 0⟩, ⟨44, 0⟩, ⟨50, 0⟩]
    presentModes := [VK_PRESENT_MODE_FIFO_KHR, VK_PRESENT_MODE_MAILBOX_KHR]
    framebufferWidth := 800
    framebufferHeight := 600
    createResult := VK_SUCCESS
    createdSwapchain := 7
    swapchainImages := [10, 11, 12] }

/-- A swapchain object set up through its two setters: it prefers the format
pair `(50, 0)`, then `(43, 0)`, and the mailbox mode. -/
def sampleSwapchain : frSwapchain :=
  (frSwapchain.fresh.setDesiredFormats [⟨50, 0⟩, ⟨43, 0⟩]).setDesiredPresentModes
    [VK_PRESENT_MODE_MAILBOX_KHR]

/-- The sample surface, reporting the largest `uint32_t` as its minimum image count. -/
def wrapEnv : SwapchainEnv :=
  { sampleEnv with capabilities := { sampleCapabilities with minImageCount := 4294967295 } }

/-- The sample surface, reporting no present mode at all. -/
def zeroModesEnv : SwapchainEnv := { sampleEnv with presentModes := [] }

/-- A memory-type table with three types: device-local (flags 1), host-visible and
coherent (flags 6), and host-visible, coherent and cached (flags 14); the rest of
the 32-entry array is zero. -/
def sampleMemory : VkPhysicalDeviceMemoryProperties :=
  { memoryTypeCount := 3, memoryTypes := [1, 6, 14] ++ List.replicate 29 0 }

/-- A driver that lets every call of `frImage::initialize` succeed and reports
the sample memory-type table. -/
def sampleImageEnv : ImageEnv :=
  { createImageResult := VK_SUCCESS, createdImage := 21, memoryTypeBits := 7,
    memProperties := sampleMemory, allocateResult := VK_SUCCESS, allocatedMemory := 22,
    createViewResult := VK_SUCCESS, createdView := 23 }

/-- A 256x256 texture description asking for mipmaps; the caller left a stray
value in `mipLevels`. -/
def sampleImageInfo : frImageInfo :=
  { width := 256, height := 256, format := 43, usage := 7, memory := true,
    memoryProperties := 1, generateMipmaps := true, mipLevels := 5 }

/-- A driver that lets the single-time command helpers succeed. -/
def sampleCommandsEnv : CommandsEnv :=
  { allocateResult := VK_SUCCESS, beginResult := VK_SUCCESS, endResult := VK_SUCCESS,
    submitResult := VK_SUCCESS }

/-- An image object as its constructor leaves it. -/
def frImage.fresh : frImage := {}

/-- An image of 256x256 texels holding 9 mip levels. -/
def sampleImage : frImage :=
  { mInfo := { sampleImageInfo with mipLevels := 9 }, mImage := 21, mImageMemory := 22,
    mImageView := 23, mDevice := 2 }

/-- The outcome of initializing a fresh image object from the sample description. -/
def sampleInitialized : frImage × Except frException Unit :=
  frImage.fresh.initialize sampleRenderer sampleImageInfo sampleImageEnv

/-! ## Synchronization, submission, acquire and present -/

def VK_PIPELINE_STAGE_COLOR_ATTACHMENT_OUTPUT_BIT : Nat := 1024
def VK_ERROR_DEVICE_LOST : VkResult := -4

/-- The data members of `frSynchronization`, with their default values. -/
structure frSynchronization where
  mImageAvailableSemaphore : Nat := VK_NULL_HANDLE
  mRenderFinishedSemaphore : Nat := VK_NULL_HANDLE
  mInFlightFence : Nat := VK_NULL_HANDLE
  mDevice : Nat := VK_NULL_HANDLE
deriving DecidableEq

/-- The fields of `VkSubmitInfo` that `frCommands::submit` fills in; the defaults
are those of the value-initialized structure. -/
structure VkSubmitInfo where
  waitSemaphoreCount : Nat := 0
  pWaitSemaphores : ArrayPointer := ArrayPointer.null
  pWaitDstStageMask : ArrayPointer := ArrayPointer.null
  commandBufferCount : Nat := 0
  pCommandBuffers : ArrayPointer := ArrayPointer.null
  signalSemaphoreCount : Nat := 0
  pSignalSemaphores : ArrayPointer := ArrayPointer.null
deriving DecidableEq

/-- The arguments of the `vkQueueSubmit` call of `frCommands::submit`. -/
structure SubmitCall where
  submitInfo : VkSubmitInfo
  fence : Nat
deriving DecidableEq

/-- The static method `frCommands::submit(renderer, cmdBuf, sync)`, `sync` being
`none` for a null pointer and `result` what `vkQueueSubmit` returns: the call as
the driver receives it, and the exception if one was thrown. The arrays
`waitSemaphores`, `waitStages` and `signalSemaphores` are locals of the
`if (sync)` block, and `vkQueueSubmit` is called after that block has been left,
so the three pointers stored in `submitInfo` are dangling at the call;
`pCommandBuffers` is the address of the parameter `cmdBuf`, which is alive. -/
def submit (_renderer : frRenderer) (cmdBuf : Nat) (sync : Option frSynchronization)
    (result : VkResult) : SubmitCall × Except frException Unit :=
  let call : SubmitCall :=
    match sync with
    | some sync =>
      { submitInfo :=
          { waitSemaphoreCount := 1
            pWaitSemaphores := ArrayPointer.dangling [sync.mImageAvailableSemaphore]
            pWaitDstStageMask :=
              ArrayPointer.dangling [VK_PIPELINE_STAGE_COLOR_ATTACHMENT_OUTPUT_BIT]
            signalSemaphoreCount := 1
            pSignalSemaphores := ArrayPointer.dangling [sync.mRenderFinishedSemaphore]
            commandBufferCount := 1
            pCommandBuffers := ArrayPointer.live [cmdBuf] }
        fence := sync.mInFlightFence }
    | none =>
      { submitInfo := { commandBufferCount := 1, pCommandBuffers := ArrayPointer.live [cmdBuf] }
        fence := VK_NULL_HANDLE }
  (call, VK_WRAPPER "vkQueueSubmit(renderer->mGraphicsQueue, 1, &submitInfo, fence)" result)

/-- The method `frRenderer::acquireNextImage(swapchain, sync)`: `result` is what
`vkAcquireNextImageKHR` returns and `imageIndex` the value of the local variable
after the call (0 unless the driver wrote an index). -/
def frRenderer.acquireNextImage (_self : frRenderer) (_swapchain : frSwapchain)
    (_sync : frSynchronization) (result : VkResult) (imageIndex : Nat) :
    Except frException Nat :=
  if result = VK_ERROR_OUT_OF_DATE_KHR then
    Except.error frException.frSwapchainResizeException
  else if result = VK_SUCCESS ∨ result = VK_SUBOPTIMAL_KHR then Except.ok imageIndex
  else
    Except.error (VK_REPORT
      ("vkAcquireNextImageKHR(mDevice, swapchain->mSwapchain, UINT64_MAX, " ++
        "sync->mImageAvailableSemaphore, VK_NULL_HANDLE, &imageIndex)") result)

/-- The fields of `VkPresentInfoKHR` that `frRenderer::present` fills in. -/
structure VkPresentInfoKHR where
  waitSemaphoreCount : Nat := 0
  pWaitSemaphores : ArrayPointer := ArrayPointer.null
  swapchainCount : Nat := 0
  pSwapchains : ArrayPointer := ArrayPointer.null
  pImageIndices : ArrayPointer := ArrayPointer.null
deriving DecidableEq

/-- The method `frRenderer::present(swapchain, sync, imageIndex)`: the present
info handed to `vkQueuePresentKHR`, and the exception if one was thrown; `result`
is what the driver call returns. The three pointers are addresses of members of
the objects passed in, alive during the call. -/
def frRenderer.present (_self : frRenderer) (swapchain : frSwapchain)
    (sync : frSynchronization) (imageIndex : Nat) (result : VkResult) :
    VkPresentInfoKHR × Except frException Unit :=
  let presentInfo : VkPresentInfoKHR :=
    { waitSemaphoreCount := 1
      pWaitSemaphores := ArrayPointer.live [sync.mRenderFinishedSemaphore]
      swapchainCount := 1
      pSwapchains := ArrayPointer.live [swapchain.mSwapchain]
      pImageIndices := ArrayPointer.live [imageIndex] }
  (presentInfo,
    if result = VK_SUCCESS then Except.ok ()
    else if result = VK_ERROR_OUT_OF_DATE_KHR ∨ result = VK_SUBOPTIMAL_KHR then
      Except.error frException.frSwapchainResizeException
    else Except.error (VK_REPORT "vkQueuePresentKHR(mPresentQueue, &presentInfo)" result))

/-! ## Destruction -/

/-- The method `frImage::cleanup()`: the destroy calls it issues, in order. -/
def frImage.cleanup (self : frImage) : List DriverCall :=
  (if self.mImageView ≠ VK_NULL_HANDLE then [DriverCall.vkDestroyImageView self.mImageView]
    else []) ++
  (if self.mImage ≠ VK_NULL_HANDLE ∧ self.mDestroyImage = true then
      [DriverCall.vkDestroyImage self.mImage]
    else []) ++
  (if self.mImageMemory ≠ VK_NULL_HANDLE then [DriverCall.vkFreeMemory self.mImageMemory]
    else [])

/-- The data members of `frBuffer`, with their default values. -/
structure frBuffer where
  mBuffer : Nat := VK_NULL_HANDLE
  mMemory : Nat := VK_NULL_HANDLE
  mDevice : Nat := VK_NULL_HANDLE
deriving DecidableEq

/-- The method `frBuffer::cleanup()`: the destroy calls it issues, in order. -/
def frBuffer.cleanup (self : frBuffer) : List DriverCall :=
  [DriverCall.vkDestroyBuffer self.mBuffer, DriverCall.vkFreeMemory self.mMemory]

/-- A synchronization triple with three distinct handles. -/
def sampleSync : frSynchronization :=
  { mImageAvailableSemaphore := 31, mRenderFinishedSemaphore := 32, mInFlightFence := 33,
    mDevice := 2 }

/-- A driver whose single-time submission fails with a lost device while every
other call succeeds. -/
def lostDeviceCommandsEnv : CommandsEnv :=
  { sampleCommandsEnv with submitResult := VK_ERROR_DEVICE_LOST }

/-- A swapchain image handle borrowed from outside. -/
def borrowedHandle : Nat := 10

/-- A description of a borrowed 800x600 image that asks for no memory. -/
def borrowedImageInfo : frImageInfo :=
  { width := 800, height := 600, format := 50, usage := 0, memory := false,
    memoryProperties := 0 }

/-- Conversion of a `uint32_t` to `int`, as in `*w = mExtent.width`. -/
def toInt32 (x : Nat) : Int :=
  if x % 4294967296 < 2147483648 then ((x % 4294967296 : Nat) : Int)
  else ((x % 4294967296 : Nat) : Int) - 4294967296

/-! ## frRenderer: device queries -/

def VK_SAMPLE_COUNT_1_BIT : Nat := 1
def VK_SAMPLE_COUNT_2_BIT : Nat := 2
def VK_SAMPLE_COUNT_4_BIT : Nat := 4
def VK_SAMPLE_COUNT_8_BIT : Nat := 8
def VK_SAMPLE_COUNT_16_BIT : Nat := 16
def VK_SAMPLE_COUNT_32_BIT : Nat := 32
def VK_SAMPLE_COUNT_64_BIT : Nat := 64

/-- The members of `VkPhysicalDeviceLimits` that the renderer reads. -/
structure VkPhysicalDeviceLimits where
  maxImageDimension2D : Nat
  framebufferColorSampleCounts : Nat
  framebufferDepthSampleCounts : Nat
deriving DecidableEq

/-- The members of `VkPhysicalDeviceProperties` that the renderer reads. -/
structure VkPhysicalDeviceProperties where
  deviceType : Nat
  limits : VkPhysicalDeviceLimits
deriving DecidableEq

/-- The overload `frRenderer::GetMaxUsableSampleCount(properties)`, which reads
no member of the renderer. -/
def GetMaxUsableSampleCount (properties : VkPhysicalDeviceProperties) : Nat :=
  let counts :=
    properties.limits.framebufferColorSampleCounts &&&
      properties.limits.framebufferDepthSampleCounts
  if counts &&& VK_SAMPLE_COUNT_64_BIT ≠ 0 then VK_SAMPLE_COUNT_64_BIT
  else if counts &&& VK_SAMPLE_COUNT_32_BIT ≠ 0 then VK_SAMPLE_COUNT_32_BIT
  else if counts &&& VK_SAMPLE_COUNT_16_BIT ≠ 0 then VK_SAMPLE_COUNT_16_BIT
  else if counts &&& VK_SAMPLE_COUNT_8_BIT ≠ 0 then VK_SAMPLE_COUNT_8_BIT
  else if counts &&& VK_SAMPLE_COUNT_4_BIT ≠ 0 then VK_SAMPLE_COUNT_4_BIT
  else if counts &&& VK_SAMPLE_COUNT_2_BIT ≠ 0 then VK_SAMPLE_COUNT_2_BIT
  else VK_SAMPLE_COUNT_1_BIT

/-- The overload `frRenderer::GetMaxUsableSampleCount()`: `deviceProperties` is
what `vkGetPhysicalDeviceProperties` writes for a device handle. -/
def frRenderer.GetMaxUsableSampleCount (self : frRenderer)
    (deviceProperties : Nat → VkPhysicalDeviceProperties) : Nat :=
  let physicalDeviceProperties := deviceProperties self.mPhysicalDevice
  let counts :=
    physicalDeviceProperties.limits.framebufferColorSampleCounts &&&
      physicalDeviceProperties.limits.framebufferDepthSampleCounts
  if counts &&& VK_SAMPLE_COUNT_64_BIT ≠ 0 then VK_SAMPLE_COUNT_64_BIT
  else if counts &&& VK_SAMPLE_COUNT_32_BIT ≠ 0 then VK_SAMPLE_COUNT_32_BIT
  else if counts &&& VK_SAMPLE_COUNT_16_BIT ≠ 0 then VK_SAMPLE_COUNT_16_BIT
  else if counts &&& VK_SAMPLE_COUNT_8_BIT ≠ 0 then VK_SAMPLE_COUNT_8_BIT
  else if counts &&& VK_SAMPLE_COUNT_4_BIT ≠ 0 then VK_SAMPLE_COUNT_4_BIT
  else if counts &&& VK_SAMPLE_COUNT_2_BIT ≠ 0 then VK_SAMPLE_COUNT_2_BIT
  else VK_SAMPLE_COUNT_1_BIT

/-- The largest count among 64, 32, 16, 8, 4 and 2 whose bit is set in both masks,
and 1 when there is none: the words of the specification, to be compared with
the two overloads. -/
def largestCommonSampleCount (color depth : Nat) : Nat :=
  match ([6, 5, 4, 3, 2, 1].filter (fun k => color.testBit k && depth.testBit k)).map
      (fun k => 2 ^ k) with
  | [] => 1
  | c :: cs => cs.foldl max c

def VK_FORMAT_UNDEFINED : Nat := 0
def VK_IMAGE_TILING_OPTIMAL : Nat := 0
def VK_IMAGE_TILING_LINEAR : Nat := 1

/-- The members of `VkFormatProperties` that `FindSupportedFormat` reads. -/
structure VkFormatProperties where
  linearTilingFeatures : Nat
  optimalTilingFeatures : Nat
deriving DecidableEq

/-- The method `frRenderer::FindSupportedFormat(candidates, tiling, features)`:
`formatProperties` is what `vkGetPhysicalDeviceFormatProperties` writes for a
device handle and a format. -/
def frRenderer.FindSupportedFormat (self : frRenderer)
    (formatProperties : Nat → Nat → VkFormatProperties) :
    List Nat → Nat → Nat → Nat
  | [], _, _ => VK_FORMAT_UNDEFINED
  | format :: rest, tiling, features =>
    let props := formatProperties self.mPhysicalDevice format
    if tiling = VK_IMAGE_TILING_LINEAR ∧ props.linearTilingFeatures &&& features = features then
      format
    else if tiling = VK_IMAGE_TILING_OPTIMAL ∧
        props.optimalTilingFeatures &&& features = features then
      format
    else frRenderer.FindSupportedFormat self formatProperties rest tiling features

/-! ## frRenderer::initialize: physical device and queue families -/

def VK_PHYSICAL_DEVICE_TYPE_OTHER : Nat := 0
def VK_PHYSICAL_DEVICE_TYPE_INTEGRATED_GPU : Nat := 1
def VK_PHYSICAL_DEVICE_TYPE_DISCRETE_GPU : Nat := 2
def VK_PHYSICAL_DEVICE_TYPE_VIRTUAL_GPU : Nat := 3
def VK_PHYSICAL_DEVICE_TYPE_CPU : Nat := 4
def VK_QUEUE_GRAPHICS_BIT : Nat := 1
def INT32_MAX : Int := 2147483647

/-- What the driver answers while `frRenderer::initialize` picks a physical
device and resolves its queue families: the result of the enumeration and the
handles it writes, in order; for a device handle its extension names, its
properties and the flags of its queue families, in order; and whether a queue
family of a device can present to a surface. -/
structure DeviceEnv where
  enumerateResult : VkResult
  devices : List Nat
  availableExtensions : Nat → List String
  properties : Nat → VkPhysicalDeviceProperties
  queueFamilies : Nat → List Nat
  presentSupport : Nat → Nat → Nat → Bool

/-- The `switch` over `properties.deviceType` in the scoring block: what it adds. -/
def deviceTypeBonus (deviceType : Nat) : Int :=
  if deviceType = VK_PHYSICAL_DEVICE_TYPE_VIRTUAL_GPU then 50
  else if deviceType = VK_PHYSICAL_DEVICE_TYPE_CPU then 75
  else if deviceType = VK_PHYSICAL_DEVICE_TYPE_INTEGRATED_GPU then 100
  else if deviceType = VK_PHYSICAL_DEVICE_TYPE_DISCRETE_GPU then 500
  else 0

/-- The body of the loop over the enumerated devices up to the comparison with
`best`: the value of the `int32_t score` for one device. The set of required
extension names is emptied of the available ones, and what is left makes the
score -1; the last addition adds a `uint32_t` to the `int32_t`, which is done in
32-bit unsigned arithmetic and converted back. -/
def deviceScore (self : frRenderer) (env : DeviceEnv) (device : Nat) : Int :=
  let score : Int := 0
  let requiredExtensions :=
    self.mDeviceExtensions.filter (fun e => ¬ (env.availableExtensions device).contains e)
  let score : Int := if requiredExtensions ≠ [] then -1 else score
  if score = 0 then
    let properties := env.properties device
    let score := score + deviceTypeBonus properties.deviceType
    let score := score + (GetMaxUsableSampleCount properties : Int) * 100
    toInt32 ((score % 4294967296).toNat + properties.limits.maxImageDimension2D)
  else score

/-- The score the specification states for a device that has every required
extension: the device-type bonus plus 100 times the maximum usable sample count
plus `maxImageDimension2D`, as an integer. -/
def statedScore (properties : VkPhysicalDeviceProperties) : Int :=
  deviceTypeBonus properties.deviceType + 100 * (GetMaxUsableSampleCount properties : Int) +
    (properties.limits.maxImageDimension2D : Int)

/-- The loop over the enumerated devices: `best` and `mPhysicalDevice` after it. -/
def pickLoop (self : frRenderer) (env : DeviceEnv) : List Nat → Int → Nat → Int × Nat
  | [], best, mPhysicalDevice => (best, mPhysicalDevice)
  | device :: rest, best, mPhysicalDevice =>
    let score := deviceScore self env device
    if score > best then pickLoop self env rest score device
    else pickLoop self env rest best mPhysicalDevice

/-- The block `// Physical Device` of `frRenderer::initialize` up to the check
that a device was picked. -/
def frRenderer.initializePhysicalDevice (self : frRenderer) (env : DeviceEnv) :
    frRenderer × Except frException Unit :=
  match VK_WRAPPER "vkEnumeratePhysicalDevices(mInstance, &count, devices.data())"
      env.enumerateResult with
  | Except.error e => (self, Except.error e)
  | Except.ok _ =>
    let picked := pickLoop self env env.devices 0 self.mPhysicalDevice
    let self := { self with mPhysicalDevice := picked.2 }
    if self.mPhysicalDevice = VK_NULL_HANDLE then
      (self, Except.error (frException.frVulkanException "Failed to pick physical device!"))
    else (self, Except.ok ())

/-- The loop over the queue families of the picked device, `i` being the counter
that runs along (it cannot wrap, the vector having a 32-bit length) and
`presentSupport i` what `vkGetPhysicalDeviceSurfaceSupportKHR` writes for family
`i`; the loop is left as soon as both families are set. -/
def queueFamilyLoop (presentSupport : Nat → Bool) : List Nat → Nat → frRenderer → frRenderer
  | [], _, self => self
  | queueFlags :: rest, i, self =>
    let self :=
      if queueFlags &&& VK_QUEUE_GRAPHICS_BIT ≠ 0 then
        { self with
          mGraphicsQueueFamily := i
          mGraphicsQueueSet := true }
      else self
    let self :=
      if presentSupport i then
        { self with
          mPresentQueueFamily := i
          mPresentQueueSet := true }
      else self
    if self.mGraphicsQueueSet = true ∧ self.mPresentQueueSet = true then self
    else queueFamilyLoop presentSupport rest (i + 1) self

/-- The block `// Queue families` of `frRenderer::initialize`. -/
def frRenderer.initializeQueueFamilies (self : frRenderer) (env : DeviceEnv) :
    frRenderer × Except frException Unit :=
  let queueFamilies := env.queueFamilies self.mPhysicalDevice
  let self :=
    queueFamilyLoop (fun i => env.presentSupport self.mPhysicalDevice i self.mSurface)
      queueFamilies 0 self
  if self.mGraphicsQueueSet = false ∨ self.mPresentQueueSet = false then
    (self, Except.error
      (frException.frVulkanException "Failed to find graphics and/or present queue family!"))
  else (self, Except.ok ())

/-! ## frDescriptors -/

/-- The structure `VkDescriptorPoolSize`. -/
structure VkDescriptorPoolSize where
  type : Nat
  descriptorCount : Nat
deriving DecidableEq

/-- The fields of `VkDescriptorPoolCreateInfo` that `frDescriptors::initialize`
fills in; `pPoolSizes` is the array the pointer leads to. -/
structure VkDescriptorPoolCreateInfo where
  flags : Nat
  maxSets : Nat
  poolSizeCount : Nat
  pPoolSizes : List VkDescriptorPoolSize
deriving DecidableEq

/-- The members of `frDescriptors`. -/
structure frDescriptors where
  mPool : Nat := VK_NULL_HANDLE
  mDevice : Nat := VK_NULL_HANDLE
deriving DecidableEq

/-- The members of `frDescriptorLayout` that `frDescriptors::allocate` reads. -/
structure frDescriptorLayout where
  mLayout : Nat := VK_NULL_HANDLE
  mDevice : Nat := VK_NULL_HANDLE
deriving DecidableEq

/-- The members of `frDescriptor`, in the order of its constructor. -/
structure frDescriptor where
  mDevice : Nat
  mPool : Nat
  mSet : Nat
deriving DecidableEq

/-- The method `frDescriptors::initialize(renderer, poolSizes)`: the create info
handed to `vkCreateDescriptorPool`, the object afterwards, and the exception if
one was thrown; `result` is what the driver call returns and `createdPool` the
handle it writes on success. -/
def frDescriptors.initialize (self : frDescriptors) (renderer : frRenderer)
    (poolSizes : List VkDescriptorPoolSize) (result : VkResult) (createdPool : Nat) :
    VkDescriptorPoolCreateInfo × frDescriptors × Except frException Unit :=
  let maxSets :=
    poolSizes.foldl (fun maxSets size => (maxSets + size.descriptorCount) % 4294967296) 0
  let createInfo : VkDescriptorPoolCreateInfo :=
    { flags := 0
      maxSets := maxSets
      poolSizeCount := poolSizes.length % 4294967296
      pPoolSizes := poolSizes }
  match VK_WRAPPER "vkCreateDescriptorPool(renderer->mDevice, &createInfo, nullptr, &mPool)"
      result with
  | Except.error e => (createInfo, self, Except.error e)
  | Except.ok _ =>
    (createInfo, { self with mPool := createdPool, mDevice := renderer.mDevice }, Except.ok ())

/-- The fields of `VkDescriptorSetAllocateInfo` that `frDescriptors::allocate`
fills in; `pSetLayouts` is the array the pointer leads to. -/
structure VkDescriptorSetAllocateInfo where
  descriptorPool : Nat
  descriptorSetCount : Nat
  pSetLayouts : List Nat
deriving DecidableEq

/-- The method `frDescriptors::allocate(count, layout)`: the allocate info handed
to `vkAllocateDescriptorSets`, and the descriptors returned or the exception
thrown; `result` is what the driver call returns and `allocatedSet i` the handle
it writes into slot `i` of `sets` on success. -/
def frDescriptors.allocate (self : frDescriptors) (count : Nat) (layout : frDescriptorLayout)
    (result : VkResult) (allocatedSet : Nat → Nat) :
    VkDescriptorSetAllocateInfo × Except frException (List frDescriptor) :=
  let layouts := List.replicate count layout.mLayout
  let allocInfo : VkDescriptorSetAllocateInfo :=
    { descriptorPool := self.mPool
      descriptorSetCount := count
      pSetLayouts := layouts }
  match VK_WRAPPER "vkAllocateDescriptorSets(mDevice, &allocInfo, sets.data())" result with
  | Except.error e => (allocInfo, Except.error e)
  | Except.ok _ =>
    let sets := (List.range count).map allocatedSet
    (allocInfo, Except.ok (sets.map (fun set => frDescriptor.mk self.mDevice self.mPool set)))

/-! ## frSynchronization: the fence

The driver keeps, for every fence handle, whether the fence is signaled, and the
fences named by submissions that are still executing. This is the fence of the
Vulkan specification reduced to a boolean flag. -/

def VK_FENCE_CREATE_SIGNALED_BIT : Nat := 1

/-- The fences as the driver keeps them. -/
structure FenceTable where
  signaled : Nat → Bool
  pending : List Nat

/-- The driver call `vkCreateFence` with the given create flags, `fence` being the
handle it writes: the new fence is signaled exactly when the flags ask for it. -/
def vkCreateFence (fences : FenceTable) (flags fence : Nat) : FenceTable :=
  { signaled := fun f =>
      if f = fence then decide (flags &&& VK_FENCE_CREATE_SIGNALED_BIT ≠ 0)
      else fences.signaled f
    pending := fences.pending.filter (fun f => f ≠ fence) }

/-- The driver call `vkResetFences` on one fence. -/
def vkResetFences (fences : FenceTable) (fence : Nat) : FenceTable :=
  { fences with signaled := fun f => if f = fence then false else fences.signaled f }

/-- What a `vkQueueSubmit` naming `fence` does to the fences: the fence becomes
pending, unless it is the null handle. -/
def fenceSubmitted (fences : FenceTable) (fence : Nat) : FenceTable :=
  if fence = VK_NULL_HANDLE then fences
  else { fences with pending := fence :: fences.pending }

/-- The completion of a submission that named `fence`: the fence is signaled. -/
def fenceCompleted (fences : FenceTable) (fence : Nat) : FenceTable :=
  if fence ∈ fences.pending then
    { signaled := fun f => if f = fence then true else fences.signaled f
      pending := fences.pending.erase fence }
  else fences

/-- What can happen to the fences between two calls of the program. -/
inductive FenceEvent where
  | created (flags fence : Nat)
  | wasReset (fence : Nat)
  | submitted (fence : Nat)
  | completed (fence : Nat)
deriving DecidableEq

/-- The effect of one event on the fences. -/
def FenceTable.step (fences : FenceTable) : FenceEvent → FenceTable
  | FenceEvent.created flags fence => vkCreateFence fences flags fence
  | FenceEvent.wasReset fence => vkResetFences fences fence
  | FenceEvent.submitted fence => fenceSubmitted fences fence
  | FenceEvent.completed fence => fenceCompleted fences fence

/-- The effect of a sequence of events on the fences. -/
def FenceTable.run (fences : FenceTable) (events : List FenceEvent) : FenceTable :=
  events.foldl FenceTable.step fences

/-- What the driver answers during `frSynchronization::initialize`: the result of
each of the three creation calls and the handle it writes on success. -/
structure SynchronizationEnv where
  imageAvailableResult : VkResult
  imageAvailableSemaphore : Nat
  renderFinishedResult : VkResult
  renderFinishedSemaphore : Nat
  fenceResult : VkResult
  inFlightFence : Nat

/-- The method `frSynchronization::initialize(renderer)`: the object and the
fences afterwards, and the exception if one was thrown. The fence is created
with `fenceInfo.flags = VK_FENCE_CREATE_SIGNALED_BIT`. -/
def frSynchronization.initialize (self : frSynchronization) (renderer : frRenderer)
    (env : SynchronizationEnv) (fences : FenceTable) :
    frSynchronization × FenceTable × Except frException Unit :=
  let fenceInfo_flags := VK_FENCE_CREATE_SIGNALED_BIT
  match VK_WRAPPER
      ("vkCreateSemaphore(renderer->mDevice, &semaphoreInfo, nullptr, " ++
        "&mImageAvailableSemaphore)") env.imageAvailableResult with
  | Except.error e => (self, fences, Except.error e)
  | Except.ok _ =>
    let self := { self with mImageAvailableSemaphore := env.imageAvailableSemaphore }
    match VK_WRAPPER
        ("vkCreateSemaphore(renderer->mDevice, &semaphoreInfo, nullptr, " ++
          "&mRenderFinishedSemaphore)") env.renderFinishedResult with
    | Except.error e => (self, fences, Except.error e)
    | Except.ok _ =>
      let self := { self with mRenderFinishedSemaphore := env.renderFinishedSemaphore }
      match VK_WRAPPER
          "vkCreateFence(renderer->mDevice, &fenceInfo, nullptr, &mInFlightFence)"
          env.fenceResult with
      | Except.error e => (self, fences, Except.error e)
      | Except.ok _ =>
        let self := { self with mInFlightFence := env.inFlightFence }
        let fences := vkCreateFence fences fenceInfo_flags env.inFlightFence
        ({ self with mDevice := renderer.mDevice }, fences, Except.ok ())

/-- The method `frSynchronization::wait()`, which waits for `mInFlightFence` with
the timeout `UINT64_MAX`: `true` when the call returns, the fence being
signaled, and `false` when it does not return while the fences stay as they
are. -/
def frSynchronization.wait (self : frSynchronization) (fences : FenceTable) : Bool :=
  fences.signaled self.mInFlightFence

/-- The method `frSynchronization::reset()`. -/
def frSynchronization.reset (self : frSynchronization) (fences : FenceTable) : FenceTable :=
  vkResetFences fences self.mInFlightFence

/-! ## The example application: data that depends on the image count

The globals of `example/main.cpp` sized by the swapchain image count (the four
arrays of the swapchain and the vector `ubos` of per-frame uniform descriptors),
and the two locals of `main` sized by it. An array of object pointers is the list of its
slots: `none` for the null pointer a slot is created with, `some i` once
iteration `i` of the filling loop has stored its new object there. -/

structure ExampleState where
  swapchain : frSwapchain
  swapchainImageCount : Nat
  swapchainImages : List (Option Nat)
  offscreenImages : List (Option Nat)
  depthImages : List (Option Nat)
  swapchainFramebuffers : List (Option Nat)
  commandBuffers : List Nat
  synchronizations : List frSynchronization
  ubos : List frDescriptor
  frame : Nat
deriving DecidableEq

/-- How a step of the example ends: it returns with a new state, it lets an
exception escape (which ends `main`), it runs into undefined behaviour, or it
never gets out of a wait. -/
inductive ExampleRun where
  | returned (st : ExampleState)
  | raised (e : frException)
  | undefined
  | blocked
deriving DecidableEq

/-- The function `createSwapchainFirst()`: a new `frSwapchain` gets the mailbox
mode and the pair (B8G8R8A8_SRGB, SRGB_NONLINEAR) as preferences and is
initialized; the projection is then computed from the `int` quotient
`width / height` of the extent, which is undefined for a zero height (and for
the one overflowing quotient). `none` stands for undefined behaviour. -/
def createSwapchainFirst (renderer : frRenderer) (env : SwapchainEnv) :
    Option (Except frException frSwapchain) :=
  match frSwapchain.initialize
    ((frSwapchain.fresh.setDesiredPresentModes [VK_PRESENT_MODE_MAILBOX_KHR]).setDesiredFormats
      [⟨50, 0⟩]) renderer env with
  | none => none
  | some run =>
    match run.result with
    | Except.error e => some (Except.error e)
    | Except.ok sc =>
      if toInt32 sc.mExtent.height = 0 ∨
          (toInt32 sc.mExtent.width = -2147483648 ∧ toInt32 sc.mExtent.height = -1) then none
      else some (Except.ok sc)

/-- The loop of `createSwapchainLast()` over the remaining indices: iteration `i`
builds the three images and the framebuffer of index `i` and stores them in the
four arrays; `bodyException i` is the exception that escapes from a driver call
of that iteration, if one does. -/
def createSwapchainLastLoop (bodyException : Nat → Option frException) :
    List Nat → ExampleState → Except frException ExampleState
  | [], st => Except.ok st
  | i :: rest, st =>
    match bodyException i with
    | some e => Except.error e
    | none =>
      createSwapchainLastLoop bodyException rest
        { st with
          swapchainImages := st.swapchainImages.set i (some i)
          offscreenImages := st.offscreenImages.set i (some i)
          depthImages := st.depthImages.set i (some i)
          swapchainFramebuffers := st.swapchainFramebuffers.set i (some i) }

/-- The function `createSwapchainLast()`: the count is read from the swapchain,
the four arrays are replaced by arrays of that many null pointers, and the loop
fills them. -/
def createSwapchainLast (st : ExampleState) (bodyException : Nat → Option frException) :
    Except frException ExampleState :=
  let swapchainImageCount := st.swapchain.mImageCount
  createSwapchainLastLoop bodyException (List.range swapchainImageCount)
    { st with
      swapchainImageCount := swapchainImageCount
      swapchainImages := List.replicate swapchainImageCount none
      offscreenImages := List.replicate swapchainImageCount none
      depthImages := List.replicate swapchainImageCount none
      swapchainFramebuffers := List.replicate swapchainImageCount none }

/-- What the driver answers while `main` allocates the per-frame uniform
descriptors and command buffers and creates the synchronization triples: the
result of the command buffer allocation, the handle written for each index, for
each index the triple that gets created or the exception that escapes from its
initialization; and, for `ubos = descriptors->allocate(...)`, the descriptor
pool object and the layout as the earlier statements left them, the result of
the allocation and the set written for each index. -/
structure PerFrameEnv where
  allocateResult : VkResult
  commandBufferHandle : Nat → Nat
  syncException : Nat → Option frException
  syncObject : Nat → frSynchronization
  uboPool : frDescriptors
  uboLayout : frDescriptorLayout
  uboAllocateResult : VkResult
  uboSet : Nat → Nat

/-- The loop of `main` that creates one synchronization triple per index and
appends it to `synchronizations`. -/
def createSynchronizations (env : PerFrameEnv) :
    List Nat → List frSynchronization → Except frException (List frSynchronization)
  | [], synchronizations => Except.ok synchronizations
  | i :: rest, synchronizations =>
    match env.syncException i with
    | some e => Except.error e
    | none => createSynchronizations env rest (synchronizations ++ [env.syncObject i])

/-- The statements of `main` that allocate `swapchain->imageCount()` primary
command buffers and create as many synchronization triples. -/
def allocatePerFrame (st : ExampleState) (env : PerFrameEnv) : Except frException ExampleState :=
  match VK_WRAPPER "vkAllocateCommandBuffers(mDevice, &allocInfo, buffers)"
    env.allocateResult with
  | Except.error e => Except.error e
  | Except.ok _ =>
    match createSynchronizations env (List.range st.swapchain.mImageCount)
      st.synchronizations with
    | Except.error e => Except.error e
    | Except.ok synchronizations =>
      Except.ok
        { st with
          commandBuffers := (List.range st.swapchain.mImageCount).map env.commandBufferHandle
          synchronizations := synchronizations }

/-- The part of the set-up in `main` that builds the data indexed by the image
or the frame: `createSwapchainFirst()`, `createSwapchainLast()`, the per-frame
uniform descriptors `ubos`, then the per-frame command buffers and
synchronization triples; `frame` starts at 0. -/
def exampleSetup (renderer : frRenderer) (env : SwapchainEnv)
    (bodyException : Nat → Option frException) (perFrame : PerFrameEnv) : ExampleRun :=
  match createSwapchainFirst renderer env with
  | none => ExampleRun.undefined
  | some (Except.error e) => ExampleRun.raised e
  | some (Except.ok sc) =>
    match createSwapchainLast
      { swapchain := sc, swapchainImageCount := 0, swapchainImages := [], offscreenImages := [],
        depthImages := [], swapchainFramebuffers := [], commandBuffers := [],
        synchronizations := [], ubos := [], frame := 0 } bodyException with
    | Except.error e => ExampleRun.raised e
    | Except.ok st =>
      match (perFrame.uboPool.allocate st.swapchain.mImageCount perFrame.uboLayout
        perFrame.uboAllocateResult perFrame.uboSet).2 with
      | Except.error e => ExampleRun.raised e
      | Except.ok ubos =>
        match allocatePerFrame { st with ubos := ubos } perFrame with
        | Except.error e => ExampleRun.raised e
        | Except.ok st => ExampleRun.returned st

/-- The wait at the head of `recreateSwapchain()`: `sizes` are the successive
answers of `window->getSize()`; the loop is left at the first answer with both
sides non-zero, and never if there is none. -/
def windowBecomesVisible : List (Int × Int) → Bool
  | [] => false
  | (w, h) :: rest => if w = 0 ∨ h = 0 then windowBecomesVisible rest else true

/-- The function `cleanupSwapchain()`: the objects the four arrays point to and
the swapchain are deleted; the arrays themselves, their lengths and
`swapchainImageCount` stay as they are. -/
def cleanupSwapchain (st : ExampleState) : ExampleState := st

/-- The function `recreateSwapchain()`: wait for a visible window, wait for the
device, then `cleanupSwapchain()`, `createSwapchainFirst()` and
`createSwapchainLast()`. -/
def recreateSwapchain (st : ExampleState) (renderer : frRenderer) (sizes : List (Int × Int))
    (env : SwapchainEnv) (bodyException : Nat → Option frException) : ExampleRun :=
  if windowBecomesVisible sizes = false then ExampleRun.blocked
  else
    match createSwapchainFirst renderer env with
    | none => ExampleRun.undefined
    | some (Except.error e) => ExampleRun.raised e
    | some (Except.ok sc) =>
      match createSwapchainLast { (cleanupSwapchain st) with swapchain := sc } bodyException with
      | Except.error e => ExampleRun.raised e
      | Except.ok st => ExampleRun.returned st

/-- A per-frame environment in which every call succeeds. -/
def samplePerFrameEnv : PerFrameEnv :=
  { allocateResult := VK_SUCCESS
    commandBufferHandle := fun i => 40 + i
    syncException := fun _ => none
    syncObject := fun i =>
      { mImageAvailableSemaphore := 100 + 3 * i, mRenderFinishedSemaphore := 101 + 3 * i,
        mInFlightFence := 102 + 3 * i, mDevice := 2 }
    uboPool := { mPool := 60, mDevice := 2 }
    uboLayout := { mLayout := 61, mDevice := 2 }
    uboAllocateResult := VK_SUCCESS
    uboSet := fun i => 70 + i }

/-- The sample surface reporting the format the example prefers, with a driver
that creates the swapchain with three images. -/
def exampleEnv : SwapchainEnv := sampleEnv

/-- The same surface after a resize, the driver now creating four images. -/
def exampleEnvFourImages : SwapchainEnv :=
  { sampleEnv with
    framebufferWidth := 1024
    framebufferHeight := 768
    createdSwapchain := 8
    swapchainImages := [13, 14, 15, 16] }


/-- A renderer whose graphics and present queue families differ. -/
def splitQueueRenderer : frRenderer :=
  { sampleRenderer with mPresentQueueFamily := 1 }

/-- The pool sizes the example declares on a swapchain of three images. -/
def samplePoolSizes : List VkDescriptorPoolSize :=
  [{ type := 6, descriptorCount := 3 }, { type := 1, descriptorCount := 1 }]

/-- A renderer as the header initializes it, on the surface 3. -/
def frRenderer.fresh : frRenderer :=
  { mPhysicalDevice := VK_NULL_HANDLE, mDevice := VK_NULL_HANDLE, mSurface := 3,
    mGraphicsQueueFamily := 0, mPresentQueueFamily := 0 }

/-- A driver with three devices: device 21 is a discrete GPU without the
swapchain extension, device 22 an integrated GPU and device 23 a discrete GPU,
both with it. Every device has a compute family, a graphics family and a
transfer family, and only family 1 can present. -/
def sampleDeviceEnv : DeviceEnv :=
  { enumerateResult := VK_SUCCESS
    devices := [21, 22, 23]
    availableExtensions := fun device =>
      if device = 21 then ["VK_KHR_maintenance1"]
      else ["VK_KHR_maintenance1", "VK_KHR_swapchain"]
    properties := fun device =>
      if device = 22 then
        { deviceType := VK_PHYSICAL_DEVICE_TYPE_INTEGRATED_GPU
          limits :=
            { maxImageDimension2D := 8192
              framebufferColorSampleCounts := 15
              framebufferDepthSampleCounts := 7 } }
      else
        { deviceType := VK_PHYSICAL_DEVICE_TYPE_DISCRETE_GPU
          limits :=
            { maxImageDimension2D := 16384
              framebufferColorSampleCounts := 15
              framebufferDepthSampleCounts := 15 } }
    queueFamilies := fun _ => [2, 1, 4]
    presentSupport := fun _ i _ => i == 1 }

/-- A driver whose only device is a discrete GPU with the swapchain extension
that reports 2^31 as `maxImageDimension2D`. -/
def wrapDeviceEnv : DeviceEnv :=
  { sampleDeviceEnv with
    devices := [23]
    properties := fun _ =>
      { deviceType := VK_PHYSICAL_DEVICE_TYPE_DISCRETE_GPU
        limits :=
          { maxImageDimension2D := 2147483648
            framebufferColorSampleCounts := 1
            framebufferDepthSampleCounts := 1 } } }

/-- The fresh renderer after it has picked device 23. -/
def pickedRenderer : frRenderer :=
  { frRenderer.fresh with mPhysicalDevice := 23 }

/-- A driver for which the three creation calls of a synchronization triple
succeed, with the handles it writes. -/
def sampleSynchronizationEnv : SynchronizationEnv :=
  { imageAvailableResult := VK_SUCCESS
    imageAvailableSemaphore := 31
    renderFinishedResult := VK_SUCCESS
    renderFinishedSemaphore := 32
    fenceResult := VK_SUCCESS
    inFlightFence := 33 }

/-- The fences of a device on which no fence is signaled and nothing is pending. -/
def noFences : FenceTable :=
  { signaled := fun _ => false
    pending := [] }

/-- A synchronization triple as its constructor leaves it. -/
def frSynchronization.fresh : frSynchronization := {}

/-! ## The example application: the frame loop

One pass of the `while` loop of `main`. An index into an array is looked up in
the list that stands for the array, and a pass that indexes past the end runs
into undefined behaviour. The wait on the fence of the slot is taken to return. -/

/-- What the driver and the window answer during one pass of the frame loop: the
result of `vkAcquireNextImageKHR` and the image index it writes, the results of
`vkBeginCommandBuffer` and `vkEndCommandBuffer` while the command buffer is
recorded, the results of `vkQueueSubmit` and `vkQueuePresentKHR`; and, for the
case that the pass recreates the swapchain, the window sizes, the surface and the
exceptions of that recreation. -/
structure FrameEnv where
  acquireResult : VkResult
  imageIndex : Nat
  beginResult : VkResult
  endResult : VkResult
  submitResult : VkResult
  presentResult : VkResult
  sizes : List (Int × Int)
  swapchainEnv : SwapchainEnv
  bodyException : Nat → Option frException

/-- The function `recordCommandBuffer(cmdBuf, imageIndex)` as far as it indexes
arrays and can throw: `frCommands::begin`, the read of
`swapchainFramebuffers[imageIndex]`, the read of `ubos[frame]`,
`frCommands::end`. `none` stands for a read past the end of an array; when the
function returns, it returns `true`. -/
def recordCommandBuffer (st : ExampleState) (env : FrameEnv) (imageIndex : Nat) :
    Option (Except frException Unit) :=
  match VK_WRAPPER "vkBeginCommandBuffer(cmdBuf, &beginInfo)" env.beginResult with
  | Except.error e => some (Except.error e)
  | Except.ok _ =>
    match st.swapchainFramebuffers[imageIndex]? with
    | none => none
    | some _ =>
      match st.ubos[st.frame]? with
      | none => none
      | some _ =>
        match VK_WRAPPER "vkEndCommandBuffer(cmdBuf)" env.endResult with
        | Except.error e => some (Except.error e)
        | Except.ok _ => some (Except.ok ())

/-- The advance of the frame index at the end of a pass,
`frame = (frame+1) % swapchain->imageCount()` in `uint32_t`; a remainder by zero
is undefined. -/
def advanceFrame (st : ExampleState) : ExampleRun :=
  if st.swapchain.mImageCount = 0 then ExampleRun.undefined
  else
    ExampleRun.returned
      { st with frame := ((st.frame + 1) % 4294967296) % st.swapchain.mImageCount }

/-- One pass of the frame loop of `main`: `synchronizations[frame]` is read for the
wait, the image is acquired, `commandBuffers[frame]` is reset and recorded, the
command buffer is submitted and the image presented, and the frame index
advances. A `frSwapchainResizeException` from the acquisition or from the
presentation leads to `recreateSwapchain()` and `continue`, which leaves the
frame index as it is; any other exception ends `main`. -/
def framePass (st : ExampleState) (renderer : frRenderer) (env : FrameEnv) : ExampleRun :=
  match st.synchronizations[st.frame]? with
  | none => ExampleRun.undefined
  | some sync =>
    match renderer.acquireNextImage st.swapchain sync env.acquireResult env.imageIndex with
    | Except.error frException.frSwapchainResizeException =>
      recreateSwapchain st renderer env.sizes env.swapchainEnv env.bodyException
    | Except.error e => ExampleRun.raised e
    | Except.ok imageIndex =>
      match st.commandBuffers[st.frame]? with
      | none => ExampleRun.undefined
      | some cmdBuf =>
        match recordCommandBuffer st env imageIndex with
        | none => ExampleRun.undefined
        | some (Except.error e) => ExampleRun.raised e
        | some (Except.ok _) =>
          match (submit renderer cmdBuf (some sync) env.submitResult).2 with
          | Except.error e => ExampleRun.raised e
          | Except.ok _ =>
            match (renderer.present st.swapchain sync imageIndex env.presentResult).2 with
            | Except.error frException.frSwapchainResizeException =>
              recreateSwapchain st renderer env.sizes env.swapchainEnv env.bodyException
            | Except.error e => ExampleRun.raised e
            | Except.ok _ => advanceFrame st

/-- A sequence of passes of the frame loop, one `FrameEnv` per pass; the loop
stops at the first pass that does not return. -/
def frameLoop (renderer : frRenderer) : List FrameEnv → ExampleState → ExampleRun
  | [], st => ExampleRun.returned st
  | env :: rest, st =>
    match framePass st renderer env with
    | ExampleRun.returned st => frameLoop renderer rest st
    | ExampleRun.raised e => ExampleRun.raised e
    | ExampleRun.undefined => ExampleRun.undefined
    | ExampleRun.blocked => ExampleRun.blocked

/-- A pass on which every call succeeds and the driver hands out image `imageIndex`. -/
def plainPass (imageIndex : Nat) : FrameEnv :=
  { acquireResult := VK_SUCCESS
    imageIndex := imageIndex
    beginResult := VK_SUCCESS
    endResult := VK_SUCCESS
    submitResult := VK_SUCCESS
    presentResult := VK_SUCCESS
    sizes := []
    swapchainEnv := exampleEnv
    bodyException := fun _ => none }

/-- A pass on which the acquisition reports the swapchain out of date, the window
is 1024 by 768 and the driver creates the new swapchain with four images. -/
def resizedPass : FrameEnv :=
  { plainPass 0 with
    acquireResult := VK_ERROR_OUT_OF_DATE_KHR
    sizes := [(1024, 768)]
    swapchainEnv := exampleEnvFourImages }
/-! ## Properties of the swapchain negotiation -/

theorem findAvailableFormat_some {d a : VkSurfaceFormatKHR} {l : List VkSurfaceFormatKHR}
    (h : findAvailableFormat d l = some a) : a = d ∧ d ∈ l := by
  induction l with
  | nil => simp [findAvailableFormat] at h
  | cons x rest ih =>
    unfold findAvailableFormat at h
    split at h
    · rename_i hx
      have hxa : x = a := by simpa using h
      have hxd : x = d := by
        cases x; cases d; simp_all
      subst hxa
      exact ⟨hxd, by simp [hxd]⟩
    · obtain ⟨h1, h2⟩ := ih h
      exact ⟨h1, List.mem_cons_of_mem _ h2⟩

theorem findAvailableFormat_none {d : VkSurfaceFormatKHR} {l : List VkSurfaceFormatKHR} :
    findAvailableFormat d l = none ↔ d ∉ l := by
  induction l with
  | nil => simp [findAvailableFormat]
  | cons x rest ih =>
    unfold findAvailableFormat
    split
    · rename_i hx
      have hxd : x = d := by
        cases x; cases d; simp_all
      simp [hxd]
    · rename_i hx
      have hxd : ¬ d = x := by
        intro hdx
        exact hx (by simp [hdx])
      simp [ih, hxd]

theorem chooseFormatLoop_found (formats : List VkSurfaceFormatKHR) (m : VkSurfaceFormatKHR)
    (desired : List VkSurfaceFormatKHR) (h : ∃ d ∈ desired, d ∈ formats) :
    ∃ pre post, desired = pre ++ chooseFormatLoop formats m desired :: post ∧
      chooseFormatLoop formats m desired ∈ formats ∧ ∀ d ∈ pre, d ∉ formats := by
  induction desired with
  | nil => simp at h
  | cons x rest ih =>
    unfold chooseFormatLoop
    cases hf : findAvailableFormat x formats with
    | some a =>
      obtain ⟨hax, hmem⟩ := findAvailableFormat_some hf
      subst hax
      exact ⟨[], rest, by simp, hmem, by simp⟩
    | none =>
      have hx : x ∉ formats := findAvailableFormat_none.mp hf
      have h' : ∃ d ∈ rest, d ∈ formats := by
        obtain ⟨d, hd, hdf⟩ := h
        rcases List.mem_cons.mp hd with rfl | hd
        · exact absurd hdf hx
        · exact ⟨d, hd, hdf⟩
      obtain ⟨pre, post, heq, hmem, hpre⟩ := ih h'
      refine ⟨x :: pre, post, ?_, hmem, ?_⟩
      · simp only [List.cons_append]
        exact congrArg (List.cons x) heq
      · intro d hd
        rcases List.mem_cons.mp hd with rfl | hd
        · exact hx
        · exact hpre d hd

theorem chooseFormatLoop_not_found (formats : List VkSurfaceFormatKHR)
    (m : VkSurfaceFormatKHR) (desired : List VkSurfaceFormatKHR)
    (h : ¬ ∃ d ∈ desired, d ∈ formats) : chooseFormatLoop formats m desired = m := by
  induction desired with
  | nil => rfl
  | cons x rest ih =>
    unfold chooseFormatLoop
    have hx : x ∉ formats := fun hxf => h ⟨x, by simp, hxf⟩
    rw [findAvailableFormat_none.mpr hx]
    exact ih (fun ⟨d, hd, hdf⟩ => h ⟨d, List.mem_cons_of_mem _ hd, hdf⟩)

theorem querySupport_formats (prev : frSwapChainSupportDetails) (env : SwapchainEnv)
    (h : env.formats ≠ []) : (querySupport prev env).formats = env.formats := by
  have : env.formats.length ≠ 0 := by simpa using h
  simp [querySupport, this]

/-- What a run of `initialize` is made of, whenever the format vector held after
the query step is not empty. -/
theorem initialize_run (self : frSwapchain) (renderer : frRenderer) (env : SwapchainEnv)
    (h : (querySupport self.mSupportDetails env).formats ≠ []) :
    ∃ run, self.initialize renderer env = some run ∧
      chooseFormat (querySupport self.mSupportDetails env).formats self.mDesiredFormats =
        some run.chosenFormat ∧
      run.surfaceFormat = run.chosenFormat.format ∧
      run.createInfo.presentMode = choosePresentMode
        (querySupport self.mSupportDetails env).presentModes self.mDesiredPresentModes ∧
      run.createInfo.imageExtent =
        chooseExtent env.capabilities env.framebufferWidth env.framebufferHeight ∧
      run.createInfo.minImageCount = chooseImageCount env.capabilities ∧
      (env.createResult = VK_SUCCESS → ∃ sc, run.result = Except.ok sc ∧
        sc.mFormat = run.chosenFormat ∧ sc.mPresentMode = run.createInfo.presentMode ∧
        sc.mExtent = run.createInfo.imageExtent) ∧
      (env.createResult ≠ VK_SUCCESS → run.result = Except.error (VK_REPORT
        "vkCreateSwapchainKHR(renderer->mDevice, &createInfo, nullptr, &mSwapchain)"
        env.createResult)) := by
  cases hf : chooseFormat (querySupport self.mSupportDetails env).formats
      self.mDesiredFormats with
  | none =>
    exfalso
    cases hl : (querySupport self.mSupportDetails env).formats with
    | nil => exact h hl
    | cons first rest => simp [chooseFormat, hl] at hf
  | some mFormat =>
    unfold frSwapchain.initialize
    simp only [hf]
    refine ⟨_, rfl, rfl, rfl, rfl, rfl, rfl, ?_, ?_⟩
    · intro hc
      simp [VK_WRAPPER, hc, InitializeRun.chosenFormat]
    · intro hc
      simp [VK_WRAPPER, hc]

/-- C1. Format negotiation of `frSwapchain::initialize`: when the surface reports a
non-empty format list, the run reaches swapchain creation and the format pair it
chose is, if some preferred pair is supported, the earliest entry of the
preference list that occurs in the supported list (every preferred pair before it
is unsupported), and otherwise the first supported entry. The chosen pair is the
one handed to the renderer and kept in `mFormat`. -/
theorem initialize_format_negotiation (self : frSwapchain) (renderer : frRenderer)
    (env : SwapchainEnv) (hne : env.formats ≠ []) :
    ∃ run, self.initialize renderer env = some run ∧
      ((∃ d ∈ self.mDesiredFormats, d ∈ env.formats) →
        ∃ pre post, self.mDesiredFormats = pre ++ run.chosenFormat :: post ∧
          run.chosenFormat ∈ env.formats ∧ ∀ d ∈ pre, d ∉ env.formats) ∧
      ((¬ ∃ d ∈ self.mDesiredFormats, d ∈ env.formats) →
        env.formats.head? = some run.chosenFormat) ∧
      run.surfaceFormat = run.chosenFormat.format ∧
      (∀ sc, run.result = Except.ok sc → sc.mFormat = run.chosenFormat) := by
  have hq := querySupport_formats self.mSupportDetails env hne
  obtain ⟨run, hrun, hfmt, hsurf, -, -, -, hok, herr⟩ :=
    initialize_run self renderer env (by rw [hq]; exact hne)
  rw [hq] at hfmt
  cases hl : env.formats with
  | nil => exact absurd hl hne
  | cons first rest =>
    have hchosen : run.chosenFormat =
        chooseFormatLoop env.formats first self.mDesiredFormats := by
      rw [hl] at hfmt
      simp only [chooseFormat, Option.some.injEq] at hfmt
      rw [hl]
      exact hfmt.symm
    rw [← hl]
    refine ⟨run, hrun, ?_, ?_, hsurf, ?_⟩
    · intro hex
      rw [hchosen]
      exact chooseFormatLoop_found env.formats first self.mDesiredFormats hex
    · intro hex
      rw [hchosen, chooseFormatLoop_not_found _ _ _ hex, hl]
      rfl
    · intro sc hsc
      by_cases hc : env.createResult = VK_SUCCESS
      · obtain ⟨sc', hsc', hm, -⟩ := hok hc
        rw [hsc] at hsc'
        cases hsc'
        exact hm
      · rw [herr hc] at hsc
        cases hsc

theorem initialize_format_negotiation_witness :
    sampleEnv.formats ≠ [] ∧
    ∃ run, sampleSwapchain.initialize sampleRenderer sampleEnv = some run ∧
      ((∃ d ∈ sampleSwapchain.mDesiredFormats, d ∈ sampleEnv.formats) →
        ∃ pre post, sampleSwapchain.mDesiredFormats = pre ++ run.chosenFormat :: post ∧
          run.chosenFormat ∈ sampleEnv.formats ∧ ∀ d ∈ pre, d ∉ sampleEnv.formats) ∧
      ((¬ ∃ d ∈ sampleSwapchain.mDesiredFormats, d ∈ sampleEnv.formats) →
        sampleEnv.formats.head? = some run.chosenFormat) ∧
      run.surfaceFormat = run.chosenFormat.format ∧
      (∀ sc, run.result = Except.ok sc → sc.mFormat = run.chosenFormat) :=
  ⟨by decide, initialize_format_negotiation sampleSwapchain sampleRenderer sampleEnv (by decide)⟩

theorem findAvailableMode_some {d a : VkPresentModeKHR} {l : List VkPresentModeKHR}
    (h : findAvailableMode d l = some a) : a = d ∧ d ∈ l := by
  induction l with
  | nil => simp [findAvailableMode] at h
  | cons x rest ih =>
    unfold findAvailableMode at h
    split at h
    · rename_i hx
      have hxa : x = a := by simpa using h
      subst hxa
      exact ⟨hx, by simp [hx]⟩
    · obtain ⟨h1, h2⟩ := ih h
      exact ⟨h1, List.mem_cons_of_mem _ h2⟩

theorem findAvailableMode_none {d : VkPresentModeKHR} {l : List VkPresentModeKHR} :
    findAvailableMode d l = none ↔ d ∉ l := by
  induction l with
  | nil => simp [findAvailableMode]
  | cons x rest ih =>
    unfold findAvailableMode
    split
    · rename_i hx
      simp [hx]
    · rename_i hx
      have hxd : ¬ d = x := fun hdx => hx hdx.symm
      simp [ih, hxd]

theorem choosePresentModeLoop_found (modes : List VkPresentModeKHR) (m : VkPresentModeKHR)
    (desired : List VkPresentModeKHR) (h : ∃ d ∈ desired, d ∈ modes) :
    ∃ pre post, desired = pre ++ choosePresentModeLoop modes m desired :: post ∧
      choosePresentModeLoop modes m desired ∈ modes ∧ ∀ d ∈ pre, d ∉ modes := by
  induction desired with
  | nil => simp at h
  | cons x rest ih =>
    unfold choosePresentModeLoop
    cases hf : findAvailableMode x modes with
    | some a =>
      obtain ⟨hax, hmem⟩ := findAvailableMode_some hf
      subst hax
      exact ⟨[], rest, by simp, hmem, by simp⟩
    | none =>
      have hx : x ∉ modes := findAvailableMode_none.mp hf
      have h' : ∃ d ∈ rest, d ∈ modes := by
        obtain ⟨d, hd, hdf⟩ := h
        rcases List.mem_cons.mp hd with rfl | hd
        · exact absurd hdf hx
        · exact ⟨d, hd, hdf⟩
      obtain ⟨pre, post, heq, hmem, hpre⟩ := ih h'
      refine ⟨x :: pre, post, ?_, hmem, ?_⟩
      · simp only [List.cons_append]
        exact congrArg (List.cons x) heq
      · intro d hd
        rcases List.mem_cons.mp hd with rfl | hd
        · exact hx
        · exact hpre d hd

theorem choosePresentModeLoop_not_found (modes : List VkPresentModeKHR)
    (m : VkPresentModeKHR) (desired : List VkPresentModeKHR)
    (h : ¬ ∃ d ∈ desired, d ∈ modes) : choosePresentModeLoop modes m desired = m := by
  induction desired with
  | nil => rfl
  | cons x rest ih =>
    unfold choosePresentModeLoop
    have hx : x ∉ modes := fun hxf => h ⟨x, by simp, hxf⟩
    rw [findAvailableMode_none.mpr hx]
    exact ih (fun ⟨d, hd, hdf⟩ => h ⟨d, List.mem_cons_of_mem _ hd, hdf⟩)

theorem initialize_result_ok (self : frSwapchain) (renderer : frRenderer) (env : SwapchainEnv)
    (run : InitializeRun) (sc : frSwapchain)
    (h : (querySupport self.mSupportDetails env).formats ≠ [])
    (hrun : self.initialize renderer env = some run) (hsc : run.result = Except.ok sc) :
    env.createResult = VK_SUCCESS ∧ sc.mFormat = run.chosenFormat ∧
      sc.mPresentMode = run.createInfo.presentMode ∧
      sc.mExtent = run.createInfo.imageExtent := by
  obtain ⟨run', hrun', -, -, -, -, -, hok, herr⟩ := initialize_run self renderer env h
  rw [hrun] at hrun'
  cases hrun'
  by_cases hc : env.createResult = VK_SUCCESS
  · obtain ⟨sc', hsc', h1, h2, h3⟩ := hok hc
    rw [hsc] at hsc'
    cases hsc'
    exact ⟨hc, h1, h2, h3⟩
  · rw [herr hc] at hsc
    cases hsc

theorem std_clamp_eq (v lo hi : Nat) (h : lo ≤ hi) : std_clamp v lo hi = max lo (min v hi) := by
  unfold std_clamp
  split
  · omega
  · split <;> omega

theorem static_cast_uint32_of_nonneg (x : Int) (h0 : 0 ≤ x) (h1 : x ≤ 2147483647) :
    (static_cast_uint32 x : Int) = x := by
  unfold static_cast_uint32
  omega

/-- C2. Extent negotiation of `frSwapchain::initialize`: when the reported current
extent is defined (its width is not the `uint32_t` maximum, which is the test the
code makes) the requested extent is the current extent as it stands; otherwise it
is the drawable size, converted to unsigned and clamped per axis, so that on an
axis with `min ≤ max` it is `max min (min size max)` and lies within the bounds,
and a drawable size already within the bounds is requested unchanged. -/
theorem initialize_extent_negotiation (self : frSwapchain) (renderer : frRenderer)
    (env : SwapchainEnv) (hne : (querySupport self.mSupportDetails env).formats ≠ []) :
    ∃ run, self.initialize renderer env = some run ∧
      (env.capabilities.currentExtent.width ≠ UINT32_MAX →
        run.createInfo.imageExtent = env.capabilities.currentExtent) ∧
      (env.capabilities.currentExtent.width = UINT32_MAX →
        run.createInfo.imageExtent =
          { width := std_clamp (static_cast_uint32 env.framebufferWidth)
              env.capabilities.minImageExtent.width env.capabilities.maxImageExtent.width
            height := std_clamp (static_cast_uint32 env.framebufferHeight)
              env.capabilities.minImageExtent.height env.capabilities.maxImageExtent.height } ∧
        (env.capabilities.minImageExtent.width ≤ env.capabilities.maxImageExtent.width →
          run.createInfo.imageExtent.width = max env.capabilities.minImageExtent.width
            (min (static_cast_uint32 env.framebufferWidth)
              env.capabilities.maxImageExtent.width) ∧
          env.capabilities.minImageExtent.width ≤ run.createInfo.imageExtent.width ∧
          run.createInfo.imageExtent.width ≤ env.capabilities.maxImageExtent.width) ∧
        (env.capabilities.minImageExtent.height ≤ env.capabilities.maxImageExtent.height →
          run.createInfo.imageExtent.height = max env.capabilities.minImageExtent.height
            (min (static_cast_uint32 env.framebufferHeight)
              env.capabilities.maxImageExtent.height) ∧
          env.capabilities.minImageExtent.height ≤ run.createInfo.imageExtent.height ∧
          run.createInfo.imageExtent.height ≤ env.capabilities.maxImageExtent.height) ∧
        (env.framebufferWidth ≤ 2147483647 → env.framebufferHeight ≤ 2147483647 →
          (env.capabilities.minImageExtent.width : Int) ≤ env.framebufferWidth →
          env.framebufferWidth ≤ (env.capabilities.maxImageExtent.width : Int) →
          (env.capabilities.minImageExtent.height : Int) ≤ env.framebufferHeight →
          env.framebufferHeight ≤ (env.capabilities.maxImageExtent.height : Int) →
          (run.createInfo.imageExtent.width : Int) = env.framebufferWidth ∧
          (run.createInfo.imageExtent.height : Int) = env.framebufferHeight)) ∧
      (∀ sc, run.result = Except.ok sc → sc.mExtent = run.createInfo.imageExtent) := by
  obtain ⟨run, hrun, -, -, -, hext, -, -, -⟩ := initialize_run self renderer env hne
  refine ⟨run, hrun, ?_, ?_, ?_⟩
  · intro hdef
    rw [hext]
    simp [chooseExtent, hdef]
  · intro hundef
    have hE : run.createInfo.imageExtent =
        { width := std_clamp (static_cast_uint32 env.framebufferWidth)
            env.capabilities.minImageExtent.width env.capabilities.maxImageExtent.width
          height := std_clamp (static_cast_uint32 env.framebufferHeight)
            env.capabilities.minImageExtent.height env.capabilities.maxImageExtent.height } := by
      rw [hext]
      simp [chooseExtent, hundef]
    refine ⟨hE, ?_, ?_, ?_⟩
    · intro hle
      rw [hE]
      dsimp only
      rw [std_clamp_eq _ _ _ hle]
      omega
    · intro hle
      rw [hE]
      dsimp only
      rw [std_clamp_eq _ _ _ hle]
      omega
    · intro hw hh h1 h2 h3 h4
      have cw := static_cast_uint32_of_nonneg env.framebufferWidth (by omega) hw
      have ch := static_cast_uint32_of_nonneg env.framebufferHeight (by omega) hh
      rw [hE]
      dsimp only [std_clamp]
      constructor
      · split
        · omega
        · split <;> omega
      · split
        · omega
        · split <;> omega
  · intro sc hsc
    exact (initialize_result_ok self renderer env run sc hne hrun hsc).2.2.2

theorem initialize_extent_negotiation_witness :
    (querySupport sampleSwapchain.mSupportDetails sampleEnv).formats ≠ [] ∧
    sampleEnv.capabilities.currentExtent.width = UINT32_MAX ∧
    ∃ run, sampleSwapchain.initialize sampleRenderer sampleEnv = some run ∧
      (run.createInfo.imageExtent.width : Int) = 800 ∧
      (run.createInfo.imageExtent.height : Int) = 600 := by
  refine ⟨by decide, by decide, ?_⟩
  obtain ⟨run, hrun, -, h, -⟩ :=
    initialize_extent_negotiation sampleSwapchain sampleRenderer sampleEnv (by decide)
  obtain ⟨-, -, -, hin⟩ := h (by decide)
  exact ⟨run, hrun,
    hin (by decide) (by decide) (by decide) (by decide) (by decide) (by decide)⟩

/-- C3, as stated, fails when `minImageCount` is the largest `uint32_t` and the
surface caps the count: `minImageCount + 1` wraps to 0, which is what the code
requests, while the stated formula gives the cap, whether its `+ 1` is read as
exact or as 32-bit. -/
theorem image_count_formula_counterexample :
    ∃ run, sampleSwapchain.initialize sampleRenderer wrapEnv = some run ∧
      wrapEnv.capabilities.minImageCount ≤ UINT32_MAX ∧
      wrapEnv.capabilities.maxImageCount > 0 ∧
      run.createInfo.minImageCount = 0 ∧
      run.createInfo.minImageCount ≠
        min (max (wrapEnv.capabilities.minImageCount + 1) wrapEnv.capabilities.minImageCount)
          wrapEnv.capabilities.maxImageCount ∧
      run.createInfo.minImageCount ≠
        min (max ((wrapEnv.capabilities.minImageCount + 1) % 4294967296)
          wrapEnv.capabilities.minImageCount) wrapEnv.capabilities.maxImageCount := by
  refine ⟨_, rfl, ?_, ?_, ?_, ?_, ?_⟩ <;> decide

/-- C3, amended. Image count negotiation of `frSwapchain::initialize`: for every
`minImageCount` below the largest `uint32_t` and every `maxImageCount`, the count
requested is `min(max(minImageCount + 1, minImageCount), maxImageCount)` when
`maxImageCount > 0` and `minImageCount + 1` when `maxImageCount = 0`. -/
theorem initialize_image_count (self : frSwapchain) (renderer : frRenderer)
    (env : SwapchainEnv) (hne : (querySupport self.mSupportDetails env).formats ≠ [])
    (hmin : env.capabilities.minImageCount < UINT32_MAX) :
    ∃ run, self.initialize renderer env = some run ∧
      (env.capabilities.maxImageCount > 0 →
        run.createInfo.minImageCount =
          min (max (env.capabilities.minImageCount + 1) env.capabilities.minImageCount)
            env.capabilities.maxImageCount) ∧
      (env.capabilities.maxImageCount = 0 →
        run.createInfo.minImageCount = env.capabilities.minImageCount + 1) := by
  obtain ⟨run, hrun, -, -, -, -, hcount, -, -⟩ := initialize_run self renderer env hne
  have hmod : (env.capabilities.minImageCount + 1) % 4294967296 =
      env.capabilities.minImageCount + 1 := by
    unfold UINT32_MAX at hmin
    omega
  refine ⟨run, hrun, ?_, ?_⟩
  · intro hmax
    rw [hcount]
    simp only [chooseImageCount, hmod]
    split <;> omega
  · intro hmax
    rw [hcount]
    simp only [chooseImageCount, hmod]
    split <;> omega

theorem initialize_image_count_witness :
    (querySupport sampleSwapchain.mSupportDetails sampleEnv).formats ≠ [] ∧
    sampleEnv.capabilities.minImageCount < UINT32_MAX ∧
    ∃ run, sampleSwapchain.initialize sampleRenderer sampleEnv = some run ∧
      (sampleEnv.capabilities.maxImageCount > 0 →
        run.createInfo.minImageCount =
          min (max (sampleEnv.capabilities.minImageCount + 1)
            sampleEnv.capabilities.minImageCount) sampleEnv.capabilities.maxImageCount) ∧
      (sampleEnv.capabilities.maxImageCount = 0 →
        run.createInfo.minImageCount = sampleEnv.capabilities.minImageCount + 1) :=
  ⟨by decide, by decide,
    initialize_image_count sampleSwapchain sampleRenderer sampleEnv (by decide) (by decide)⟩

/-- C9, as stated, fails: a surface that reports zero present modes raises
nothing. The run chooses FIFO, creates the swapchain and returns normally. -/
theorem zero_present_modes_counterexample :
    zeroModesEnv.presentModes = [] ∧
    ∃ run sc, sampleSwapchain.initialize sampleRenderer zeroModesEnv = some run ∧
      run.result = Except.ok sc ∧
      run.createInfo.presentMode = VK_PRESENT_MODE_FIFO_KHR ∧
      sc.mPresentMode = VK_PRESENT_MODE_FIFO_KHR := by
  refine ⟨rfl, _, _, rfl, rfl, ?_, ?_⟩ <;> decide

/-- C9, amended. `frSwapchain::initialize` has no check on the number of formats
or present modes: whenever the format vector it holds after the query step is not
empty, it raises exactly when `vkCreateSwapchainKHR` returns a non-success
result, the exception being the `frVulkanException` of the call wrapper; with no
present mode held it asks for FIFO all the same. -/
theorem initialize_raises_iff_create_fails (self : frSwapchain) (renderer : frRenderer)
    (env : SwapchainEnv) (hne : (querySupport self.mSupportDetails env).formats ≠ []) :
    ∃ run, self.initialize renderer env = some run ∧
      ((∃ e, run.result = Except.error e) ↔ env.createResult ≠ VK_SUCCESS) ∧
      (∀ e, run.result = Except.error e → e = VK_REPORT
        "vkCreateSwapchainKHR(renderer->mDevice, &createInfo, nullptr, &mSwapchain)"
        env.createResult) ∧
      ((querySupport self.mSupportDetails env).presentModes = [] →
        run.createInfo.presentMode = VK_PRESENT_MODE_FIFO_KHR) := by
  obtain ⟨run, hrun, -, -, hmode, -, -, hok, herr⟩ := initialize_run self renderer env hne
  refine ⟨run, hrun, ⟨?_, ?_⟩, ?_, ?_⟩
  · rintro ⟨e, he⟩ hc
    obtain ⟨sc, hsc, -⟩ := hok hc
    rw [he] at hsc
    cases hsc
  · intro hc
    exact ⟨_, herr hc⟩
  · intro e he
    by_cases hc : env.createResult = VK_SUCCESS
    · obtain ⟨sc, hsc, -⟩ := hok hc
      rw [he] at hsc
      cases hsc
    · rw [herr hc] at he
      cases he
      rfl
  · intro hnil
    rw [hmode, hnil]
    exact choosePresentModeLoop_not_found [] _ _ (by simp)

theorem initialize_raises_iff_create_fails_witness :
    (querySupport sampleSwapchain.mSupportDetails zeroModesEnv).formats ≠ [] ∧
    ∃ run, sampleSwapchain.initialize sampleRenderer zeroModesEnv = some run ∧
      ((∃ e, run.result = Except.error e) ↔ zeroModesEnv.createResult ≠ VK_SUCCESS) ∧
      (∀ e, run.result = Except.error e → e = VK_REPORT
        "vkCreateSwapchainKHR(renderer->mDevice, &createInfo, nullptr, &mSwapchain)"
        zeroModesEnv.createResult) ∧
      ((querySupport sampleSwapchain.mSupportDetails zeroModesEnv).presentModes = [] →
        run.createInfo.presentMode = VK_PRESENT_MODE_FIFO_KHR) :=
  ⟨by decide,
    initialize_raises_iff_create_fails sampleSwapchain sampleRenderer zeroModesEnv (by decide)⟩

/-- C10. Present mode negotiation of `frSwapchain::initialize`: with `supported`
the present-mode list the object holds after the query step, the mode chosen is
the earliest entry of the preference list that occurs in `supported` (every
preferred mode before it is unsupported), and FIFO when no preferred mode is
supported. `supported` is the list the surface reports whenever that list is not
empty or the object held none before. The chosen mode is kept in `mPresentMode`. -/
theorem initialize_present_mode_negotiation (self : frSwapchain) (renderer : frRenderer)
    (env : SwapchainEnv) (hne : (querySupport self.mSupportDetails env).formats ≠ []) :
    ∃ run, self.initialize renderer env = some run ∧
      ((∃ d ∈ self.mDesiredPresentModes,
          d ∈ (querySupport self.mSupportDetails env).presentModes) →
        ∃ pre post, self.mDesiredPresentModes = pre ++ run.createInfo.presentMode :: post ∧
          run.createInfo.presentMode ∈ (querySupport self.mSupportDetails env).presentModes ∧
          ∀ d ∈ pre, d ∉ (querySupport self.mSupportDetails env).presentModes) ∧
      ((¬ ∃ d ∈ self.mDesiredPresentModes,
          d ∈ (querySupport self.mSupportDetails env).presentModes) →
        run.createInfo.presentMode = VK_PRESENT_MODE_FIFO_KHR) ∧
      (env.presentModes ≠ [] ∨ self.mSupportDetails.presentModes = [] →
        (querySupport self.mSupportDetails env).presentModes = env.presentModes) ∧
      (∀ sc, run.result = Except.ok sc → sc.mPresentMode = run.createInfo.presentMode) := by
  obtain ⟨run, hrun, -, -, hmode, -, -, -, -⟩ := initialize_run self renderer env hne
  refine ⟨run, hrun, ?_, ?_, ?_, ?_⟩
  · intro hex
    rw [hmode]
    exact choosePresentModeLoop_found _ _ _ hex
  · intro hex
    rw [hmode]
    exact choosePresentModeLoop_not_found _ _ _ hex
  · intro h
    rcases h with h | h
    · have : env.presentModes.length ≠ 0 := by simpa using h
      simp [querySupport, this]
    · by_cases hl : env.presentModes.length ≠ 0
      · simp [querySupport, hl]
      · have : env.presentModes = [] := by simpa using hl
        simp [querySupport, this, h]
  · intro sc hsc
    exact (initialize_result_ok self renderer env run sc hne hrun hsc).2.2.1

theorem initialize_present_mode_negotiation_witness :
    (querySupport sampleSwapchain.mSupportDetails sampleEnv).formats ≠ [] ∧
    ∃ run, sampleSwapchain.initialize sampleRenderer sampleEnv = some run ∧
      run.createInfo.presentMode = VK_PRESENT_MODE_MAILBOX_KHR := by
  refine ⟨by decide, ?_⟩
  obtain ⟨run, hrun, hfound, -⟩ :=
    initialize_present_mode_negotiation sampleSwapchain sampleRenderer sampleEnv (by decide)
  obtain ⟨pre, post, heq, -, hpre⟩ := hfound (by decide)
  refine ⟨run, hrun, ?_⟩
  cases pre with
  | nil =>
    have : sampleSwapchain.mDesiredPresentModes = [VK_PRESENT_MODE_MAILBOX_KHR] := rfl
    rw [this] at heq
    simp at heq
    exact heq.1.symm
  | cons x rest =>
    have : sampleSwapchain.mDesiredPresentModes = [VK_PRESENT_MODE_MAILBOX_KHR] := rfl
    rw [this] at heq
    simp at heq

/-! ## Properties of FindMemoryType -/

theorem and_eq_right_iff_testBit (f p : Nat) :
    f &&& p = p ↔ ∀ b, p.testBit b = true → f.testBit b = true := by
  constructor
  · intro h b hb
    have := congrArg (fun n => Nat.testBit n b) h
    simp only [Nat.testBit_and, hb, Bool.and_true] at this
    exact this
  · intro h
    apply Nat.eq_of_testBit_eq
    intro b
    rw [Nat.testBit_and]
    cases hp : p.testBit b with
    | false => simp
    | true => simp [h b hp]

theorem memoryTypeMatches_iff (memProperties : VkPhysicalDeviceMemoryProperties)
    (typeFilter properties i : Nat) (hi : i < 32) :
    memoryTypeMatches memProperties typeFilter properties i = true ↔
      typeFilter.testBit i = true ∧
      ∀ b, properties.testBit b = true →
        (memProperties.memoryTypes.getD i 0).testBit b = true := by
  have hpow : (1 <<< i) % 4294967296 = 2 ^ i := by
    rw [Nat.one_shiftLeft]
    apply Nat.mod_eq_of_lt
    calc 2 ^ i < 2 ^ 32 := Nat.pow_lt_pow_right (by decide) hi
      _ = 4294967296 := by norm_num
  have hbit : (typeFilter &&& 2 ^ i != 0) = typeFilter.testBit i := by
    rw [Nat.and_two_pow]
    cases typeFilter.testBit i with
    | false => simp
    | true =>
      have : 2 ^ i ≠ 0 := by positivity
      simp [this]
  unfold memoryTypeMatches
  rw [hpow, hbit, Bool.and_eq_true, beq_iff_eq, and_eq_right_iff_testBit]

/-- C8. Memory type lookup: for a table with at most 32 memory types (the size of
the Vulkan array), `FindMemoryType` returns `i` exactly when `i` is the smallest
index below `memoryTypeCount` such that bit `i` of the filter is set and every
required property bit is among the property flags of type `i`; it raises exactly
when no such index exists, and what it raises is the `frVulkanException` saying
that no suitable memory type was found. -/
theorem FindMemoryType_spec (memProperties : VkPhysicalDeviceMemoryProperties)
    (typeFilter properties : Nat) (hcount : memProperties.memoryTypeCount ≤ 32) :
    (∀ i, FindMemoryType memProperties typeFilter properties = Except.ok i ↔
      (i < memProperties.memoryTypeCount ∧
        (typeFilter.testBit i = true ∧ ∀ b, properties.testBit b = true →
          (memProperties.memoryTypes.getD i 0).testBit b = true) ∧
        ∀ j, j < i → ¬ (typeFilter.testBit j = true ∧ ∀ b, properties.testBit b = true →
          (memProperties.memoryTypes.getD j 0).testBit b = true))) ∧
    ((∃ e, FindMemoryType memProperties typeFilter properties = Except.error e) ↔
      ¬ ∃ i, i < memProperties.memoryTypeCount ∧
        (typeFilter.testBit i = true ∧ ∀ b, properties.testBit b = true →
          (memProperties.memoryTypes.getD i 0).testBit b = true)) ∧
    (∀ e, FindMemoryType memProperties typeFilter properties = Except.error e →
      e = frException.frVulkanException "Failed to find suitable memory type!") := by
  have hm : ∀ i, i < memProperties.memoryTypeCount →
      (memoryTypeMatches memProperties typeFilter properties i = true ↔
        typeFilter.testBit i = true ∧ ∀ b, properties.testBit b = true →
          (memProperties.memoryTypes.getD i 0).testBit b = true) :=
    fun i hi => memoryTypeMatches_iff memProperties typeFilter properties i (by omega)
  cases hf : (List.range memProperties.memoryTypeCount).find?
      (memoryTypeMatches memProperties typeFilter properties) with
  | some k =>
    have hk := List.find?_range_eq_some.mp hf
    obtain ⟨hk1, hk2, hk3⟩ := hk
    have hklt : k < memProperties.memoryTypeCount := List.mem_range.mp hk2
    have hres : FindMemoryType memProperties typeFilter properties = Except.ok k := by
      simp [FindMemoryType, hf]
    refine ⟨?_, ?_, ?_⟩
    · intro i
      rw [hres]
      constructor
      · intro h
        cases h
        refine ⟨hklt, (hm k hklt).mp hk1, ?_⟩
        intro j hj hs
        have := hk3 j hj
        rw [(hm j (by omega)).mpr hs] at this
        simp at this
      · rintro ⟨hi, hs, hmin⟩
        have hik : i = k := by
          rcases Nat.lt_trichotomy i k with h | h | h
          · have := hk3 i h
            rw [(hm i hi).mpr hs] at this
            simp at this
          · exact h
          · exact absurd ((hm k hklt).mp hk1) (hmin k h)
        rw [hik]
    · rw [hres]
      constructor
      · rintro ⟨e, he⟩
        cases he
      · intro hno
        exact absurd ⟨k, hklt, (hm k hklt).mp hk1⟩ hno
    · intro e he
      rw [hres] at he
      cases he
  | none =>
    have hnone := List.find?_eq_none.mp hf
    have hres : FindMemoryType memProperties typeFilter properties =
        Except.error (frException.frVulkanException "Failed to find suitable memory type!") := by
      simp [FindMemoryType, hf]
    have hno : ∀ i, i < memProperties.memoryTypeCount →
        ¬ (typeFilter.testBit i = true ∧ ∀ b, properties.testBit b = true →
          (memProperties.memoryTypes.getD i 0).testBit b = true) := by
      intro i hi hs
      exact hnone i (List.mem_range.mpr hi) ((hm i hi).mpr hs)
    refine ⟨?_, ?_, ?_⟩
    · intro i
      rw [hres]
      constructor
      · intro h
        cases h
      · rintro ⟨hi, hs, -⟩
        exact absurd hs (hno i hi)
    · rw [hres]
      constructor
      · rintro - ⟨i, hi, hs⟩
        exact hno i hi hs
      · intro _
        exact ⟨_, rfl⟩
    · intro e he
      rw [hres] at he
      cases he
      rfl

theorem FindMemoryType_spec_witness :
    sampleMemory.memoryTypeCount ≤ 32 ∧
    FindMemoryType sampleMemory 7 6 = Except.ok 1 ∧
    (∃ e, FindMemoryType sampleMemory 1 6 = Except.error e) := by
  have h := FindMemoryType_spec sampleMemory 1 6 (by decide)
  refine ⟨by decide, by rfl, h.2.1.mpr ?_⟩
  rintro ⟨i, hi, hbit, hflags⟩
  have hi3 : i < 3 := hi
  interval_cases i
  · have := hflags 1 (by decide)
    revert this
    decide
  · revert hbit
    decide
  · revert hbit
    decide

/-! ## Properties of frImage -/

theorem VK_WRAPPER_ok (call : String) (result : VkResult) (h : result = VK_SUCCESS) :
    VK_WRAPPER call result = Except.ok () := by
  simp [VK_WRAPPER, h]

theorem VK_WRAPPER_error (call : String) (result : VkResult) (h : result ≠ VK_SUCCESS) :
    VK_WRAPPER call result = Except.error (VK_REPORT call result) := by
  simp [VK_WRAPPER, h]

theorem finishInitialize_mInfo (self post : frImage) (renderer : frRenderer)
    (info : frImageInfo) (env : ImageEnv)
    (h : self.finishInitialize renderer info env = (post, Except.ok ())) :
    post.mInfo = info := by
  unfold frImage.finishInitialize at h
  split at h
  · simp at h
  · unfold frImage.createView at h
    split at h
    · simp at h
    · simp only [Prod.mk.injEq, and_true] at h
      rw [← h]

theorem finishInitialize_returns (self : frImage) (renderer : frRenderer) (info : frImageInfo)
    (env : ImageEnv)
    (hmem : info.memory = true →
      (∃ i, FindMemoryType env.memProperties env.memoryTypeBits info.memoryProperties =
        Except.ok i) ∧ env.allocateResult = VK_SUCCESS)
    (hview : env.createViewResult = VK_SUCCESS) :
    (self.finishInitialize renderer info env).2 = Except.ok () := by
  have hb : ∃ s, self.bindMemory info env = (s, Except.ok ()) := by
    unfold frImage.bindMemory
    by_cases hm : info.memory = true
    · obtain ⟨⟨i, hi⟩, ha⟩ := hmem hm
      simp [hm, hi, VK_WRAPPER_ok _ _ ha]
    · simp [hm]
  obtain ⟨s, hs⟩ := hb
  simp [frImage.finishInitialize, hs, frImage.createView, VK_WRAPPER_ok _ _ hview]

/-- The floor of an accurate binary logarithm is the integer logarithm: if `y` is
within `2^-32` of `log2 x` for a natural number `1 ≤ x < 2^31`, and is the exact
exponent when `x` is a power of two, then `floor y = Nat.log 2 x`. -/
theorem floor_of_accurate_log2 (x : ℕ) (hx1 : 1 ≤ x) (hx : x < 2 ^ 31) (y : ℝ)
    (hexact : ∀ k : ℕ, x = 2 ^ k → y = k)
    (hnear : |y - Real.logb 2 x| ≤ 1 / 2 ^ 32) :
    ⌊y⌋ = (Nat.log 2 x : ℤ) := by
  have hlo : 2 ^ Nat.log 2 x ≤ x := Nat.pow_log_le_self 2 (by omega)
  have hhi : x < 2 ^ (Nat.log 2 x + 1) := Nat.lt_pow_succ_log_self (by decide) x
  have hk : Nat.log 2 x < 31 := Nat.log_lt_of_lt_pow (by omega) hx
  generalize Nat.log 2 x = k at hlo hhi hk
  have hL0 : 0 < Real.log 2 := Real.log_pos one_lt_two
  have hL1 : Real.log 2 < 1 := lt_trans Real.log_two_lt_d9 (by norm_num)
  have hxpos : (0 : ℝ) < x := by exact_mod_cast hx1
  have hnear' := abs_le.mp hnear
  have hgap : (1 : ℝ) / 2 ^ 31 ≤ 1 / 2 ^ (k + 1) := by
    apply one_div_le_one_div_of_le (by positivity)
    exact pow_le_pow_right₀ (by norm_num) (by omega)
  have hgap32 : (1 : ℝ) / 2 ^ 32 < 1 / 2 ^ 31 := by norm_num
  have hlogb : Real.logb 2 x = Real.log x / Real.log 2 := rfl
  rw [Int.floor_eq_iff]
  constructor
  · by_cases hxk : x = 2 ^ k
    · rw [hexact k hxk]
      simp
    · have hx2 : 2 ^ k + 1 ≤ x := by omega
      have hx2' : (2 : ℝ) ^ k + 1 ≤ x := by exact_mod_cast hx2
      have hhi' : (x : ℝ) < 2 ^ (k + 1) := by exact_mod_cast hhi
      have hpk : (0 : ℝ) < 2 ^ k := by positivity
      have hlog : Real.log x = k * Real.log 2 + Real.log (x / 2 ^ k) := by
        rw [Real.log_div hxpos.ne' hpk.ne', Real.log_pow]
        ring
      have hr : 1 / 2 ^ (k + 1) ≤ Real.log ((x : ℝ) / 2 ^ k) := by
        have h1 := Real.one_sub_inv_le_log_of_pos (div_pos hxpos hpk)
        have hA : (2 : ℝ) ^ k / x ≤ 1 - 1 / x := by
          rw [div_le_iff₀ hxpos, sub_mul, one_mul, one_div, inv_mul_cancel₀ hxpos.ne']
          linarith
        have hB : (1 : ℝ) / 2 ^ (k + 1) ≤ 1 / x := one_div_le_one_div_of_le hxpos hhi'.le
        rw [inv_div] at h1
        linarith
      have hb : (k : ℝ) + 1 / 2 ^ (k + 1) ≤ Real.logb 2 x := by
        rw [hlogb, le_div_iff₀ hL0, hlog]
        have : (1 : ℝ) / 2 ^ (k + 1) * Real.log 2 ≤ 1 / 2 ^ (k + 1) := by
          have hp : (0 : ℝ) < 1 / 2 ^ (k + 1) := by positivity
          nlinarith
        linarith
      push_cast
      linarith [hnear'.1]
  · have hhi' : (x : ℝ) + 1 ≤ 2 ^ (k + 1) := by exact_mod_cast hhi
    have hpk : (0 : ℝ) < 2 ^ (k + 1) := by positivity
    have hlog : Real.log x = (k + 1) * Real.log 2 + Real.log (x / 2 ^ (k + 1)) := by
      rw [Real.log_div hxpos.ne' hpk.ne', Real.log_pow]
      push_cast
      ring
    have hr : Real.log ((x : ℝ) / 2 ^ (k + 1)) ≤ -(1 / 2 ^ (k + 1)) := by
      have h1 := Real.log_le_sub_one_of_pos (div_pos hxpos hpk)
      have h2 : (x : ℝ) / 2 ^ (k + 1) - 1 ≤ -(1 / 2 ^ (k + 1)) := by
        rw [div_sub_one hpk.ne', ← neg_div, div_le_div_iff_of_pos_right hpk]
        linarith
      linarith
    have hb : Real.logb 2 x ≤ (k : ℝ) + 1 - 1 / 2 ^ (k + 1) := by
      rw [hlogb, div_le_iff₀ hL0, hlog]
      have : (1 : ℝ) / 2 ^ (k + 1) * Real.log 2 ≤ 1 / 2 ^ (k + 1) := by
        have hp : (0 : ℝ) < 1 / 2 ^ (k + 1) := by positivity
        nlinarith
      linarith
    push_cast
    linarith [hnear'.2]

/-- What `floorLog2` stands for. A double-precision `std::log2` returns, for an
`int` `x` with `1 ≤ x < 2^31`, a value `y` within `2^-32` of the binary logarithm
of `x` that is the exact exponent when `x` is a power of two; the floor of every
such `y` is `floorLog2 x`. -/
theorem floorLog2_of_accurate_log2 (x : Int) (hx1 : 1 ≤ x) (hx : x < 2 ^ 31) (y : ℝ)
    (hexact : ∀ k : ℕ, x = 2 ^ k → y = k)
    (hnear : |y - Real.logb 2 x| ≤ 1 / 2 ^ 32) :
    ⌊y⌋ = (floorLog2 x : ℤ) := by
  obtain ⟨n, rfl⟩ := Int.eq_ofNat_of_zero_le (by omega : 0 ≤ x)
  have h1 : 1 ≤ n := by exact_mod_cast hx1
  have h2 : n < 2 ^ 31 := by exact_mod_cast hx
  have h3 : ∀ k : ℕ, n = 2 ^ k → y = k := by
    intro k hk
    apply hexact k
    exact_mod_cast hk
  have h4 : |y - Real.logb 2 (n : ℝ)| ≤ 1 / 2 ^ 32 := by
    simpa using hnear
  have := floor_of_accurate_log2 n h1 h2 y h3 h4
  rw [this]
  simp [floorLog2, Nat.log2_eq_log_two]

theorem computeMipLevels_eq (info : frImageInfo) (hw : 0 < info.width) (hh : 0 < info.height)
    (hwi : info.width ≤ 2147483647) (hhi : info.height ≤ 2147483647) :
    computeMipLevels info =
      if info.generateMipmaps then Nat.log 2 (max info.width info.height).toNat + 1 else 1 := by
  unfold computeMipLevels floorLog2
  split
  · rw [Nat.log2_eq_log_two]
    have hpos : (max info.width info.height).toNat ≠ 0 := by omega
    have hlt : (max info.width info.height).toNat < 2 ^ 31 := by
      have : (2 : Nat) ^ 31 = 2147483648 := by norm_num
      omega
    have hlog : Nat.log 2 (max info.width info.height).toNat < 31 :=
      Nat.log_lt_of_lt_pow hpos hlt
    omega
  · rfl

/-- C4. Mip-level count: for an image description of positive width and height
(C `int`s), both `frImage::initialize` overloads, whenever they return normally,
record `floor(log2(max(w,h))) + 1` levels when `generateMipmaps` is set (the
exponent `k` with `2^k ≤ max(w,h) < 2^(k+1)`, plus one) and exactly 1 when it is
not; they return normally whenever the driver calls they make succeed; and the
`mipLevels` value put in by the caller has no effect on either overload. -/
theorem initialize_mip_levels (self : frImage) (renderer : frRenderer) (image : Nat)
    (info : frImageInfo) (env : ImageEnv) (hw : 0 < info.width) (hh : 0 < info.height)
    (hwi : info.width ≤ 2147483647) (hhi : info.height ≤ 2147483647) :
    (∀ post, self.initialize renderer info env = (post, Except.ok ()) →
      post.mInfo.mipLevels =
        if info.generateMipmaps then Nat.log 2 (max info.width info.height).toNat + 1
        else 1) ∧
    (∀ post, self.initializeBorrowed renderer image info env = (post, Except.ok ()) →
      post.mInfo.mipLevels =
        if info.generateMipmaps then Nat.log 2 (max info.width info.height).toNat + 1
        else 1) ∧
    (2 ^ Nat.log 2 (max info.width info.height).toNat ≤ (max info.width info.height).toNat ∧
      (max info.width info.height).toNat <
        2 ^ (Nat.log 2 (max info.width info.height).toNat + 1)) ∧
    (env.createImageResult = VK_SUCCESS →
      (info.memory = true →
        (∃ i, FindMemoryType env.memProperties env.memoryTypeBits info.memoryProperties =
          Except.ok i) ∧ env.allocateResult = VK_SUCCESS) →
      env.createViewResult = VK_SUCCESS →
      ∃ post, self.initialize renderer info env = (post, Except.ok ())) ∧
    ((info.memory = true →
        (∃ i, FindMemoryType env.memProperties env.memoryTypeBits info.memoryProperties =
          Except.ok i) ∧ env.allocateResult = VK_SUCCESS) →
      env.createViewResult = VK_SUCCESS →
      ∃ post, self.initializeBorrowed renderer image info env = (post, Except.ok ())) ∧
    (∀ n, self.initialize renderer { info with mipLevels := n } env =
        self.initialize renderer info env ∧
      self.initializeBorrowed renderer image { info with mipLevels := n } env =
        self.initializeBorrowed renderer image info env) := by
  have hlev := computeMipLevels_eq info hw hh hwi hhi
  refine ⟨?_, ?_, ⟨?_, ?_⟩, ?_, ?_, ?_⟩
  · intro post hpost
    unfold frImage.initialize at hpost
    split at hpost
    · simp at hpost
    · have := finishInitialize_mInfo _ _ _ _ _ hpost
      rw [this, ← hlev]
  · intro post hpost
    unfold frImage.initializeBorrowed at hpost
    have := finishInitialize_mInfo _ _ _ _ _ hpost
    rw [this, ← hlev]
  · exact Nat.pow_log_le_self 2 (by omega)
  · exact Nat.lt_pow_succ_log_self (by decide) _
  · intro hc hmem hview
    refine ⟨_, Prod.ext rfl ?_⟩
    unfold frImage.initialize
    rw [VK_WRAPPER_ok _ _ hc]
    exact finishInitialize_returns _ _ _ _ hmem hview
  · intro hmem hview
    refine ⟨_, Prod.ext rfl ?_⟩
    unfold frImage.initializeBorrowed
    exact finishInitialize_returns _ _ _ _ hmem hview
  · intro n
    constructor <;> rfl

theorem initialize_mip_levels_witness :
    0 < sampleImageInfo.width ∧ 0 < sampleImageInfo.height ∧
    sampleImageInfo.width ≤ 2147483647 ∧ sampleImageInfo.height ≤ 2147483647 ∧
    sampleInitialized.2 = Except.ok () ∧ sampleInitialized.1.mInfo.mipLevels = 9 := by
  have h := initialize_mip_levels frImage.fresh sampleRenderer 0 sampleImageInfo sampleImageEnv
    (by decide) (by decide) (by decide) (by decide)
  have hok : sampleInitialized.2 = Except.ok () := rfl
  refine ⟨by decide, by decide, by decide, by decide, hok, ?_⟩
  have h9 := h.1 sampleInitialized.1 (Prod.ext rfl hok)
  have hlog : Nat.log 2 (max sampleImageInfo.width sampleImageInfo.height).toNat = 8 := by
    have : (max sampleImageInfo.width sampleImageInfo.height).toNat = 256 := by decide
    rw [this]
    exact (Nat.log_eq_iff (Or.inl (by decide))).mpr ⟨by norm_num, by norm_num⟩
  rw [hlog] at h9
  exact h9

theorem int_div_pow_succ (w : Int) (hw : 0 ≤ w) (k : Nat) :
    w / 2 ^ (k + 1) = w / 2 ^ k / 2 := by
  obtain ⟨n, rfl⟩ := Int.eq_ofNat_of_zero_le hw
  have h : ((n / 2 ^ (k + 1) : Nat) : Int) = ((n / 2 ^ k / 2 : Nat) : Int) := by
    rw [Nat.div_div_eq_div_mul, pow_succ]
  push_cast at h
  exact h

theorem halve_blit (w : Int) (hw : 0 < w) (k : Nat) :
    (if max 1 (w / 2 ^ k) > 1 then Int.tdiv (max 1 (w / 2 ^ k)) 2 else 1) =
      max 1 (w / 2 ^ (k + 1)) := by
  rw [int_div_pow_succ w (by omega) k]
  have hq : 0 ≤ w / 2 ^ k := Int.ediv_nonneg (by omega) (by positivity)
  generalize w / 2 ^ k = q at hq
  have : Int.tdiv (max 1 q) 2 = (max 1 q) / 2 := Int.tdiv_eq_ediv (by omega) (by decide)
  rw [this]
  split <;> omega

theorem halve_loop (w : Int) (hw : 0 < w) (k : Nat) :
    (if max 1 (w / 2 ^ k) > 1 then Int.tdiv (max 1 (w / 2 ^ k)) 2 else max 1 (w / 2 ^ k)) =
      max 1 (w / 2 ^ (k + 1)) := by
  rw [← halve_blit w hw k]
  split
  · rfl
  · omega

theorem blitsOf_append (a b : List DriverCall) : blitsOf (a ++ b) = blitsOf a ++ blitsOf b := by
  induction a with
  | nil => rfl
  | cons c rest ih => cases c <;> simp [blitsOf, ih]

/-- The state of the loop of `generateMipmaps` after `n` iterations: the running
sizes are the source sizes divided by `2^n` and kept at 1 or more, and the blits
recorded are those of the levels `1..n`. -/
theorem mipLoop_fold (self : frImage) (w h : Int) (hw : 0 < w) (hh : 0 < h) (n : Nat) :
    ((List.range' 1 n).foldl (mipLoopBody self)
        { mipWidth := w, mipHeight := h, recorded := [] }).mipWidth = max 1 (w / 2 ^ n) ∧
    ((List.range' 1 n).foldl (mipLoopBody self)
        { mipWidth := w, mipHeight := h, recorded := [] }).mipHeight = max 1 (h / 2 ^ n) ∧
    blitsOf ((List.range' 1 n).foldl (mipLoopBody self)
        { mipWidth := w, mipHeight := h, recorded := [] }).recorded =
      (List.range n).map
        (fun k => mipBlit (max 1 (w / 2 ^ k)) (max 1 (h / 2 ^ k)) (k + 1)) := by
  induction n with
  | zero =>
    refine ⟨?_, ?_, ?_⟩
    · simp only [List.range'_zero, List.foldl_nil, pow_zero, Int.ediv_one]
      omega
    · simp only [List.range'_zero, List.foldl_nil, pow_zero, Int.ediv_one]
      omega
    · simp [blitsOf]
  | succ n ih =>
    obtain ⟨ihw, ihh, ihb⟩ := ih
    rw [List.range'_concat, List.foldl_append]
    simp only [List.foldl_cons, List.foldl_nil, mipLoopBody]
    refine ⟨?_, ?_, ?_⟩
    · rw [ihw]
      exact halve_loop w hw n
    · rw [ihh]
      exact halve_loop h hh n
    · rw [blitsOf_append, ihb, List.range_succ, List.map_append, ihw, ihh]
      simp [blitsOf, Nat.add_comm]

theorem blitsOf_generateMipmaps (self : frImage) (optimalTilingFeatures : Nat)
    (env : CommandsEnv)
    (hlinear : optimalTilingFeatures &&& VK_FORMAT_FEATURE_SAMPLED_IMAGE_FILTER_LINEAR_BIT ≠ 0)
    (halloc : env.allocateResult = VK_SUCCESS) (hbegin : env.beginResult = VK_SUCCESS) :
    blitsOf (self.generateMipmaps optimalTilingFeatures env).1 =
      blitsOf (mipLoop self).recorded := by
  have hb : beginSingleTime env =
      ([DriverCall.vkAllocateCommandBuffers VK_COMMAND_BUFFER_LEVEL_PRIMARY 1,
        DriverCall.vkBeginCommandBuffer VK_COMMAND_BUFFER_USAGE_ONE_TIME_SUBMIT_BIT],
       Except.ok ()) := by
    simp [beginSingleTime, VK_WRAPPER_ok _ _ halloc, VK_WRAPPER_ok _ _ hbegin]
  have he : blitsOf (endSingleTime env).1 = [] := by
    unfold endSingleTime
    split <;> rfl
  unfold frImage.generateMipmaps
  rw [if_neg hlinear, hb]
  simp only [blitsOf_append, he, mipRecording]
  simp [blitsOf]

/-- C5. Mip blit chain dimensions: for an image of positive size `(w, h)` holding
`L ≥ 1` levels, a run of `generateMipmaps` that gets to record (the format
supports linear filtering and the command buffer is allocated and begun) records
exactly `L - 1` blits, and for `1 ≤ i ≤ L - 1` the `i`-th blit reads level `i - 1`
with extent `(max 1 (w / 2^(i-1)), max 1 (h / 2^(i-1)))` and writes level `i` with
extent `(max 1 (w / 2^i), max 1 (h / 2^i))`, the division being the floor. -/
theorem generateMipmaps_blit_chain (self : frImage) (optimalTilingFeatures : Nat)
    (env : CommandsEnv)
    (hlinear : optimalTilingFeatures &&& VK_FORMAT_FEATURE_SAMPLED_IMAGE_FILTER_LINEAR_BIT ≠ 0)
    (halloc : env.allocateResult = VK_SUCCESS) (hbegin : env.beginResult = VK_SUCCESS)
    (hw : 0 < self.mInfo.width) (hh : 0 < self.mInfo.height) (hL : 1 ≤ self.mInfo.mipLevels) :
    (blitsOf (self.generateMipmaps optimalTilingFeatures env).1).length + 1 =
      self.mInfo.mipLevels ∧
    ∀ i, 1 ≤ i → i + 1 ≤ self.mInfo.mipLevels →
      ∃ b, (blitsOf (self.generateMipmaps optimalTilingFeatures env).1)[i - 1]? = some b ∧
        b.srcSubresource.mipLevel = i - 1 ∧
        b.srcExtent =
          (max 1 (self.mInfo.width / 2 ^ (i - 1)), max 1 (self.mInfo.height / 2 ^ (i - 1))) ∧
        b.dstSubresource.mipLevel = i ∧
        b.dstExtent = (max 1 (self.mInfo.width / 2 ^ i), max 1 (self.mInfo.height / 2 ^ i)) := by
  rw [blitsOf_generateMipmaps self optimalTilingFeatures env hlinear halloc hbegin]
  obtain ⟨-, -, hb⟩ := mipLoop_fold self self.mInfo.width self.mInfo.height hw hh
    (self.mInfo.mipLevels - 1)
  unfold mipLoop
  rw [hb]
  refine ⟨?_, ?_⟩
  · simp only [List.length_map, List.length_range]
    omega
  · intro i hi1 hi2
    refine ⟨mipBlit (max 1 (self.mInfo.width / 2 ^ (i - 1)))
      (max 1 (self.mInfo.height / 2 ^ (i - 1))) (i - 1 + 1), ?_, ?_, ?_, ?_, ?_⟩
    · rw [List.getElem?_map, List.getElem?_range (by omega)]
      rfl
    · simp only [mipBlit]
      omega
    · simp [VkImageBlit.srcExtent, mipBlit]
    · simp only [mipBlit]
      omega
    · simp only [VkImageBlit.dstExtent, mipBlit, sub_zero]
      rw [halve_blit _ hw, halve_blit _ hh]
      have : i - 1 + 1 = i := by omega
      rw [this]

theorem generateMipmaps_blit_chain_witness :
    4096 &&& VK_FORMAT_FEATURE_SAMPLED_IMAGE_FILTER_LINEAR_BIT ≠ 0 ∧
    sampleCommandsEnv.allocateResult = VK_SUCCESS ∧
    sampleCommandsEnv.beginResult = VK_SUCCESS ∧
    0 < sampleImage.mInfo.width ∧ 0 < sampleImage.mInfo.height ∧
    1 ≤ sampleImage.mInfo.mipLevels ∧
    (blitsOf (sampleImage.generateMipmaps 4096 sampleCommandsEnv).1).length + 1 =
      sampleImage.mInfo.mipLevels ∧
    ∀ i, 1 ≤ i → i + 1 ≤ sampleImage.mInfo.mipLevels →
      ∃ b, (blitsOf (sampleImage.generateMipmaps 4096 sampleCommandsEnv).1)[i - 1]? = some b ∧
        b.srcSubresource.mipLevel = i - 1 ∧
        b.srcExtent =
          (max 1 (sampleImage.mInfo.width / 2 ^ (i - 1)),
            max 1 (sampleImage.mInfo.height / 2 ^ (i - 1))) ∧
        b.dstSubresource.mipLevel = i ∧
        b.dstExtent =
          (max 1 (sampleImage.mInfo.width / 2 ^ i), max 1 (sampleImage.mInfo.height / 2 ^ i)) :=
  ⟨by decide, by decide, by decide, by decide, by decide, by decide,
    generateMipmaps_blit_chain sampleImage 4096 sampleCommandsEnv (by decide) (by decide)
      (by decide) (by decide) (by decide) (by decide)⟩

theorem initialize_mInfo (self img : frImage) (renderer : frRenderer) (image : Nat)
    (info : frImageInfo) (env : ImageEnv)
    (h : self.initialize renderer info env = (img, Except.ok ()) ∨
      self.initializeBorrowed renderer image info env = (img, Except.ok ())) :
    img.mInfo = { info with mipLevels := computeMipLevels info } := by
  rcases h with h | h
  · unfold frImage.initialize at h
    split at h
    · simp at h
    · exact finishInitialize_mInfo _ _ _ _ _ h
  · unfold frImage.initializeBorrowed at h
    exact finishInitialize_mInfo _ _ _ _ _ h

theorem div_pow_log_le_one (w m : Int) (hw : 0 < w) (hwm : w ≤ m) :
    max 1 (w / 2 ^ Nat.log 2 m.toNat) = 1 := by
  have hlt : m.toNat < 2 ^ (Nat.log 2 m.toNat + 1) := Nat.lt_pow_succ_log_self (by decide) _
  have hlt' : (m.toNat : Int) < 2 ^ (Nat.log 2 m.toNat + 1) := by exact_mod_cast hlt
  have hm : (m.toNat : Int) = m := Int.toNat_of_nonneg (by omega)
  have hpos : (0 : Int) < 2 ^ Nat.log 2 m.toNat := by positivity
  have : w / 2 ^ Nat.log 2 m.toNat < 2 := by
    apply Int.ediv_lt_of_lt_mul hpos
    rw [pow_succ] at hlt'
    omega
  omega

/-- C6. Mip chain reaches 1x1: for an image description of positive size `(w, h)`
(C `int`s) with `generateMipmaps` set, initialized by either overload, the level
count is `L = floor(log2(max(w,h))) + 1`; a run of `generateMipmaps` that gets to
record writes the levels `1..L-1` with extents `(max 1 (w / 2^i), max 1 (h / 2^i))`,
and the last level it writes, level `L - 1`, has extent 1x1; when it writes no
level at all the image itself is 1x1. -/
theorem mip_chain_reaches_one (self img : frImage) (renderer : frRenderer) (image : Nat)
    (info : frImageInfo) (envI : ImageEnv) (optimalTilingFeatures : Nat) (env : CommandsEnv)
    (hw : 0 < info.width) (hh : 0 < info.height)
    (hwi : info.width ≤ 2147483647) (hhi : info.height ≤ 2147483647)
    (hgen : info.generateMipmaps = true)
    (hinit : self.initialize renderer info envI = (img, Except.ok ()) ∨
      self.initializeBorrowed renderer image info envI = (img, Except.ok ()))
    (hlinear : optimalTilingFeatures &&& VK_FORMAT_FEATURE_SAMPLED_IMAGE_FILTER_LINEAR_BIT ≠ 0)
    (halloc : env.allocateResult = VK_SUCCESS) (hbegin : env.beginResult = VK_SUCCESS) :
    img.mInfo.mipLevels = Nat.log 2 (max info.width info.height).toNat + 1 ∧
    (blitsOf (img.generateMipmaps optimalTilingFeatures env).1).map
        (fun b => (b.dstSubresource.mipLevel, b.dstExtent)) =
      (List.range (img.mInfo.mipLevels - 1)).map
        (fun k => (k + 1, (max 1 (info.width / 2 ^ (k + 1)), max 1 (info.height / 2 ^ (k + 1))))) ∧
    (∀ b, (blitsOf (img.generateMipmaps optimalTilingFeatures env).1).getLast? = some b →
      b.dstSubresource.mipLevel = img.mInfo.mipLevels - 1 ∧ b.dstExtent = (1, 1)) ∧
    (blitsOf (img.generateMipmaps optimalTilingFeatures env).1 = [] →
      info.width = 1 ∧ info.height = 1) := by
  have hinfo := initialize_mInfo self img renderer image info envI hinit
  have hlev : img.mInfo.mipLevels = Nat.log 2 (max info.width info.height).toNat + 1 := by
    rw [hinfo]
    simp only [computeMipLevels_eq info hw hh hwi hhi, hgen, if_true]
  have hwid : img.mInfo.width = info.width := by rw [hinfo]
  have hhei : img.mInfo.height = info.height := by rw [hinfo]
  have hblits : blitsOf (img.generateMipmaps optimalTilingFeatures env).1 =
      (List.range (img.mInfo.mipLevels - 1)).map
        (fun k => mipBlit (max 1 (info.width / 2 ^ k)) (max 1 (info.height / 2 ^ k))
          (k + 1)) := by
    rw [blitsOf_generateMipmaps img optimalTilingFeatures env hlinear halloc hbegin]
    obtain ⟨-, -, hb⟩ := mipLoop_fold img info.width info.height hw hh (img.mInfo.mipLevels - 1)
    unfold mipLoop
    rw [hwid, hhei, hb]
  have hext : ∀ k, (mipBlit (max 1 (info.width / 2 ^ k)) (max 1 (info.height / 2 ^ k))
      (k + 1)).dstExtent =
      (max 1 (info.width / 2 ^ (k + 1)), max 1 (info.height / 2 ^ (k + 1))) := by
    intro k
    simp only [VkImageBlit.dstExtent, mipBlit, sub_zero]
    rw [halve_blit _ hw, halve_blit _ hh]
  have hone : max 1 (info.width / 2 ^ Nat.log 2 (max info.width info.height).toNat) = 1 ∧
      max 1 (info.height / 2 ^ Nat.log 2 (max info.width info.height).toNat) = 1 :=
    ⟨div_pow_log_le_one _ _ hw (le_max_left _ _), div_pow_log_le_one _ _ hh (le_max_right _ _)⟩
  refine ⟨hlev, ?_, ?_, ?_⟩
  · rw [hblits, List.map_map]
    apply List.map_congr_left
    intro k _
    simp only [Function.comp]
    rw [hext k]
    rfl
  · intro b hb
    rw [hblits] at hb
    cases hn : img.mInfo.mipLevels - 1 with
    | zero => simp [hn] at hb
    | succ n =>
      rw [hn, List.range_succ, List.map_append, List.map_singleton,
        List.getLast?_concat] at hb
      have hbe : b = mipBlit (max 1 (info.width / 2 ^ n)) (max 1 (info.height / 2 ^ n))
          (n + 1) := by
        simpa using hb.symm
      have hk : Nat.log 2 (max info.width info.height).toNat = n + 1 := by omega
      rw [hk] at hone
      refine ⟨?_, ?_⟩
      · rw [hbe]
        rfl
      · rw [hbe, hext n, hone.1, hone.2]
  · intro hnil
    rw [hblits] at hnil
    have hL : img.mInfo.mipLevels - 1 = 0 := by
      have := congrArg List.length hnil
      simpa using this
    have hk : Nat.log 2 (max info.width info.height).toNat = 0 := by omega
    rw [hk] at hone
    simp only [pow_zero, Int.ediv_one] at hone
    omega

theorem mip_chain_reaches_one_witness :
    0 < sampleImageInfo.width ∧ 0 < sampleImageInfo.height ∧
    sampleImageInfo.generateMipmaps = true ∧
    sampleInitialized.2 = Except.ok () ∧
    sampleInitialized.1.mInfo.mipLevels = 9 ∧
    (blitsOf (sampleInitialized.1.generateMipmaps 4096 sampleCommandsEnv).1).map
        (fun b => (b.dstSubresource.mipLevel, b.dstExtent)) =
      [(1, (128, 128)), (2, (64, 64)), (3, (32, 32)), (4, (16, 16)), (5, (8, 8)),
        (6, (4, 4)), (7, (2, 2)), (8, (1, 1))] := by
  have hok : sampleInitialized.2 = Except.ok () := rfl
  have h := mip_chain_reaches_one frImage.fresh sampleInitialized.1 sampleRenderer 0
    sampleImageInfo sampleImageEnv 4096 sampleCommandsEnv (by decide) (by decide) (by decide)
    (by decide) rfl (Or.inl (Prod.ext rfl hok)) (by decide) rfl rfl
  have hlog : Nat.log 2 (max sampleImageInfo.width sampleImageInfo.height).toNat = 8 := by
    have : (max sampleImageInfo.width sampleImageInfo.height).toNat = 256 := by decide
    rw [this]
    exact (Nat.log_eq_iff (Or.inl (by decide))).mpr ⟨by norm_num, by norm_num⟩
  obtain ⟨h9, hchain, -, -⟩ := h
  rw [hlog] at h9
  refine ⟨by decide, by decide, rfl, hok, h9, ?_⟩
  rw [hchain, h9]
  decide

theorem runLayouts_append (layouts : LayoutState) (a b : List DriverCall) :
    runLayouts layouts (a ++ b) = (runLayouts layouts a).bind (fun m => runLayouts m b) := by
  induction a generalizing layouts with
  | nil => rfl
  | cons c rest ih =>
    simp only [List.cons_append, runLayouts]
    cases stepLayout layouts c with
    | none => rfl
    | some next => exact ih next

theorem stepLayout_barrier (layouts : LayoutState) (self : frImage) (s d : Nat)
    (level : Nat) (oldLayout newLayout : VkImageLayout) (a1 a2 : Nat)
    (h : layouts level = oldLayout) :
    stepLayout layouts (DriverCall.vkCmdPipelineBarrier s d
        (mipBarrier self level oldLayout newLayout a1 a2)) =
      some (fun l => if l = level then newLayout else layouts l) := by
  simp only [stepLayout, mipBarrier, List.range'_one, List.all_cons, List.all_nil, h,
    beq_self_eq_true, Bool.and_self, if_true, Option.some.injEq]
  funext l
  by_cases hl : l = level
  · simp [hl]
  · have : ¬ (level ≤ l ∧ l < level + 1) := by omega
    simp [hl, this]

theorem stepLayout_blit (layouts : LayoutState) (image filter : Nat)
    (srcLayout dstLayout : VkImageLayout) (w h : Int) (i : Nat)
    (hsrc : layouts (i - 1) = srcLayout) (hdst : layouts i = dstLayout) :
    stepLayout layouts (DriverCall.vkCmdBlitImage image srcLayout image dstLayout
      (mipBlit w h i) filter) = some layouts := by
  simp [stepLayout, mipBlit, hsrc, hdst]

theorem runLayouts_three (l0 l1 l2 l3 : LayoutState) (c1 c2 c3 : DriverCall)
    (h1 : stepLayout l0 c1 = some l1) (h2 : stepLayout l1 c2 = some l2)
    (h3 : stepLayout l2 c3 = some l3) : runLayouts l0 [c1, c2, c3] = some l3 := by
  simp [runLayouts, h1, h2, h3]

/-- Layouts after `n` iterations of the loop of `generateMipmaps`, started with the
levels below `L` in transfer-dst layout: every barrier and blit recorded so far
named the layout its level was in, the levels below `n` are in shader-read-only
layout and the others are untouched. -/
theorem mipLoop_layouts (self : frImage) (layouts : LayoutState) (L : Nat) (w h : Int)
    (hdst : ∀ k, k < L → layouts k = VK_IMAGE_LAYOUT_TRANSFER_DST_OPTIMAL)
    (n : Nat) (hn : n + 1 ≤ L) :
    runLayouts layouts ((List.range' 1 n).foldl (mipLoopBody self)
        { mipWidth := w, mipHeight := h, recorded := [] }).recorded =
      some (fun k => if k < n then VK_IMAGE_LAYOUT_SHADER_READ_ONLY_OPTIMAL else layouts k) := by
  induction n with
  | zero => simp [runLayouts]
  | succ n ih =>
    have ih' := ih (by omega)
    rw [List.range'_concat, List.foldl_append]
    simp only [List.foldl_cons, List.foldl_nil, mipLoopBody]
    rw [runLayouts_append, ih', Option.some_bind]
    have hi : 1 + 1 * n - 1 = n := by omega
    have hi' : 1 + 1 * n = n + 1 := by omega
    rw [hi, hi']
    have h1 := stepLayout_barrier
      (fun k => if k < n then VK_IMAGE_LAYOUT_SHADER_READ_ONLY_OPTIMAL else layouts k)
      self VK_PIPELINE_STAGE_TRANSFER_BIT VK_PIPELINE_STAGE_TRANSFER_BIT n
      VK_IMAGE_LAYOUT_TRANSFER_DST_OPTIMAL VK_IMAGE_LAYOUT_TRANSFER_SRC_OPTIMAL
      VK_ACCESS_TRANSFER_WRITE_BIT VK_ACCESS_TRANSFER_READ_BIT
      (by simp [hdst n (by omega)])
    have h2 := stepLayout_blit
      (fun l => if l = n then VK_IMAGE_LAYOUT_TRANSFER_SRC_OPTIMAL
        else (fun k => if k < n then VK_IMAGE_LAYOUT_SHADER_READ_ONLY_OPTIMAL else layouts k) l)
      self.mImage VK_FILTER_LINEAR VK_IMAGE_LAYOUT_TRANSFER_SRC_OPTIMAL
      VK_IMAGE_LAYOUT_TRANSFER_DST_OPTIMAL
      ((List.range' 1 n).foldl (mipLoopBody self)
        { mipWidth := w, mipHeight := h, recorded := [] }).mipWidth
      ((List.range' 1 n).foldl (mipLoopBody self)
        { mipWidth := w, mipHeight := h, recorded := [] }).mipHeight
      (n + 1) (by simp) (by simp [hdst (n + 1) (by omega)])
    have h3 := stepLayout_barrier
      (fun l => if l = n then VK_IMAGE_LAYOUT_TRANSFER_SRC_OPTIMAL
        else (fun k => if k < n then VK_IMAGE_LAYOUT_SHADER_READ_ONLY_OPTIMAL else layouts k) l)
      self VK_PIPELINE_STAGE_TRANSFER_BIT VK_PIPELINE_STAGE_FRAGMENT_SHADER_BIT n
      VK_IMAGE_LAYOUT_TRANSFER_SRC_OPTIMAL VK_IMAGE_LAYOUT_SHADER_READ_ONLY_OPTIMAL
      VK_ACCESS_TRANSFER_READ_BIT VK_ACCESS_SHADER_READ_BIT (by simp)
    rw [runLayouts_three _ _ _ _ _ _ _ h1 h2 h3]
    simp only [Option.some.injEq]
    funext k
    by_cases hk : k = n
    · simp [hk]
    · by_cases hk' : k < n
      · have : k < n + 1 := by omega
        simp [hk, hk', this]
      · have : ¬ k < n + 1 := by omega
        simp [hk, hk', this]

theorem runLayouts_generateMipmaps (self : frImage) (optimalTilingFeatures : Nat)
    (env : CommandsEnv) (layouts : LayoutState)
    (hlinear : optimalTilingFeatures &&& VK_FORMAT_FEATURE_SAMPLED_IMAGE_FILTER_LINEAR_BIT ≠ 0)
    (halloc : env.allocateResult = VK_SUCCESS) (hbegin : env.beginResult = VK_SUCCESS) :
    runLayouts layouts (self.generateMipmaps optimalTilingFeatures env).1 =
      runLayouts layouts (mipRecording self) := by
  have hb : beginSingleTime env =
      ([DriverCall.vkAllocateCommandBuffers VK_COMMAND_BUFFER_LEVEL_PRIMARY 1,
        DriverCall.vkBeginCommandBuffer VK_COMMAND_BUFFER_USAGE_ONE_TIME_SUBMIT_BIT],
       Except.ok ()) := by
    simp [beginSingleTime, VK_WRAPPER_ok _ _ halloc, VK_WRAPPER_ok _ _ hbegin]
  have he : ∀ m, runLayouts m (endSingleTime env).1 = some m := by
    intro m
    unfold endSingleTime
    split <;> rfl
  have hpre : runLayouts layouts
      [DriverCall.vkAllocateCommandBuffers VK_COMMAND_BUFFER_LEVEL_PRIMARY 1,
        DriverCall.vkBeginCommandBuffer VK_COMMAND_BUFFER_USAGE_ONE_TIME_SUBMIT_BIT] =
      some layouts := rfl
  unfold frImage.generateMipmaps
  rw [if_neg hlinear, hb]
  simp only []
  rw [runLayouts_append, runLayouts_append, hpre, Option.some_bind]
  cases runLayouts layouts (mipRecording self) with
  | none => rfl
  | some m => simp [he]

/-- C7. Mip layouts: for an image holding `L ≥ 1` levels (a `uint32_t`), all in
transfer-dst layout when `generateMipmaps` starts, a run that gets to record goes
through the layout tracking without a mismatch, that is, every barrier it records
names as `oldLayout` the layout its level is in at that point (and every blit
names the layouts its two levels are in); after the whole sequence every level
`0..L-1` is in shader-read-only layout, and no other level was touched. -/
theorem generateMipmaps_layouts (self : frImage) (optimalTilingFeatures : Nat)
    (env : CommandsEnv) (layouts : LayoutState)
    (hlinear : optimalTilingFeatures &&& VK_FORMAT_FEATURE_SAMPLED_IMAGE_FILTER_LINEAR_BIT ≠ 0)
    (halloc : env.allocateResult = VK_SUCCESS) (hbegin : env.beginResult = VK_SUCCESS)
    (hL : 1 ≤ self.mInfo.mipLevels) (hL32 : self.mInfo.mipLevels ≤ UINT32_MAX)
    (hdst : ∀ k, k < self.mInfo.mipLevels → layouts k = VK_IMAGE_LAYOUT_TRANSFER_DST_OPTIMAL) :
    ∃ final, runLayouts layouts (self.generateMipmaps optimalTilingFeatures env).1 =
        some final ∧
      (∀ k, k < self.mInfo.mipLevels → final k = VK_IMAGE_LAYOUT_SHADER_READ_ONLY_OPTIMAL) ∧
      (∀ k, self.mInfo.mipLevels ≤ k → final k = layouts k) := by
  rw [runLayouts_generateMipmaps self optimalTilingFeatures env layouts hlinear halloc hbegin]
  have hloop := mipLoop_layouts self layouts self.mInfo.mipLevels self.mInfo.width
    self.mInfo.height hdst (self.mInfo.mipLevels - 1) (by omega)
  have hlast : (self.mInfo.mipLevels + 4294967295) % 4294967296 = self.mInfo.mipLevels - 1 := by
    unfold UINT32_MAX at hL32
    omega
  unfold mipRecording mipLoop
  rw [runLayouts_append, hloop, hlast, Option.some_bind]
  simp only [runLayouts]
  rw [stepLayout_barrier _ _ _ _ _ _ _ _ _
    (by simp [hdst (self.mInfo.mipLevels - 1) (by omega)])]
  refine ⟨_, rfl, ?_, ?_⟩
  · intro k hk
    by_cases hk' : k = self.mInfo.mipLevels - 1
    · simp [hk']
    · have : k < self.mInfo.mipLevels - 1 := by omega
      simp [hk', this]
  · intro k hk
    have h1 : ¬ k = self.mInfo.mipLevels - 1 := by omega
    have h2 : ¬ k < self.mInfo.mipLevels - 1 := by omega
    simp [h1, h2]

theorem generateMipmaps_layouts_witness :
    4096 &&& VK_FORMAT_FEATURE_SAMPLED_IMAGE_FILTER_LINEAR_BIT ≠ 0 ∧
    1 ≤ sampleImage.mInfo.mipLevels ∧ sampleImage.mInfo.mipLevels ≤ UINT32_MAX ∧
    ∃ final, runLayouts (fun _ => VK_IMAGE_LAYOUT_TRANSFER_DST_OPTIMAL)
        (sampleImage.generateMipmaps 4096 sampleCommandsEnv).1 = some final ∧
      (∀ k, k < sampleImage.mInfo.mipLevels →
        final k = VK_IMAGE_LAYOUT_SHADER_READ_ONLY_OPTIMAL) ∧
      (∀ k, sampleImage.mInfo.mipLevels ≤ k →
        final k = (fun _ => VK_IMAGE_LAYOUT_TRANSFER_DST_OPTIMAL) k) :=
  ⟨by decide, by decide, by decide,
    generateMipmaps_layouts sampleImage 4096 sampleCommandsEnv
      (fun _ => VK_IMAGE_LAYOUT_TRANSFER_DST_OPTIMAL) (by decide) rfl rfl (by decide)
      (by decide) (fun _ _ => rfl)⟩

/-! ## Properties of error signalling -/

/-- C11. Stale surface is a distinct signal: when `vkAcquireNextImageKHR` returns
the out-of-date result `acquireNextImage` raises `frSwapchainResizeException`, and
it raises that exception for no other result; when `vkQueuePresentKHR` returns the
out-of-date result `present` raises `frSwapchainResizeException`; in neither case
is the exception a `frVulkanException`. -/
theorem stale_surface_signal (self : frRenderer) (swapchain : frSwapchain)
    (sync : frSynchronization) (imageIndex : Nat) :
    (∀ result, self.acquireNextImage swapchain sync result imageIndex =
        Except.error frException.frSwapchainResizeException ↔
      result = VK_ERROR_OUT_OF_DATE_KHR) ∧
    (self.present swapchain sync imageIndex VK_ERROR_OUT_OF_DATE_KHR).2 =
      Except.error frException.frSwapchainResizeException ∧
    (∀ msg, self.acquireNextImage swapchain sync VK_ERROR_OUT_OF_DATE_KHR imageIndex ≠
        Except.error (frException.frVulkanException msg) ∧
      (self.present swapchain sync imageIndex VK_ERROR_OUT_OF_DATE_KHR).2 ≠
        Except.error (frException.frVulkanException msg)) := by
  have hpres : (self.present swapchain sync imageIndex VK_ERROR_OUT_OF_DATE_KHR).2 =
      Except.error frException.frSwapchainResizeException := by
    have h1 : ¬ VK_ERROR_OUT_OF_DATE_KHR = VK_SUCCESS := by decide
    simp [frRenderer.present, h1]
  have hacq : self.acquireNextImage swapchain sync VK_ERROR_OUT_OF_DATE_KHR imageIndex =
      Except.error frException.frSwapchainResizeException := by
    simp [frRenderer.acquireNextImage]
  refine ⟨?_, hpres, ?_⟩
  · intro result
    constructor
    · intro h
      by_contra hne
      unfold frRenderer.acquireNextImage at h
      rw [if_neg hne] at h
      split at h
      · cases h
      · simp [VK_REPORT] at h
    · intro h
      rw [h]
      exact hacq
  · intro msg
    rw [hacq, hpres]
    constructor <;> simp

theorem VK_WRAPPER_ok_iff (call : String) (result : VkResult) :
    VK_WRAPPER call result = Except.ok () ↔ result = VK_SUCCESS := by
  constructor
  · intro hok
    by_contra h
    rw [VK_WRAPPER_error call result h] at hok
    cases hok
  · exact VK_WRAPPER_ok call result

/-- C12. Driver-call failure wrapping: a call guarded by `VK_WRAPPER` raises
exactly when its result is not the success code; what it raises is a
`frVulkanException` whose message is the text of the call, then
`" failed with error "`, then the status string of the result, then `"!"`. -/
theorem VK_WRAPPER_raises_iff (call : String) (result : VkResult) :
    ((∃ e, VK_WRAPPER call result = Except.error e) ↔ result ≠ VK_SUCCESS) ∧
    (VK_WRAPPER call result = Except.ok () ↔ result = VK_SUCCESS) ∧
    (∀ e, VK_WRAPPER call result = Except.error e →
      e = frException.frVulkanException
        (call ++ " failed with error " ++ string_VkResult result ++ "!")) := by
  by_cases h : result = VK_SUCCESS
  · have hok := VK_WRAPPER_ok call result h
    refine ⟨⟨?_, fun hne => absurd h hne⟩, ⟨fun _ => h, fun _ => hok⟩, ?_⟩
    · rintro ⟨e, he⟩
      rw [hok] at he
      cases he
    · intro e he
      rw [hok] at he
      cases he
  · have herr := VK_WRAPPER_error call result h
    refine ⟨⟨fun _ => h, fun _ => ⟨_, herr⟩⟩, ⟨?_, fun hs => absurd hs h⟩, ?_⟩
    · intro hok
      rw [herr] at hok
      cases hok
    · intro e he
      rw [herr] at he
      cases he
      rfl

/-- C13 fails on the code: with a submission that returns a lost device,
`endSingleTime` still waits for the queue, frees the command buffer and returns
normally, and so does the mipmap generation built on it; whatever the submission
returns, the outcome is the same. The sibling `frCommands::submit` raises on the
same result of the same driver call. -/
theorem endSingleTime_ignores_submit_failure :
    lostDeviceCommandsEnv.submitResult ≠ VK_SUCCESS ∧
    endSingleTime lostDeviceCommandsEnv =
      ([DriverCall.vkEndCommandBuffer, DriverCall.vkQueueSubmit [] [] VK_NULL_HANDLE,
        DriverCall.vkQueueWaitIdle, DriverCall.vkFreeCommandBuffers 1], Except.ok ()) ∧
    (sampleImage.generateMipmaps 4096 lostDeviceCommandsEnv).2 = Except.ok () ∧
    (∀ (env : CommandsEnv) (result : VkResult),
      endSingleTime { env with submitResult := result } = endSingleTime env) ∧
    (submit sampleRenderer 0 none lostDeviceCommandsEnv.submitResult).2 =
      Except.error (VK_REPORT
        "vkQueueSubmit(renderer->mGraphicsQueue, 1, &submitInfo, fence)"
        VK_ERROR_DEVICE_LOST) := by
  refine ⟨by decide, rfl, rfl, fun _ _ => rfl, rfl⟩

/-- C17. Single-time transfer pattern: `beginSingleTime` asks for exactly one
primary command buffer and, once it has it, begins it with the one-time-submit
flag, issuing nothing else; `endSingleTime` ends the recording and, once that
succeeded, submits with no semaphores and a null fence, waits for the queue to
be idle and then frees the one command buffer, in this order and issuing nothing
else. When a wrapped call fails the sequence stops right after it. -/
theorem single_time_pattern (env : CommandsEnv) :
    (env.allocateResult = VK_SUCCESS →
      (beginSingleTime env).1 =
        [DriverCall.vkAllocateCommandBuffers VK_COMMAND_BUFFER_LEVEL_PRIMARY 1,
          DriverCall.vkBeginCommandBuffer VK_COMMAND_BUFFER_USAGE_ONE_TIME_SUBMIT_BIT] ∧
      ((beginSingleTime env).2 = Except.ok () ↔ env.beginResult = VK_SUCCESS)) ∧
    (env.allocateResult ≠ VK_SUCCESS →
      (beginSingleTime env).1 =
        [DriverCall.vkAllocateCommandBuffers VK_COMMAND_BUFFER_LEVEL_PRIMARY 1] ∧
      ∃ e, (beginSingleTime env).2 = Except.error e) ∧
    (env.endResult = VK_SUCCESS →
      endSingleTime env =
        ([DriverCall.vkEndCommandBuffer, DriverCall.vkQueueSubmit [] [] VK_NULL_HANDLE,
          DriverCall.vkQueueWaitIdle, DriverCall.vkFreeCommandBuffers 1], Except.ok ())) ∧
    (env.endResult ≠ VK_SUCCESS →
      (endSingleTime env).1 = [DriverCall.vkEndCommandBuffer] ∧
      ∃ e, (endSingleTime env).2 = Except.error e) := by
  refine ⟨?_, ?_, ?_, ?_⟩
  · intro h
    unfold beginSingleTime
    rw [VK_WRAPPER_ok _ _ h]
    exact ⟨rfl, VK_WRAPPER_ok_iff _ _⟩
  · intro h
    unfold beginSingleTime
    rw [VK_WRAPPER_error _ _ h]
    exact ⟨rfl, _, rfl⟩
  · intro h
    unfold endSingleTime
    rw [VK_WRAPPER_ok _ _ h]
  · intro h
    unfold endSingleTime
    rw [VK_WRAPPER_error _ _ h]
    exact ⟨rfl, _, rfl⟩

theorem single_time_pattern_witness :
    sampleCommandsEnv.allocateResult = VK_SUCCESS ∧
    sampleCommandsEnv.endResult = VK_SUCCESS ∧
    (beginSingleTime sampleCommandsEnv).1 =
      [DriverCall.vkAllocateCommandBuffers VK_COMMAND_BUFFER_LEVEL_PRIMARY 1,
        DriverCall.vkBeginCommandBuffer VK_COMMAND_BUFFER_USAGE_ONE_TIME_SUBMIT_BIT] ∧
    endSingleTime sampleCommandsEnv =
      ([DriverCall.vkEndCommandBuffer, DriverCall.vkQueueSubmit [] [] VK_NULL_HANDLE,
        DriverCall.vkQueueWaitIdle, DriverCall.vkFreeCommandBuffers 1], Except.ok ()) :=
  ⟨rfl, rfl, ((single_time_pattern sampleCommandsEnv).1 rfl).1,
    (single_time_pattern sampleCommandsEnv).2.2.1 rfl⟩

/-- C18. Linear-blit check precedes recording: when the optimal-tiling features of
the image format lack the linear-filter bit, `generateMipmaps` raises its fatal
error having issued no driver call at all, so no command buffer was allocated,
begun, recorded into or submitted; and that is the only case in which it issues
none. -/
theorem generateMipmaps_linear_check (self : frImage) (optimalTilingFeatures : Nat)
    (env : CommandsEnv) :
    (optimalTilingFeatures &&& VK_FORMAT_FEATURE_SAMPLED_IMAGE_FILTER_LINEAR_BIT = 0 →
      self.generateMipmaps optimalTilingFeatures env =
        ([], Except.error (frException.frVulkanException
          "Texture image format does not support linear blitting!"))) ∧
    ((self.generateMipmaps optimalTilingFeatures env).1 = [] →
      optimalTilingFeatures &&& VK_FORMAT_FEATURE_SAMPLED_IMAGE_FILTER_LINEAR_BIT = 0) := by
  constructor
  · intro h
    simp [frImage.generateMipmaps, h]
  · intro h
    by_contra hne
    have hb : ∀ calls r, beginSingleTime env = (calls, r) → calls ≠ [] := by
      intro calls r hbs
      unfold beginSingleTime at hbs
      split at hbs <;> (cases hbs; simp)
    unfold frImage.generateMipmaps at h
    rw [if_neg hne] at h
    cases hbs : beginSingleTime env with
    | mk calls r =>
      have hne' := hb calls r hbs
      rw [hbs] at h
      cases r with
      | error e => exact hne' h
      | ok u =>
        simp only [List.append_eq_nil] at h
        exact hne' h.1.1

theorem generateMipmaps_linear_check_witness :
    3 &&& VK_FORMAT_FEATURE_SAMPLED_IMAGE_FILTER_LINEAR_BIT = 0 ∧
    sampleImage.generateMipmaps 3 sampleCommandsEnv =
      ([], Except.error (frException.frVulkanException
        "Texture image format does not support linear blitting!")) :=
  ⟨by decide, (generateMipmaps_linear_check sampleImage 3 sampleCommandsEnv).1 (by decide)⟩

/-! ## Properties of destruction -/

theorem bindMemory_keeps (self : frImage) (info : frImageInfo) (env : ImageEnv) :
    (self.bindMemory info env).1.mImage = self.mImage ∧
    (self.bindMemory info env).1.mDestroyImage = self.mDestroyImage ∧
    (self.bindMemory info env).1.mImageView = self.mImageView := by
  unfold frImage.bindMemory
  split
  · split
    · exact ⟨rfl, rfl, rfl⟩
    · split <;> exact ⟨rfl, rfl, rfl⟩
  · exact ⟨rfl, rfl, rfl⟩

theorem createView_keeps (self : frImage) (info : frImageInfo) (env : ImageEnv) :
    (self.createView info env).1.mImage = self.mImage ∧
    (self.createView info env).1.mDestroyImage = self.mDestroyImage ∧
    ((self.createView info env).2 = Except.ok () →
      (self.createView info env).1.mImageView = env.createdView) := by
  unfold frImage.createView
  split
  · refine ⟨rfl, rfl, ?_⟩
    intro h
    cases h
  · exact ⟨rfl, rfl, fun _ => rfl⟩

theorem finishInitialize_keeps (self : frImage) (renderer : frRenderer) (info : frImageInfo)
    (env : ImageEnv) :
    (self.finishInitialize renderer info env).1.mImage = self.mImage ∧
    (self.finishInitialize renderer info env).1.mDestroyImage = self.mDestroyImage ∧
    ((self.finishInitialize renderer info env).2 = Except.ok () →
      (self.finishInitialize renderer info env).1.mImageView = env.createdView) := by
  obtain ⟨b1, b2, -⟩ := bindMemory_keeps self info env
  unfold frImage.finishInitialize
  cases hb : self.bindMemory info env with
  | mk s r =>
    rw [hb] at b1 b2
    cases r with
    | error e =>
      refine ⟨b1, b2, ?_⟩
      intro h
      cases h
    | ok u =>
      obtain ⟨c1, c2, c3⟩ :=
        createView_keeps { s with mInfo := info, mDevice := renderer.mDevice } info env
      exact ⟨c1.trans b1, c2.trans b2, c3⟩

/-- C14. Borrowed versus owned image destruction. For an image object initialized
from an externally owned handle, however the call ended, `cleanup` issues no
`vkDestroyImage` at all, and when the call returned normally with a non-null
view, `cleanup` destroys that view. For an image object that was never put in
borrowed mode (`mDestroyImage` as the constructor leaves it) and whose owned
initialization got a non-null image from the driver, `cleanup` issues
`vkDestroyImage` on that image. -/
theorem cleanup_borrowed_owned (self post : frImage) (renderer : frRenderer) (image : Nat)
    (info : frImageInfo) (env : ImageEnv) (r : Except frException Unit) :
    (self.initializeBorrowed renderer image info env = (post, r) →
      post.mImage = image ∧
      (∀ h, DriverCall.vkDestroyImage h ∉ post.cleanup) ∧
      (r = Except.ok () → env.createdView ≠ VK_NULL_HANDLE →
        DriverCall.vkDestroyImageView env.createdView ∈ post.cleanup)) ∧
    (self.mDestroyImage = true → self.initialize renderer info env = (post, r) →
      env.createImageResult = VK_SUCCESS → env.createdImage ≠ VK_NULL_HANDLE →
      post.mImage = env.createdImage ∧
      DriverCall.vkDestroyImage env.createdImage ∈ post.cleanup) := by
  constructor
  · intro h
    unfold frImage.initializeBorrowed at h
    obtain ⟨k1, k2, k3⟩ := finishInitialize_keeps
      { self with mDestroyImage := false, mImage := image } renderer
      { info with mipLevels := computeMipLevels info } env
    simp only [h] at k1 k2 k3
    refine ⟨k1, ?_, ?_⟩
    · intro hd hmem
      simp [frImage.cleanup, k2] at hmem
    · intro hr hview
      have hv := k3 hr
      simp [frImage.cleanup, hv, hview]
  · intro hflag h hc himg
    unfold frImage.initialize at h
    rw [VK_WRAPPER_ok _ _ hc] at h
    obtain ⟨k1, k2, -⟩ := finishInitialize_keeps
      { self with mImage := env.createdImage } renderer
      { info with mipLevels := computeMipLevels info } env
    have h' : frImage.finishInitialize { self with mImage := env.createdImage } renderer
        { info with mipLevels := computeMipLevels info } env = (post, r) := h
    rw [h'] at k1 k2
    have k1' : post.mImage = env.createdImage := k1
    have k2' : post.mDestroyImage = self.mDestroyImage := k2
    refine ⟨k1', ?_⟩
    simp [frImage.cleanup, k1', k2', hflag, himg]

theorem cleanup_borrowed_owned_witness :
    frImage.fresh.mDestroyImage = true ∧ sampleImageEnv.createImageResult = VK_SUCCESS ∧
    sampleImageEnv.createdImage ≠ VK_NULL_HANDLE ∧
    sampleImageEnv.createdView ≠ VK_NULL_HANDLE ∧
    DriverCall.vkDestroyImage sampleImageEnv.createdImage ∈ sampleInitialized.1.cleanup ∧
    (∀ h, DriverCall.vkDestroyImage h ∉
      (frImage.fresh.initializeBorrowed sampleRenderer borrowedHandle borrowedImageInfo
        sampleImageEnv).1.cleanup) ∧
    DriverCall.vkDestroyImageView sampleImageEnv.createdView ∈
      (frImage.fresh.initializeBorrowed sampleRenderer borrowedHandle borrowedImageInfo
        sampleImageEnv).1.cleanup := by
  have hown := (cleanup_borrowed_owned frImage.fresh sampleInitialized.1 sampleRenderer 0
    sampleImageInfo sampleImageEnv sampleInitialized.2).2 rfl rfl rfl (by decide)
  have hbor := (cleanup_borrowed_owned frImage.fresh
    (frImage.fresh.initializeBorrowed sampleRenderer borrowedHandle borrowedImageInfo
      sampleImageEnv).1 sampleRenderer borrowedHandle borrowedImageInfo sampleImageEnv
    (frImage.fresh.initializeBorrowed sampleRenderer borrowedHandle borrowedImageInfo
      sampleImageEnv).2).1 rfl
  exact ⟨rfl, rfl, by decide, by decide, hown.2, hbor.2.1, hbor.2.2 rfl (by decide)⟩

theorem nothing_after_free_nil (pre post : List DriverCall) (m : Nat)
    (h : ([] : List DriverCall) = pre ++ DriverCall.vkFreeMemory m :: post) : post = [] := by
  simp at h

theorem nothing_after_free_single (k : Nat) (pre post : List DriverCall) (m : Nat)
    (h : [DriverCall.vkFreeMemory k] = pre ++ DriverCall.vkFreeMemory m :: post) :
    post = [] := by
  cases pre with
  | nil =>
    simp only [List.nil_append, List.cons.injEq] at h
    exact h.2.symm
  | cons x xs =>
    simp at h

theorem nothing_after_free_cons (c : DriverCall) (l : List DriverCall)
    (hc : ∀ k, c ≠ DriverCall.vkFreeMemory k)
    (hl : ∀ pre post m, l = pre ++ DriverCall.vkFreeMemory m :: post → post = [])
    (pre post : List DriverCall) (m : Nat)
    (h : c :: l = pre ++ DriverCall.vkFreeMemory m :: post) : post = [] := by
  cases pre with
  | nil =>
    simp only [List.nil_append, List.cons.injEq] at h
    exact absurd h.1 (hc m)
  | cons x xs =>
    simp only [List.cons_append, List.cons.injEq] at h
    exact hl xs post m h.2

/-- C15. Destruction order. The calls issued by `frImage::cleanup` are, in this
order and each at most once, the destruction of the view (when there is one), of
the image (when there is one and it is owned) and the freeing of the memory (when
there is some); those issued by `frBuffer::cleanup` are the destruction of the
buffer, then the freeing of its memory. In both sequences nothing follows the
freeing of memory: no object is destroyed after memory has been freed. -/
theorem cleanup_order (img : frImage) (buf : frBuffer) :
    List.Sublist img.cleanup
      [DriverCall.vkDestroyImageView img.mImageView, DriverCall.vkDestroyImage img.mImage,
        DriverCall.vkFreeMemory img.mImageMemory] ∧
    (DriverCall.vkDestroyImageView img.mImageView ∈ img.cleanup ↔
      img.mImageView ≠ VK_NULL_HANDLE) ∧
    (DriverCall.vkDestroyImage img.mImage ∈ img.cleanup ↔
      img.mImage ≠ VK_NULL_HANDLE ∧ img.mDestroyImage = true) ∧
    (DriverCall.vkFreeMemory img.mImageMemory ∈ img.cleanup ↔
      img.mImageMemory ≠ VK_NULL_HANDLE) ∧
    buf.cleanup = [DriverCall.vkDestroyBuffer buf.mBuffer, DriverCall.vkFreeMemory buf.mMemory] ∧
    (∀ pre post m, img.cleanup = pre ++ DriverCall.vkFreeMemory m :: post → post = []) ∧
    (∀ pre post m, buf.cleanup = pre ++ DriverCall.vkFreeMemory m :: post → post = []) := by
  have hv : ∀ v k, DriverCall.vkDestroyImageView v ≠ DriverCall.vkFreeMemory k := by
    intro v k h
    cases h
  have hi : ∀ v k, DriverCall.vkDestroyImage v ≠ DriverCall.vkFreeMemory k := by
    intro v k h
    cases h
  have hb : ∀ v k, DriverCall.vkDestroyBuffer v ≠ DriverCall.vkFreeMemory k := by
    intro v k h
    cases h
  refine ⟨?_, ?_, ?_, ?_, rfl, ?_, ?_⟩
  · unfold frImage.cleanup
    split <;> split <;> split <;> simp
  · unfold frImage.cleanup
    split <;> split <;> split <;> simp_all
  · unfold frImage.cleanup
    split <;> split <;> split <;> simp_all
  · unfold frImage.cleanup
    split <;> split <;> split <;> simp_all
  · unfold frImage.cleanup
    split <;> split <;> split <;>
      simp only [List.nil_append, List.singleton_append, List.append_nil] <;>
      first
        | exact nothing_after_free_nil
        | exact nothing_after_free_single _
        | exact nothing_after_free_cons _ _ (hv _) nothing_after_free_nil
        | exact nothing_after_free_cons _ _ (hi _) nothing_after_free_nil
        | exact nothing_after_free_cons _ _ (hv _) (nothing_after_free_single _)
        | exact nothing_after_free_cons _ _ (hi _) (nothing_after_free_single _)
        | exact nothing_after_free_cons _ _ (hv _)
            (nothing_after_free_cons _ _ (hi _) nothing_after_free_nil)
        | exact nothing_after_free_cons _ _ (hv _)
            (nothing_after_free_cons _ _ (hi _) (nothing_after_free_single _))
  · exact nothing_after_free_cons _ _ (hb _) (nothing_after_free_single _)

/-! ## Properties of submission -/

/-- C16 on the code. With a synchronization triple `frCommands::submit` passes the
counts 1 and 1 and the fence of the triple, and the three arrays it built hold
the image-available semaphore, the color-attachment-output stage and the
render-finished semaphore; but those arrays are locals of the `if (sync)` block,
which has been left when `vkQueueSubmit` is called, so the driver is handed
dangling pointers. With no triple the counts are zero, the pointers null and the
fence null. `frRenderer::present` waits on exactly the render-finished semaphore
of the triple it is given, through a pointer that is alive. -/
theorem submit_wiring (renderer : frRenderer) (swapchain : frSwapchain) (cmdBuf : Nat)
    (sync : frSynchronization) (imageIndex : Nat) (result : VkResult) :
    ((submit renderer cmdBuf (some sync) result).1.submitInfo.waitSemaphoreCount = 1 ∧
      (submit renderer cmdBuf (some sync) result).1.submitInfo.signalSemaphoreCount = 1 ∧
      (submit renderer cmdBuf (some sync) result).1.fence = sync.mInFlightFence ∧
      (submit renderer cmdBuf (some sync) result).1.submitInfo.pWaitSemaphores =
        ArrayPointer.dangling [sync.mImageAvailableSemaphore] ∧
      (submit renderer cmdBuf (some sync) result).1.submitInfo.pWaitDstStageMask =
        ArrayPointer.dangling [VK_PIPELINE_STAGE_COLOR_ATTACHMENT_OUTPUT_BIT] ∧
      (submit renderer cmdBuf (some sync) result).1.submitInfo.pSignalSemaphores =
        ArrayPointer.dangling [sync.mRenderFinishedSemaphore]) ∧
    ((submit renderer cmdBuf none result).1.submitInfo.waitSemaphoreCount = 0 ∧
      (submit renderer cmdBuf none result).1.submitInfo.signalSemaphoreCount = 0 ∧
      (submit renderer cmdBuf none result).1.fence = VK_NULL_HANDLE ∧
      (submit renderer cmdBuf none result).1.submitInfo.pWaitSemaphores = ArrayPointer.null ∧
      (submit renderer cmdBuf none result).1.submitInfo.pWaitDstStageMask = ArrayPointer.null ∧
      (submit renderer cmdBuf none result).1.submitInfo.pSignalSemaphores =
        ArrayPointer.null) ∧
    ((renderer.present swapchain sync imageIndex result).1.waitSemaphoreCount = 1 ∧
      (renderer.present swapchain sync imageIndex result).1.pWaitSemaphores =
        ArrayPointer.live [sync.mRenderFinishedSemaphore]) :=
  ⟨⟨rfl, rfl, rfl, rfl, rfl, rfl⟩, ⟨rfl, rfl, rfl, rfl, rfl, rfl⟩, ⟨rfl, rfl⟩⟩

/-! ## Properties of the example application -/

theorem createSwapchainLastLoop_keeps (bodyException : Nat → Option frException)
    (indices : List Nat) (st st' : ExampleState)
    (h : createSwapchainLastLoop bodyException indices st = Except.ok st') :
    st'.swapchain = st.swapchain ∧ st'.swapchainImageCount = st.swapchainImageCount ∧
    st'.swapchainImages.length = st.swapchainImages.length ∧
    st'.offscreenImages.length = st.offscreenImages.length ∧
    st'.depthImages.length = st.depthImages.length ∧
    st'.swapchainFramebuffers.length = st.swapchainFramebuffers.length ∧
    st'.commandBuffers = st.commandBuffers ∧ st'.synchronizations = st.synchronizations ∧
    st'.frame = st.frame := by
  induction indices generalizing st with
  | nil =>
    simp only [createSwapchainLastLoop, Except.ok.injEq] at h
    subst h
    exact ⟨rfl, rfl, rfl, rfl, rfl, rfl, rfl, rfl, rfl⟩
  | cons i rest ih =>
    unfold createSwapchainLastLoop at h
    split at h
    · cases h
    · have := ih _ h
      simpa using this

/-- The object a run of `frSwapchain::initialize` leaves on a normal return. -/
theorem initialize_ok_object (self sc : frSwapchain) (renderer : frRenderer)
    (env : SwapchainEnv) (run : InitializeRun)
    (hrun : self.initialize renderer env = some run) (hsc : run.result = Except.ok sc) :
    sc.mImageCount = env.swapchainImages.length ∧ sc.mImages = env.swapchainImages ∧
    sc.mSupportDetails = querySupport self.mSupportDetails env ∧
    sc.mDesiredFormats = self.mDesiredFormats ∧
    sc.mDesiredPresentModes = self.mDesiredPresentModes := by
  unfold frSwapchain.initialize at hrun
  cases hf : chooseFormat (querySupport self.mSupportDetails env).formats
      self.mDesiredFormats with
  | none =>
    simp only [hf] at hrun
    cases hrun
  | some mFormat =>
    simp only [hf, Option.some.injEq] at hrun
    rw [← hrun] at hsc
    by_cases hc : env.createResult = VK_SUCCESS
    · simp only [VK_WRAPPER_ok _ _ hc, Except.ok.injEq] at hsc
      rw [← hsc]
      exact ⟨rfl, rfl, rfl, rfl, rfl⟩
    · simp only [VK_WRAPPER_error _ _ hc] at hsc
      cases hsc

theorem createSwapchainFirst_imageCount (renderer : frRenderer) (env : SwapchainEnv)
    (sc : frSwapchain) (h : createSwapchainFirst renderer env = some (Except.ok sc)) :
    sc.mImageCount = env.swapchainImages.length := by
  unfold createSwapchainFirst at h
  split at h
  · cases h
  · rename_i run hrun
    split at h
    · cases h
    · rename_i sc' hsc
      split at h
      · cases h
      · simp only [Option.some.injEq, Except.ok.injEq] at h
        subst h
        exact (initialize_ok_object _ _ _ _ _ hrun hsc).1

/-- What a recreation that returns leaves behind: the four arrays rebuilt by
`createSwapchainLast()` have the length of the new image count, which is the
number of images the driver created; the per-frame command buffers, the
synchronization triples and the frame index are those from before. -/
theorem recreateSwapchain_returned (st st' : ExampleState) (renderer : frRenderer)
    (sizes : List (Int × Int)) (env : SwapchainEnv) (bodyException : Nat → Option frException)
    (h : recreateSwapchain st renderer sizes env bodyException = ExampleRun.returned st') :
    st'.swapchain.mImageCount = env.swapchainImages.length ∧
    st'.swapchainImageCount = st'.swapchain.mImageCount ∧
    st'.swapchainImages.length = st'.swapchain.mImageCount ∧
    st'.offscreenImages.length = st'.swapchain.mImageCount ∧
    st'.depthImages.length = st'.swapchain.mImageCount ∧
    st'.swapchainFramebuffers.length = st'.swapchain.mImageCount ∧
    st'.commandBuffers = st.commandBuffers ∧ st'.synchronizations = st.synchronizations ∧
    st'.frame = st.frame := by
  unfold recreateSwapchain at h
  split at h
  · cases h
  · split at h
    · cases h
    · cases h
    · rename_i sc hsc
      have hcount := createSwapchainFirst_imageCount renderer env sc hsc
      split at h
      · cases h
      · rename_i st'' hlast
        simp only [ExampleRun.returned.injEq] at h
        subst h
        unfold createSwapchainLast at hlast
        obtain ⟨k1, k2, k3, k4, k5, k6, k7, k8, k9⟩ :=
          createSwapchainLastLoop_keeps _ _ _ _ hlast
        simp only [List.length_replicate, cleanupSwapchain] at k1 k2 k3 k4 k5 k6 k7 k8 k9
        rw [k1]
        exact ⟨hcount, k2, k3, k4, k5, k6, k7, k8, k9⟩

/-- C19 fails on the code. The example is set up on a swapchain of three images,
so every count-dependent array has length 3; a recreation on which the driver
creates four images then leaves the framebuffers and the three image arrays with
length 4, the new image count, while the per-frame command buffers and the
synchronization triples, which `recreateSwapchain()` never rebuilds, still have
length 3. -/
theorem recreation_breaks_lockstep :
    ∃ st3 st4,
      exampleSetup sampleRenderer exampleEnv (fun _ => none) samplePerFrameEnv =
        ExampleRun.returned st3 ∧
      st3.swapchain.mImageCount = 3 ∧ st3.swapchainFramebuffers.length = 3 ∧
      st3.swapchainImages.length = 3 ∧ st3.commandBuffers.length = 3 ∧
      st3.synchronizations.length = 3 ∧
      recreateSwapchain st3 sampleRenderer [(1024, 768)] exampleEnvFourImages (fun _ => none) =
        ExampleRun.returned st4 ∧
      st4.swapchain.mImageCount = 4 ∧ st4.swapchainFramebuffers.length = 4 ∧
      st4.swapchainImages.length = 4 ∧ st4.offscreenImages.length = 4 ∧
      st4.depthImages.length = 4 ∧
      st4.commandBuffers.length = 3 ∧ st4.synchronizations.length = 3 := by
  refine ⟨_, _, rfl, ?_, ?_, ?_, ?_, ?_, rfl, ?_, ?_, ?_, ?_, ?_, ?_, ?_⟩ <;> decide

theorem initialize_some_formats (self : frSwapchain) (renderer : frRenderer)
    (env : SwapchainEnv) (run : InitializeRun)
    (hrun : self.initialize renderer env = some run) :
    (querySupport self.mSupportDetails env).formats ≠ [] := by
  intro hnil
  unfold frSwapchain.initialize at hrun
  simp [hnil, chooseFormat] at hrun

theorem querySupport_again (prev : frSwapChainSupportDetails) (env env' : SwapchainEnv)
    (hformats : env'.formats = env.formats) (hmodes : env'.presentModes = env.presentModes) :
    (querySupport (querySupport prev env) env').formats = (querySupport prev env).formats ∧
    (querySupport (querySupport prev env) env').presentModes =
      (querySupport prev env).presentModes := by
  unfold querySupport
  simp only [hformats, hmodes]
  constructor
  · split <;> simp_all
  · split <;> simp_all

/-- C20. Recreation idempotence. Let a first run of the negotiation reach
swapchain creation, and let it be run again, on a new object given the same
preference lists (and holding the same lists as the first object did before its
run) or on the very object the first run returned. If the surface reports the
same formats, the same present modes and the same minimum and maximum image
counts, the second run chooses the same format pair, the same present mode and
requests the same image count; if the current, minimum and maximum extents and
the drawable size are unchanged as well, it requests the same extent. -/
theorem initialize_idempotent (self again : frSwapchain) (renderer renderer' : frRenderer)
    (env env' : SwapchainEnv) (run : InitializeRun)
    (hrun : self.initialize renderer env = some run)
    (hagain : (again.mDesiredFormats = self.mDesiredFormats ∧
        again.mDesiredPresentModes = self.mDesiredPresentModes ∧
        again.mSupportDetails.formats = self.mSupportDetails.formats ∧
        again.mSupportDetails.presentModes = self.mSupportDetails.presentModes) ∨
      run.result = Except.ok again)
    (hformats : env'.formats = env.formats) (hmodes : env'.presentModes = env.presentModes)
    (hmin : env'.capabilities.minImageCount = env.capabilities.minImageCount)
    (hmax : env'.capabilities.maxImageCount = env.capabilities.maxImageCount) :
    ∃ run', again.initialize renderer' env' = some run' ∧
      run'.chosenFormat = run.chosenFormat ∧
      run'.createInfo.presentMode = run.createInfo.presentMode ∧
      run'.createInfo.minImageCount = run.createInfo.minImageCount ∧
      (env'.capabilities.currentExtent = env.capabilities.currentExtent →
        env'.capabilities.minImageExtent = env.capabilities.minImageExtent →
        env'.capabilities.maxImageExtent = env.capabilities.maxImageExtent →
        env'.framebufferWidth = env.framebufferWidth →
        env'.framebufferHeight = env.framebufferHeight →
        run'.createInfo.imageExtent = run.createInfo.imageExtent) := by
  have hne := initialize_some_formats self renderer env run hrun
  obtain ⟨run0, hrun0, hfmt, -, hmode, hext, hcount, -, -⟩ :=
    initialize_run self renderer env hne
  rw [hrun] at hrun0
  cases hrun0
  have hlists : (querySupport again.mSupportDetails env').formats =
        (querySupport self.mSupportDetails env).formats ∧
      (querySupport again.mSupportDetails env').presentModes =
        (querySupport self.mSupportDetails env).presentModes ∧
      again.mDesiredFormats = self.mDesiredFormats ∧
      again.mDesiredPresentModes = self.mDesiredPresentModes := by
    rcases hagain with ⟨h1, h2, h3, h4⟩ | hok
    · refine ⟨?_, ?_, h1, h2⟩
      · simp only [querySupport, hformats, h3]
      · simp only [querySupport, hmodes, h4]
    · obtain ⟨-, -, hdet, hd1, hd2⟩ := initialize_ok_object self again renderer env run hrun hok
      rw [hdet]
      obtain ⟨q1, q2⟩ := querySupport_again self.mSupportDetails env env' hformats hmodes
      exact ⟨q1, q2, hd1, hd2⟩
  obtain ⟨l1, l2, l3, l4⟩ := hlists
  obtain ⟨run', hrun', hfmt', -, hmode', hext', hcount', -, -⟩ :=
    initialize_run again renderer' env' (by rw [l1]; exact hne)
  refine ⟨run', hrun', ?_, ?_, ?_, ?_⟩
  · rw [l1, l3, hfmt] at hfmt'
    exact (Option.some.inj hfmt').symm
  · rw [hmode', hmode, l2, l4]
  · rw [hcount', hcount]
    simp only [chooseImageCount, hmin, hmax]
  · intro e1 e2 e3 e4 e5
    rw [hext', hext]
    simp only [chooseExtent, e1, e2, e3, e4, e5]

theorem initialize_idempotent_witness :
    exampleEnvFourImages.formats = sampleEnv.formats ∧
    exampleEnvFourImages.presentModes = sampleEnv.presentModes ∧
    exampleEnvFourImages.framebufferWidth ≠ sampleEnv.framebufferWidth ∧
    ∃ run run', sampleSwapchain.initialize sampleRenderer sampleEnv = some run ∧
      sampleSwapchain.initialize sampleRenderer exampleEnvFourImages = some run' ∧
      run'.chosenFormat = run.chosenFormat ∧
      run'.createInfo.presentMode = run.createInfo.presentMode ∧
      run'.createInfo.minImageCount = run.createInfo.minImageCount := by
  refine ⟨rfl, rfl, by decide, ?_⟩
  obtain ⟨run, hrun⟩ : ∃ run, sampleSwapchain.initialize sampleRenderer sampleEnv = some run :=
    ⟨_, rfl⟩
  obtain ⟨run', hrun', h1, h2, h3, -⟩ := initialize_idempotent sampleSwapchain sampleSwapchain
    sampleRenderer sampleRenderer sampleEnv exampleEnvFourImages run hrun
    (Or.inl ⟨rfl, rfl, rfl, rfl⟩) rfl rfl rfl rfl
  exact ⟨run, run', hrun, hrun', h1, h2, h3⟩


/-! ## Properties of acquire and present on a suboptimal swapchain -/

/-- C26. On the suboptimal result `frRenderer::acquireNextImage` returns the
acquired image index and raises nothing, while `frRenderer::present` raises
`frSwapchainResizeException`; on every result other than success, suboptimal and
out-of-date both raise an `frVulkanException`. -/
theorem suboptimal_asymmetry (self : frRenderer) (swapchain : frSwapchain)
    (sync : frSynchronization) (imageIndex : Nat) :
    self.acquireNextImage swapchain sync VK_SUBOPTIMAL_KHR imageIndex = Except.ok imageIndex ∧
    (self.present swapchain sync imageIndex VK_SUBOPTIMAL_KHR).2 =
      Except.error frException.frSwapchainResizeException ∧
    ∀ result : VkResult,
      result ≠ VK_SUCCESS → result ≠ VK_SUBOPTIMAL_KHR → result ≠ VK_ERROR_OUT_OF_DATE_KHR →
      (∃ msg, self.acquireNextImage swapchain sync result imageIndex =
        Except.error (frException.frVulkanException msg)) ∧
      (∃ msg, (self.present swapchain sync imageIndex result).2 =
        Except.error (frException.frVulkanException msg)) := by
  refine ⟨by rfl, by rfl, ?_⟩
  intro result h1 h2 h3
  constructor
  · have h : self.acquireNextImage swapchain sync result imageIndex =
        Except.error (VK_REPORT
          ("vkAcquireNextImageKHR(mDevice, swapchain->mSwapchain, UINT64_MAX, " ++
            "sync->mImageAvailableSemaphore, VK_NULL_HANDLE, &imageIndex)") result) := by
      unfold frRenderer.acquireNextImage
      simp [h1, h2, h3]
    exact ⟨_, h⟩
  · have h : (self.present swapchain sync imageIndex result).2 =
        Except.error (VK_REPORT "vkQueuePresentKHR(mPresentQueue, &presentInfo)" result) := by
      unfold frRenderer.present
      simp [h1, h2, h3]
    exact ⟨_, h⟩

/-! ## Properties of the device queries -/

theorem and_two_pow_ne_zero_iff (c k : Nat) : c &&& 2 ^ k ≠ 0 ↔ c.testBit k = true := by
  rw [Nat.and_two_pow]
  cases c.testBit k with
  | false => simp
  | true =>
    have : 2 ^ k ≠ 0 := by positivity
    simp [this]

/-- C29. For every pair of sample-count masks the overload of
`GetMaxUsableSampleCount` that takes the properties returns the largest count
among 64, 32, 16, 8, 4 and 2 whose bit is set in both masks, and 1 when there is
none; the overload without argument returns the same value for the properties
the driver reports for the device of the renderer. -/
theorem GetMaxUsableSampleCount_largest (properties : VkPhysicalDeviceProperties)
    (self : frRenderer) (deviceProperties : Nat → VkPhysicalDeviceProperties) :
    GetMaxUsableSampleCount properties =
      largestCommonSampleCount properties.limits.framebufferColorSampleCounts
        properties.limits.framebufferDepthSampleCounts ∧
    self.GetMaxUsableSampleCount deviceProperties =
      GetMaxUsableSampleCount (deviceProperties self.mPhysicalDevice) := by
  refine ⟨?_, rfl⟩
  unfold GetMaxUsableSampleCount largestCommonSampleCount
  simp only []
  generalize properties.limits.framebufferColorSampleCounts = color
  generalize properties.limits.framebufferDepthSampleCounts = depth
  have h : ∀ k, (color &&& depth) &&& 2 ^ k ≠ 0 ↔
      (color.testBit k && depth.testBit k) = true := by
    intro k
    rw [and_two_pow_ne_zero_iff, Nat.testBit_and]
  have h6 := h 6
  have h5 := h 5
  have h4 := h 4
  have h3 := h 3
  have h2 := h 2
  have h1 := h 1
  norm_num only at h6 h5 h4 h3 h2 h1
  simp only [VK_SAMPLE_COUNT_64_BIT, VK_SAMPLE_COUNT_32_BIT, VK_SAMPLE_COUNT_16_BIT,
    VK_SAMPLE_COUNT_8_BIT, VK_SAMPLE_COUNT_4_BIT, VK_SAMPLE_COUNT_2_BIT, VK_SAMPLE_COUNT_1_BIT,
    h6, h5, h4, h3, h2, h1, List.filter_cons, List.filter_nil]
  generalize (color.testBit 6 && depth.testBit 6) = c6
  generalize (color.testBit 5 && depth.testBit 5) = c5
  generalize (color.testBit 4 && depth.testBit 4) = c4
  generalize (color.testBit 3 && depth.testBit 3) = c3
  generalize (color.testBit 2 && depth.testBit 2) = c2
  generalize (color.testBit 1 && depth.testBit 1) = c1
  revert c6 c5 c4 c3 c2 c1
  decide

theorem FindSupportedFormat_cons_hit (self : frRenderer)
    (formatProperties : Nat → Nat → VkFormatProperties) (format : Nat) (rest : List Nat)
    (tiling features : Nat)
    (h : (tiling = VK_IMAGE_TILING_LINEAR ∧ ∀ b, features.testBit b = true →
          (formatProperties self.mPhysicalDevice format).linearTilingFeatures.testBit b = true) ∨
        (tiling = VK_IMAGE_TILING_OPTIMAL ∧ ∀ b, features.testBit b = true →
          (formatProperties self.mPhysicalDevice format).optimalTilingFeatures.testBit b = true)) :
    self.FindSupportedFormat formatProperties (format :: rest) tiling features = format := by
  unfold frRenderer.FindSupportedFormat
  rcases h with h | h
  · rw [if_pos ⟨h.1, (and_eq_right_iff_testBit _ _).mpr h.2⟩]
  · have h2 : tiling = VK_IMAGE_TILING_OPTIMAL ∧
        (formatProperties self.mPhysicalDevice format).optimalTilingFeatures &&& features =
          features := ⟨h.1, (and_eq_right_iff_testBit _ _).mpr h.2⟩
    simp only []
    rw [if_pos h2]
    split <;> rfl

theorem FindSupportedFormat_cons_miss (self : frRenderer)
    (formatProperties : Nat → Nat → VkFormatProperties) (format : Nat) (rest : List Nat)
    (tiling features : Nat)
    (h : ¬ ((tiling = VK_IMAGE_TILING_LINEAR ∧ ∀ b, features.testBit b = true →
          (formatProperties self.mPhysicalDevice format).linearTilingFeatures.testBit b = true) ∨
        (tiling = VK_IMAGE_TILING_OPTIMAL ∧ ∀ b, features.testBit b = true →
          (formatProperties self.mPhysicalDevice format).optimalTilingFeatures.testBit b = true))) :
    self.FindSupportedFormat formatProperties (format :: rest) tiling features =
      self.FindSupportedFormat formatProperties rest tiling features := by
  rw [not_or] at h
  conv_lhs => unfold frRenderer.FindSupportedFormat
  rw [if_neg (fun c => h.1 ⟨c.1, (and_eq_right_iff_testBit _ _).mp c.2⟩),
    if_neg (fun c => h.2 ⟨c.1, (and_eq_right_iff_testBit _ _).mp c.2⟩)]

/-- C30. `frRenderer::FindSupportedFormat` returns the first candidate in list
order whose feature set for the requested tiling (the linear set for linear
tiling, the optimal set for optimal tiling) has every requested feature bit; it
returns `VK_FORMAT_UNDEFINED` when no candidate qualifies, when the list is
empty, and when the tiling is neither linear nor optimal. -/
theorem FindSupportedFormat_first (self : frRenderer)
    (formatProperties : Nat → Nat → VkFormatProperties) (candidates : List Nat)
    (tiling features : Nat) :
    (∀ pre format post, candidates = pre ++ format :: post →
      ((tiling = VK_IMAGE_TILING_LINEAR ∧ ∀ b, features.testBit b = true →
          (formatProperties self.mPhysicalDevice format).linearTilingFeatures.testBit b = true) ∨
        (tiling = VK_IMAGE_TILING_OPTIMAL ∧ ∀ b, features.testBit b = true →
          (formatProperties self.mPhysicalDevice format).optimalTilingFeatures.testBit b
            = true)) →
      (∀ x ∈ pre,
        ¬ ((tiling = VK_IMAGE_TILING_LINEAR ∧ ∀ b, features.testBit b = true →
            (formatProperties self.mPhysicalDevice x).linearTilingFeatures.testBit b = true) ∨
          (tiling = VK_IMAGE_TILING_OPTIMAL ∧ ∀ b, features.testBit b = true →
            (formatProperties self.mPhysicalDevice x).optimalTilingFeatures.testBit b
              = true))) →
      self.FindSupportedFormat formatProperties candidates tiling features = format) ∧
    ((∀ x ∈ candidates,
        ¬ ((tiling = VK_IMAGE_TILING_LINEAR ∧ ∀ b, features.testBit b = true →
            (formatProperties self.mPhysicalDevice x).linearTilingFeatures.testBit b = true) ∨
          (tiling = VK_IMAGE_TILING_OPTIMAL ∧ ∀ b, features.testBit b = true →
            (formatProperties self.mPhysicalDevice x).optimalTilingFeatures.testBit b
              = true))) →
      self.FindSupportedFormat formatProperties candidates tiling features =
        VK_FORMAT_UNDEFINED) ∧
    self.FindSupportedFormat formatProperties [] tiling features = VK_FORMAT_UNDEFINED ∧
    (tiling ≠ VK_IMAGE_TILING_LINEAR → tiling ≠ VK_IMAGE_TILING_OPTIMAL →
      self.FindSupportedFormat formatProperties candidates tiling features =
        VK_FORMAT_UNDEFINED) := by
  have hnone : ∀ l : List Nat,
      (∀ x ∈ l,
        ¬ ((tiling = VK_IMAGE_TILING_LINEAR ∧ ∀ b, features.testBit b = true →
            (formatProperties self.mPhysicalDevice x).linearTilingFeatures.testBit b = true) ∨
          (tiling = VK_IMAGE_TILING_OPTIMAL ∧ ∀ b, features.testBit b = true →
            (formatProperties self.mPhysicalDevice x).optimalTilingFeatures.testBit b
              = true))) →
      self.FindSupportedFormat formatProperties l tiling features = VK_FORMAT_UNDEFINED := by
    intro l
    induction l with
    | nil => intro _; rfl
    | cons x rest ih =>
      intro h
      rw [FindSupportedFormat_cons_miss self formatProperties x rest tiling features
        (h x (List.mem_cons_self _ _))]
      exact ih (fun y hy => h y (List.mem_cons_of_mem _ hy))
  refine ⟨?_, hnone candidates, rfl, ?_⟩
  · intro pre
    induction pre generalizing candidates with
    | nil =>
      intro format post hc hq _
      rw [hc]
      exact FindSupportedFormat_cons_hit self formatProperties format post tiling features hq
    | cons x pre ih =>
      intro format post hc hq hpre
      rw [hc, List.cons_append,
        FindSupportedFormat_cons_miss self formatProperties x _ tiling features
          (hpre x (List.mem_cons_self _ _))]
      exact ih (pre ++ format :: post) format post rfl hq
        (fun y hy => hpre y (List.mem_cons_of_mem _ hy))
  · intro h1 h2
    apply hnone
    intro x _ hq
    rcases hq with hq | hq
    · exact h1 hq.1
    · exact h2 hq.1

/-! ## Properties of the descriptor pool -/

theorem maxSets_fold (poolSizes : List VkDescriptorPoolSize) (acc : Nat)
    (hacc : acc < 4294967296) :
    poolSizes.foldl (fun maxSets size => (maxSets + size.descriptorCount) % 4294967296) acc =
      (acc + (poolSizes.map (fun size => size.descriptorCount)).sum) % 4294967296 := by
  induction poolSizes generalizing acc with
  | nil => simp [Nat.mod_eq_of_lt hacc]
  | cons size rest ih =>
    rw [List.foldl_cons, ih _ (Nat.mod_lt _ (by norm_num)), List.map_cons, List.sum_cons]
    omega

/-- C22. For every list of declared pool sizes `frDescriptors::initialize` asks
`vkCreateDescriptorPool` for a pool whose `maxSets` is the sum of all the
declared counts in 32-bit unsigned arithmetic, and hands over the declared pool
sizes unchanged, with their number as `poolSizeCount`; this holds whatever the
driver call then returns. -/
theorem descriptor_pool_capacity (self : frDescriptors) (renderer : frRenderer)
    (poolSizes : List VkDescriptorPoolSize) (result : VkResult) (createdPool : Nat) :
    ( self.initialize renderer poolSizes result createdPool).1.maxSets =
      (poolSizes.map (fun size => size.descriptorCount)).sum % 4294967296 ∧
    ( self.initialize renderer poolSizes result createdPool).1.pPoolSizes = poolSizes ∧
    ( self.initialize renderer poolSizes result createdPool).1.poolSizeCount =
      poolSizes.length % 4294967296 := by
  have h := maxSets_fold poolSizes 0 (by norm_num)
  rw [Nat.zero_add] at h
  unfold frDescriptors.initialize
  simp only []
  split <;> exact ⟨h, rfl, rfl⟩

/-- C23. For every count, `frDescriptors::allocate(count, layout)` passes `count`
copies of the one layout handle and the pool of the object to
`vkAllocateDescriptorSets`; it returns descriptors exactly when the driver call
succeeds, and then exactly `count` of them, the one at index `i` holding the set
the driver wrote into slot `i` together with the device and the pool of the
allocating object. -/
theorem allocate_descriptors (self : frDescriptors) (count : Nat) (layout : frDescriptorLayout)
    (result : VkResult) (allocatedSet : Nat → Nat) :
    (self.allocate count layout result allocatedSet).1.pSetLayouts =
      List.replicate count layout.mLayout ∧
    (self.allocate count layout result allocatedSet).1.descriptorSetCount = count ∧
    (self.allocate count layout result allocatedSet).1.descriptorPool = self.mPool ∧
    ((∃ descs, (self.allocate count layout result allocatedSet).2 = Except.ok descs) ↔
      result = VK_SUCCESS) ∧
    ∃ descs, (self.allocate count layout VK_SUCCESS allocatedSet).2 = Except.ok descs ∧
      descs.length = count ∧
      ∀ i, i < count →
        descs[i]? = some (frDescriptor.mk self.mDevice self.mPool (allocatedSet i)) := by
  refine ⟨?_, ?_, ?_, ?_, ?_⟩
  · unfold frDescriptors.allocate
    simp only []
    split <;> rfl
  · unfold frDescriptors.allocate
    simp only []
    split <;> rfl
  · unfold frDescriptors.allocate
    simp only []
    split <;> rfl
  · by_cases hr : result = VK_SUCCESS
    · subst hr
      simp [frDescriptors.allocate, VK_WRAPPER_ok _ _ rfl]
    · simp [frDescriptors.allocate, VK_WRAPPER_error _ _ hr, hr]
  · refine ⟨((List.range count).map allocatedSet).map
      (fun set => frDescriptor.mk self.mDevice self.mPool set), ?_, ?_, ?_⟩
    · simp [frDescriptors.allocate, VK_WRAPPER_ok _ _ rfl]
    · simp
    · intro i hi
      simp [hi]

/-! ## Properties of the sharing mode -/

/-- C25 on the code. The swapchain create info has concurrent sharing exactly when
the graphics and the present queue family of the renderer differ, and then the
index count 2 and a pointer to the array holding the graphics and the present
family; but that array is a local of the `if` block, which has been left when
`vkCreateSwapchainKHR` reads the create info, so the pointer is dangling. When
the families coincide the create info has exclusive sharing, the index count 0
and the null pointer. -/
theorem sharing_mode_wiring (self : frSwapchain) (renderer : frRenderer) (env : SwapchainEnv)
    (run : InitializeRun) (h : self.initialize renderer env = some run) :
    (run.createInfo.imageSharingMode = VkSharingMode.VK_SHARING_MODE_CONCURRENT ↔
      renderer.mGraphicsQueueFamily ≠ renderer.mPresentQueueFamily) ∧
    (renderer.mGraphicsQueueFamily ≠ renderer.mPresentQueueFamily →
      run.createInfo.queueFamilyIndexCount = 2 ∧
      run.createInfo.pQueueFamilyIndices =
        ArrayPointer.dangling [renderer.mGraphicsQueueFamily, renderer.mPresentQueueFamily]) ∧
    (renderer.mGraphicsQueueFamily = renderer.mPresentQueueFamily →
      run.createInfo.imageSharingMode = VkSharingMode.VK_SHARING_MODE_EXCLUSIVE ∧
      run.createInfo.queueFamilyIndexCount = 0 ∧
      run.createInfo.pQueueFamilyIndices = ArrayPointer.null) := by
  unfold frSwapchain.initialize at h
  simp only [] at h
  split at h
  · exact absurd h (by simp)
  · simp only [Option.some.injEq] at h
    subst h
    by_cases hq : renderer.mGraphicsQueueFamily = renderer.mPresentQueueFamily
    · simp [hq]
    · simp [hq]

theorem sharing_mode_wiring_witness :
    sampleSwapchain.initialize splitQueueRenderer sampleEnv ≠ none ∧
    ∃ run, sampleSwapchain.initialize splitQueueRenderer sampleEnv = some run ∧
      run.createInfo.imageSharingMode = VkSharingMode.VK_SHARING_MODE_CONCURRENT ∧
      run.createInfo.queueFamilyIndexCount = 2 ∧
      run.createInfo.pQueueFamilyIndices = ArrayPointer.dangling [0, 1] := by
  obtain ⟨run, hrun⟩ : ∃ run, sampleSwapchain.initialize splitQueueRenderer sampleEnv = some run :=
    Option.isSome_iff_exists.mp (by rfl)
  have h := sharing_mode_wiring sampleSwapchain splitQueueRenderer sampleEnv run hrun
  have hne : splitQueueRenderer.mGraphicsQueueFamily ≠ splitQueueRenderer.mPresentQueueFamily := by
    decide
  refine ⟨by rw [hrun]; simp, run, hrun, h.1.mpr hne, (h.2.1 hne).1, (h.2.1 hne).2⟩

/-! ## Properties of the queue family resolution -/

theorem queueFamilyLoop_cons (presentSupport : Nat → Bool) (q : Nat) (rest : List Nat) (i : Nat)
    (r : frRenderer) :
    queueFamilyLoop presentSupport (q :: rest) i r =
      if (r.mGraphicsQueueSet || decide (q &&& VK_QUEUE_GRAPHICS_BIT ≠ 0)) = true ∧
          (r.mPresentQueueSet || presentSupport i) = true then
        { r with
          mGraphicsQueueFamily :=
            if q &&& VK_QUEUE_GRAPHICS_BIT ≠ 0 then i else r.mGraphicsQueueFamily
          mGraphicsQueueSet := r.mGraphicsQueueSet || decide (q &&& VK_QUEUE_GRAPHICS_BIT ≠ 0)
          mPresentQueueFamily := if presentSupport i = true then i else r.mPresentQueueFamily
          mPresentQueueSet := r.mPresentQueueSet || presentSupport i }
      else
        queueFamilyLoop presentSupport rest (i + 1)
          { r with
            mGraphicsQueueFamily :=
              if q &&& VK_QUEUE_GRAPHICS_BIT ≠ 0 then i else r.mGraphicsQueueFamily
            mGraphicsQueueSet := r.mGraphicsQueueSet || decide (q &&& VK_QUEUE_GRAPHICS_BIT ≠ 0)
            mPresentQueueFamily := if presentSupport i = true then i else r.mPresentQueueFamily
            mPresentQueueSet := r.mPresentQueueSet || presentSupport i } := by
  rw [queueFamilyLoop]
  by_cases hg : q &&& VK_QUEUE_GRAPHICS_BIT ≠ 0 <;> by_cases hp : presentSupport i = true <;>
    simp [hg, hp]

theorem exists_lt_succ_iff (p : Nat → Prop) (n : Nat) :
    (∃ j, j < n + 1 ∧ p j) ↔ p 0 ∨ ∃ j, j < n ∧ p (j + 1) := by
  constructor
  · rintro ⟨j, hj, hp⟩
    cases j with
    | zero => exact Or.inl hp
    | succ j => exact Or.inr ⟨j, by omega, hp⟩
  · rintro (h | ⟨j, hj, hp⟩)
    · exact ⟨0, by omega, h⟩
    · exact ⟨j + 1, by omega, hp⟩

theorem queueFamilyLoop_spec (presentSupport : Nat → Bool) (l : List Nat) (i : Nat)
    (r : frRenderer) :
    ((queueFamilyLoop presentSupport l i r).mGraphicsQueueSet = true ↔
      r.mGraphicsQueueSet = true ∨
        ∃ j, j < l.length ∧ l.getD j 0 &&& VK_QUEUE_GRAPHICS_BIT ≠ 0) ∧
    ((queueFamilyLoop presentSupport l i r).mPresentQueueSet = true ↔
      r.mPresentQueueSet = true ∨ ∃ j, j < l.length ∧ presentSupport (i + j) = true) ∧
    ((queueFamilyLoop presentSupport l i r).mGraphicsQueueSet = true →
      (r.mGraphicsQueueSet = true ∧
        (queueFamilyLoop presentSupport l i r).mGraphicsQueueFamily = r.mGraphicsQueueFamily) ∨
      ∃ j, j < l.length ∧
        (queueFamilyLoop presentSupport l i r).mGraphicsQueueFamily = i + j ∧
        l.getD j 0 &&& VK_QUEUE_GRAPHICS_BIT ≠ 0) ∧
    ((queueFamilyLoop presentSupport l i r).mPresentQueueSet = true →
      (r.mPresentQueueSet = true ∧
        (queueFamilyLoop presentSupport l i r).mPresentQueueFamily = r.mPresentQueueFamily) ∨
      ∃ j, j < l.length ∧
        (queueFamilyLoop presentSupport l i r).mPresentQueueFamily = i + j ∧
        presentSupport (i + j) = true) ∧
    (queueFamilyLoop presentSupport l i r).mPhysicalDevice = r.mPhysicalDevice ∧
    (queueFamilyLoop presentSupport l i r).mSurface = r.mSurface ∧
    (queueFamilyLoop presentSupport l i r).mDevice = r.mDevice := by
  induction l generalizing i r with
  | nil => simp [queueFamilyLoop]
  | cons q rest ih =>
    rw [queueFamilyLoop_cons]
    simp only [List.length_cons, exists_lt_succ_iff, List.getD_cons_zero, List.getD_cons_succ,
      Nat.add_zero]
    split
    · rename_i hb
      simp only [Bool.or_eq_true, decide_eq_true_eq] at hb ⊢
      by_cases hg : q &&& VK_QUEUE_GRAPHICS_BIT ≠ 0 <;>
        by_cases hp : presentSupport i = true <;> simp_all
    · have h := ih (i + 1) { r with
            mGraphicsQueueFamily :=
              if q &&& VK_QUEUE_GRAPHICS_BIT ≠ 0 then i else r.mGraphicsQueueFamily
            mGraphicsQueueSet := r.mGraphicsQueueSet || decide (q &&& VK_QUEUE_GRAPHICS_BIT ≠ 0)
            mPresentQueueFamily := if presentSupport i = true then i else r.mPresentQueueFamily
            mPresentQueueSet := r.mPresentQueueSet || presentSupport i }
      generalize queueFamilyLoop presentSupport rest (i + 1) _ = r' at h ⊢
      simp only [Bool.or_eq_true, decide_eq_true_eq] at h
      have e : ∀ j, i + 1 + j = i + (j + 1) := fun j => by omega
      simp only [e] at h
      obtain ⟨h1, h2, h3, h4, h5, h6, h7⟩ := h
      refine ⟨?_, ?_, ?_, ?_, h5, h6, h7⟩
      · rw [h1, or_assoc]
      · rw [h2, or_assoc]
      · intro hs
        rcases h3 hs with ⟨hh, he⟩ | hh
        · by_cases hg : q &&& VK_QUEUE_GRAPHICS_BIT ≠ 0
          · right; left
            rw [if_pos hg] at he
            exact ⟨he, hg⟩
          · left
            rw [if_neg hg] at he
            rcases hh with hh | hh
            · exact ⟨hh, he⟩
            · exact absurd hh hg
        · right; right; exact hh
      · intro hs
        rcases h4 hs with ⟨hh, he⟩ | hh
        · by_cases hp : presentSupport i = true
          · right; left
            rw [if_pos hp] at he
            exact ⟨he, hp⟩
          · left
            rw [if_neg hp] at he
            rcases hh with hh | hh
            · exact ⟨hh, he⟩
            · exact absurd hh hp
        · right; right; exact hh

/-- C21. On a renderer whose two queue flags are as the header sets them, the
queue family block of `frRenderer::initialize` raises its fatal error exactly
when the picked device has no queue family with the graphics bit or no queue
family that can present to the surface, and raises nothing else; when it raises
nothing, the recorded graphics family is a family of the device with the
graphics bit and the recorded present family is a family of the device that can
present to the surface. -/
theorem queue_family_resolution (self : frRenderer) (env : DeviceEnv)
    (hg : self.mGraphicsQueueSet = false) (hp : self.mPresentQueueSet = false) :
    ((self.initializeQueueFamilies env).2 =
        Except.error (frException.frVulkanException
          "Failed to find graphics and/or present queue family!") ↔
      (¬ ∃ j, j < (env.queueFamilies self.mPhysicalDevice).length ∧
          (env.queueFamilies self.mPhysicalDevice).getD j 0 &&& VK_QUEUE_GRAPHICS_BIT ≠ 0) ∨
      (¬ ∃ j, j < (env.queueFamilies self.mPhysicalDevice).length ∧
          env.presentSupport self.mPhysicalDevice j self.mSurface = true)) ∧
    ((self.initializeQueueFamilies env).2 = Except.ok () ↔
      (∃ j, j < (env.queueFamilies self.mPhysicalDevice).length ∧
          (env.queueFamilies self.mPhysicalDevice).getD j 0 &&& VK_QUEUE_GRAPHICS_BIT ≠ 0) ∧
      (∃ j, j < (env.queueFamilies self.mPhysicalDevice).length ∧
          env.presentSupport self.mPhysicalDevice j self.mSurface = true)) ∧
    ((self.initializeQueueFamilies env).2 = Except.ok () →
      (self.initializeQueueFamilies env).1.mGraphicsQueueFamily <
        (env.queueFamilies self.mPhysicalDevice).length ∧
      (env.queueFamilies self.mPhysicalDevice).getD
        (self.initializeQueueFamilies env).1.mGraphicsQueueFamily 0 &&&
          VK_QUEUE_GRAPHICS_BIT ≠ 0 ∧
      (self.initializeQueueFamilies env).1.mPresentQueueFamily <
        (env.queueFamilies self.mPhysicalDevice).length ∧
      env.presentSupport self.mPhysicalDevice
        (self.initializeQueueFamilies env).1.mPresentQueueFamily self.mSurface = true) := by
  obtain ⟨h1, h2, h3, h4, -, -, -⟩ :=
    queueFamilyLoop_spec (fun i => env.presentSupport self.mPhysicalDevice i self.mSurface)
      (env.queueFamilies self.mPhysicalDevice) 0 self
  simp only [hg, hp, Bool.false_eq_true, false_or, false_and, Nat.zero_add] at h1 h2 h3 h4
  unfold frRenderer.initializeQueueFamilies
  simp only []
  generalize queueFamilyLoop (fun i => env.presentSupport self.mPhysicalDevice i self.mSurface)
    (env.queueFamilies self.mPhysicalDevice) 0 self = post at h1 h2 h3 h4 ⊢
  by_cases hs : post.mGraphicsQueueSet = false ∨ post.mPresentQueueSet = false
  · rw [if_pos hs]
    have hno : ¬ ((∃ j, j < (env.queueFamilies self.mPhysicalDevice).length ∧
          (env.queueFamilies self.mPhysicalDevice).getD j 0 &&& VK_QUEUE_GRAPHICS_BIT ≠ 0) ∧
        (∃ j, j < (env.queueFamilies self.mPhysicalDevice).length ∧
          env.presentSupport self.mPhysicalDevice j self.mSurface = true)) := by
      rintro ⟨a, b⟩
      rcases hs with hs | hs
      · rw [h1.mpr a] at hs; exact absurd hs (by simp)
      · rw [h2.mpr b] at hs; exact absurd hs (by simp)
    refine ⟨⟨fun _ => not_and_or.mp hno, fun _ => rfl⟩, ⟨fun h => ?_, fun h => absurd h hno⟩,
      fun h => ?_⟩
    · exact absurd h (by simp)
    · exact absurd h (by simp)
  · rw [if_neg hs]
    have hs' : post.mGraphicsQueueSet = true ∧ post.mPresentQueueSet = true := by
      rw [not_or] at hs
      simpa using hs
    have a := h1.mp hs'.1
    have b := h2.mp hs'.2
    refine ⟨⟨fun h => absurd h (by simp), fun h => ?_⟩, ⟨fun _ => ⟨a, b⟩, fun _ => rfl⟩,
      fun _ => ?_⟩
    · rcases h with h | h
      · exact absurd a h
      · exact absurd b h
    · obtain ⟨j, hj, hje, hjg⟩ := h3 hs'.1
      obtain ⟨k, hk, hke, hkp⟩ := h4 hs'.2
      simp only []
      rw [hje, hke]
      exact ⟨hj, hjg, hk, hkp⟩

theorem queue_family_resolution_witness :
    pickedRenderer.mGraphicsQueueSet = false ∧ pickedRenderer.mPresentQueueSet = false ∧
    (pickedRenderer.initializeQueueFamilies sampleDeviceEnv).2 = Except.ok () ∧
    (pickedRenderer.initializeQueueFamilies sampleDeviceEnv).1.mGraphicsQueueFamily = 1 ∧
    (sampleDeviceEnv.queueFamilies 23).getD 1 0 &&& VK_QUEUE_GRAPHICS_BIT ≠ 0 ∧
    sampleDeviceEnv.presentSupport 23
      (pickedRenderer.initializeQueueFamilies sampleDeviceEnv).1.mPresentQueueFamily 3 = true := by
  have h := queue_family_resolution pickedRenderer sampleDeviceEnv rfl rfl
  have hok : (pickedRenderer.initializeQueueFamilies sampleDeviceEnv).2 = Except.ok () := by rfl
  exact ⟨rfl, rfl, hok, by rfl, (h.2.2 hok).2.1, (h.2.2 hok).2.2.2⟩

/-! ## Properties of the physical device selection -/

theorem GetMaxUsableSampleCount_bounds (properties : VkPhysicalDeviceProperties) :
    1 ≤ GetMaxUsableSampleCount properties ∧ GetMaxUsableSampleCount properties ≤ 64 := by
  unfold GetMaxUsableSampleCount
  simp only []
  split_ifs <;> decide

theorem deviceTypeBonus_bounds (deviceType : Nat) :
    0 ≤ deviceTypeBonus deviceType ∧ deviceTypeBonus deviceType ≤ 500 := by
  unfold deviceTypeBonus
  split_ifs <;> decide

theorem statedScore_pos (properties : VkPhysicalDeviceProperties) :
    100 ≤ statedScore properties := by
  unfold statedScore
  have h1 := (GetMaxUsableSampleCount_bounds properties).1
  have h2 := (deviceTypeBonus_bounds properties.deviceType).1
  omega

theorem required_filter_eq_nil (required available : List String) :
    required.filter (fun e => ¬ available.contains e) = [] ↔ ∀ e ∈ required, e ∈ available := by
  simp [List.filter_eq_nil_iff]

theorem deviceScore_lacking (self : frRenderer) (env : DeviceEnv) (device : Nat)
    (h : ¬ ∀ e ∈ self.mDeviceExtensions, e ∈ env.availableExtensions device) :
    deviceScore self env device = -1 := by
  unfold deviceScore
  simp only []
  rw [if_pos (fun c => h ((required_filter_eq_nil _ _).mp c))]
  rfl

theorem deviceScore_stated (self : frRenderer) (env : DeviceEnv) (device : Nat)
    (h : ∀ e ∈ self.mDeviceExtensions, e ∈ env.availableExtensions device)
    (hfit : statedScore (env.properties device) ≤ INT32_MAX) :
    deviceScore self env device = statedScore (env.properties device) := by
  unfold deviceScore
  have hf := (required_filter_eq_nil _ _).mpr h
  simp only [hf, ne_eq, not_true_eq_false, if_false, if_true]
  unfold statedScore INT32_MAX at *
  have h1 := GetMaxUsableSampleCount_bounds (env.properties device)
  have h2 := deviceTypeBonus_bounds (env.properties device).deviceType
  unfold toInt32
  generalize GetMaxUsableSampleCount (env.properties device) = s at *
  generalize deviceTypeBonus (env.properties device).deviceType = b at *
  generalize (env.properties device).limits.maxImageDimension2D = d at *
  split_ifs <;> omega

theorem pickLoop_spec (self : frRenderer) (env : DeviceEnv) (l : List Nat) (best : Int)
    (cur : Nat) :
    ((∀ x ∈ l, deviceScore self env x ≤ best) ∧ pickLoop self env l best cur = (best, cur)) ∨
    ∃ pre d post, l = pre ++ d :: post ∧
      pickLoop self env l best cur = (deviceScore self env d, d) ∧
      best < deviceScore self env d ∧
      (∀ x ∈ pre, deviceScore self env x < deviceScore self env d) ∧
      (∀ x ∈ post, deviceScore self env x ≤ deviceScore self env d) := by
  induction l generalizing best cur with
  | nil => left; exact ⟨by simp, rfl⟩
  | cons x rest ih =>
    rw [pickLoop]
    by_cases hx : deviceScore self env x > best
    · rw [if_pos hx]
      right
      rcases ih (deviceScore self env x) x with ⟨hall, he⟩ | ⟨pre, d, post, hl, he, hlt, hpre, hpost⟩
      · exact ⟨[], x, rest, rfl, he, hx, by simp, hall⟩
      · refine ⟨x :: pre, d, post, by rw [hl]; rfl, he, by omega, ?_, hpost⟩
        intro y hy
        rcases List.mem_cons.mp hy with hy | hy
        · rw [hy]; exact hlt
        · exact hpre y hy
    · rw [if_neg hx]
      rcases ih best cur with ⟨hall, he⟩ | ⟨pre, d, post, hl, he, hlt, hpre, hpost⟩
      · left
        refine ⟨?_, he⟩
        intro y hy
        rcases List.mem_cons.mp hy with hy | hy
        · rw [hy]; omega
        · exact hall y hy
      · right
        refine ⟨x :: pre, d, post, by rw [hl]; rfl, he, hlt, ?_, hpost⟩
        intro y hy
        rcases List.mem_cons.mp hy with hy | hy
        · rw [hy]; omega
        · exact hpre y hy

theorem initializePhysicalDevice_picked (self : frRenderer) (env : DeviceEnv)
    (henum : env.enumerateResult = VK_SUCCESS) :
    self.initializePhysicalDevice env =
      if (pickLoop self env env.devices 0 self.mPhysicalDevice).2 = VK_NULL_HANDLE then
        ({ self with mPhysicalDevice := (pickLoop self env env.devices 0 self.mPhysicalDevice).2 },
          Except.error (frException.frVulkanException "Failed to pick physical device!"))
      else
        ({ self with mPhysicalDevice := (pickLoop self env env.devices 0 self.mPhysicalDevice).2 },
          Except.ok ()) := by
  unfold frRenderer.initializePhysicalDevice
  rw [VK_WRAPPER_ok _ _ henum]

/-- C28, the first device of maximal score. When the enumeration succeeds on a
renderer that has no device yet, the handles the driver enumerates are not null
and, for every device with all required extensions, the sum of the device-type
bonus, 100 times the maximum usable sample count and `maxImageDimension2D` fits a
signed 32-bit integer, the physical device block of `frRenderer::initialize`
raises its fatal error exactly when no enumerated device has all required
extensions and a positive such sum; otherwise it raises nothing and the device
it selects has all required extensions, a positive sum, a sum strictly larger
than that of every such device enumerated before it and at least as large as
that of every such device enumerated after it. -/
theorem physical_device_selection (self : frRenderer) (env : DeviceEnv)
    (henum : env.enumerateResult = VK_SUCCESS)
    (hfresh : self.mPhysicalDevice = VK_NULL_HANDLE)
    (hhandles : ∀ d ∈ env.devices, d ≠ VK_NULL_HANDLE)
    (hfit : ∀ d ∈ env.devices,
      (∀ e ∈ self.mDeviceExtensions, e ∈ env.availableExtensions d) →
      statedScore (env.properties d) ≤ INT32_MAX) :
    ((self.initializePhysicalDevice env).2 =
        Except.error (frException.frVulkanException "Failed to pick physical device!") ↔
      ¬ ∃ d ∈ env.devices, (∀ e ∈ self.mDeviceExtensions, e ∈ env.availableExtensions d) ∧
        0 < statedScore (env.properties d)) ∧
    ((self.initializePhysicalDevice env).2 = Except.ok () ↔
      ∃ d ∈ env.devices, (∀ e ∈ self.mDeviceExtensions, e ∈ env.availableExtensions d) ∧
        0 < statedScore (env.properties d)) ∧
    ((self.initializePhysicalDevice env).2 = Except.ok () →
      ∃ pre d post, env.devices = pre ++ d :: post ∧
        (self.initializePhysicalDevice env).1.mPhysicalDevice = d ∧
        (∀ e ∈ self.mDeviceExtensions, e ∈ env.availableExtensions d) ∧
        0 < statedScore (env.properties d) ∧
        (∀ x ∈ pre, (∀ e ∈ self.mDeviceExtensions, e ∈ env.availableExtensions x) →
          statedScore (env.properties x) < statedScore (env.properties d)) ∧
        (∀ x ∈ post, (∀ e ∈ self.mDeviceExtensions, e ∈ env.availableExtensions x) →
          statedScore (env.properties x) ≤ statedScore (env.properties d))) := by
  rw [initializePhysicalDevice_picked self env henum]
  rcases pickLoop_spec self env env.devices 0 self.mPhysicalDevice with
    ⟨hall, he⟩ | ⟨pre, d, post, hl, he, hlt, hpre, hpost⟩
  · have hnull : (pickLoop self env env.devices 0 self.mPhysicalDevice).2 = VK_NULL_HANDLE := by
      rw [he]; exact hfresh
    have hno : ¬ ∃ d ∈ env.devices,
        (∀ e ∈ self.mDeviceExtensions, e ∈ env.availableExtensions d) ∧
          0 < statedScore (env.properties d) := by
      rintro ⟨d, hd, hel, hpos⟩
      have h1 := hall d hd
      rw [deviceScore_stated self env d hel (hfit d hd hel)] at h1
      omega
    rw [if_pos hnull]
    refine ⟨⟨fun _ => hno, fun _ => rfl⟩, ⟨fun h => absurd h (by simp), fun h => absurd h hno⟩,
      fun h => absurd h (by simp)⟩
  · have hd : d ∈ env.devices := by rw [hl]; simp
    have hmem : ∀ x ∈ pre ++ d :: post, x ∈ env.devices := by
      intro x hx; rw [hl]; exact hx
    have hnn : ¬ (pickLoop self env env.devices 0 self.mPhysicalDevice).2 = VK_NULL_HANDLE := by
      rw [he]; exact hhandles d hd
    have hel : ∀ e ∈ self.mDeviceExtensions, e ∈ env.availableExtensions d := by
      by_contra hc
      rw [deviceScore_lacking self env d hc] at hlt
      omega
    have hsd := deviceScore_stated self env d hel (hfit d hd hel)
    rw [hsd] at hlt hpre hpost
    have hyes : ∃ d ∈ env.devices,
        (∀ e ∈ self.mDeviceExtensions, e ∈ env.availableExtensions d) ∧
          0 < statedScore (env.properties d) := ⟨d, hd, hel, hlt⟩
    rw [if_neg hnn]
    refine ⟨⟨fun h => absurd h (by simp), fun h => absurd hyes h⟩, ⟨fun _ => hyes, fun _ => rfl⟩,
      fun _ => ⟨pre, d, post, hl, ?_, hel, hlt, ?_, ?_⟩⟩
    · simp only []
      rw [he]
    · intro x hx hxel
      have hxd : x ∈ env.devices := hmem x (List.mem_append_left _ hx)
      have := hpre x hx
      rw [deviceScore_stated self env x hxel (hfit x hxd hxel)] at this
      exact this
    · intro x hx hxel
      have hxd : x ∈ env.devices :=
        hmem x (List.mem_append_right _ (List.mem_cons_of_mem _ hx))
      have := hpost x hx
      rw [deviceScore_stated self env x hxel (hfit x hxd hxel)] at this
      exact this

theorem sample_extensions (d : Nat) (hd : d ≠ 21) :
    ∀ e ∈ frRenderer.fresh.mDeviceExtensions, e ∈ sampleDeviceEnv.availableExtensions d := by
  intro e he
  have : e = "VK_KHR_swapchain" := by simpa [frRenderer.fresh] using he
  subst this
  simp [sampleDeviceEnv, hd]

theorem physical_device_selection_witness :
    sampleDeviceEnv.enumerateResult = VK_SUCCESS ∧
    frRenderer.fresh.mPhysicalDevice = VK_NULL_HANDLE ∧
    sampleDeviceEnv.devices = [21, 22, 23] ∧
    statedScore (sampleDeviceEnv.properties 22) = 8692 ∧
    statedScore (sampleDeviceEnv.properties 23) = 17684 ∧
    (frRenderer.fresh.initializePhysicalDevice sampleDeviceEnv).2 = Except.ok () ∧
    (frRenderer.fresh.initializePhysicalDevice sampleDeviceEnv).1.mPhysicalDevice = 23 := by
  have hfit : ∀ d ∈ sampleDeviceEnv.devices,
      (∀ e ∈ frRenderer.fresh.mDeviceExtensions, e ∈ sampleDeviceEnv.availableExtensions d) →
      statedScore (sampleDeviceEnv.properties d) ≤ INT32_MAX := by
    intro d hd _
    have hd' : d = 21 ∨ d = 22 ∨ d = 23 := by simpa [sampleDeviceEnv] using hd
    rcases hd' with h | h | h <;> subst h <;> decide
  have hhandles : ∀ d ∈ sampleDeviceEnv.devices, d ≠ VK_NULL_HANDLE := by
    intro d hd
    have hd' : d = 21 ∨ d = 22 ∨ d = 23 := by simpa [sampleDeviceEnv] using hd
    rcases hd' with h | h | h <;> subst h <;> decide
  have h := physical_device_selection frRenderer.fresh sampleDeviceEnv rfl rfl hhandles hfit
  have hok : (frRenderer.fresh.initializePhysicalDevice sampleDeviceEnv).2 = Except.ok () :=
    h.2.1.mpr ⟨23, by simp [sampleDeviceEnv], sample_extensions 23 (by decide), by decide⟩
  exact ⟨rfl, rfl, rfl, by decide, by decide, hok, by rfl⟩

/-- C28 as stated fails when the sum wraps. The only device of `wrapDeviceEnv` has
every required extension and the stated score 500 + 100 + 2^31, which is
positive; the code computes the score in `int32_t`, gets a negative number, does
not select the device and raises the fatal error. -/
theorem device_score_wrap_counterexample :
    wrapDeviceEnv.enumerateResult = VK_SUCCESS ∧
    wrapDeviceEnv.devices = [23] ∧
    (∀ e ∈ frRenderer.fresh.mDeviceExtensions, e ∈ wrapDeviceEnv.availableExtensions 23) ∧
    statedScore (wrapDeviceEnv.properties 23) = 2147484248 ∧
    deviceScore frRenderer.fresh wrapDeviceEnv 23 = -2147483048 ∧
    (frRenderer.fresh.initializePhysicalDevice wrapDeviceEnv).2 =
      Except.error (frException.frVulkanException "Failed to pick physical device!") := by
  have hel : ∀ e ∈ frRenderer.fresh.mDeviceExtensions, e ∈ wrapDeviceEnv.availableExtensions 23 :=
    sample_extensions 23 (by decide)
  have hscore : deviceScore frRenderer.fresh wrapDeviceEnv 23 = -2147483048 := by
    unfold deviceScore
    have hf := (required_filter_eq_nil _ _).mpr hel
    simp only [hf, ne_eq, not_true_eq_false, if_false, if_true]
    decide
  refine ⟨rfl, rfl, hel, by decide, hscore, ?_⟩
  rw [initializePhysicalDevice_picked _ _ rfl]
  have hp : pickLoop frRenderer.fresh wrapDeviceEnv wrapDeviceEnv.devices 0
      frRenderer.fresh.mPhysicalDevice = (0, VK_NULL_HANDLE) := by
    show pickLoop frRenderer.fresh wrapDeviceEnv [23] 0 0 = (0, 0)
    rw [pickLoop, hscore]
    rfl
  rw [hp]
  rfl

/-! ## Properties of the fence -/

theorem step_keeps_unsignaled (fences : FenceTable) (fence : Nat) (e : FenceEvent)
    (hs : fences.signaled fence = false) (h1 : e ≠ FenceEvent.completed fence)
    (h2 : ∀ flags, e ≠ FenceEvent.created flags fence) :
    (fences.step e).signaled fence = false := by
  cases e with
  | created flags f =>
    have hf : fence ≠ f := fun c => h2 flags (by rw [c])
    simp [FenceTable.step, vkCreateFence, hf, hs]
  | wasReset f =>
    simp only [FenceTable.step, vkResetFences]
    split
    · rfl
    · exact hs
  | submitted f =>
    simp only [FenceTable.step, fenceSubmitted]
    split <;> exact hs
  | completed f =>
    have hf : fence ≠ f := fun c => h1 (by rw [c])
    simp only [FenceTable.step, fenceCompleted]
    split
    · simp [hf, hs]
    · exact hs

theorem run_keeps_unsignaled (events : List FenceEvent) (fences : FenceTable) (fence : Nat)
    (hs : fences.signaled fence = false)
    (h : ∀ e ∈ events, e ≠ FenceEvent.completed fence ∧
      ∀ flags, e ≠ FenceEvent.created flags fence) :
    (fences.run events).signaled fence = false := by
  induction events generalizing fences with
  | nil => exact hs
  | cons e rest ih =>
    have he := h e (List.mem_cons_self _ _)
    exact ih (fences.step e) (step_keeps_unsignaled fences fence e hs he.1 he.2)
      (fun x hx => h x (List.mem_cons_of_mem _ hx))

/-- C24. With a fence being a boolean flag in the driver: when the three creation
calls succeed, `frSynchronization::initialize` returns with `mInFlightFence`
holding a fence that is signaled, so that `wait()` returns; after `reset()` the
fence is unsignaled and `wait()` does not return, and this stays so through every
sequence of driver events that contains neither the completion of a submission
naming that fence nor the creation of a fence under its handle; the completion
of a pending submission naming the fence signals it again. -/
theorem fence_starts_signaled (self : frSynchronization) (renderer : frRenderer)
    (env : SynchronizationEnv) (fences : FenceTable)
    (h1 : env.imageAvailableResult = VK_SUCCESS) (h2 : env.renderFinishedResult = VK_SUCCESS)
    (h3 : env.fenceResult = VK_SUCCESS) :
    ( self.initialize renderer env fences).2.2 = Except.ok () ∧
    ( self.initialize renderer env fences).1.mInFlightFence = env.inFlightFence ∧
    ( self.initialize renderer env fences).2.1.signaled env.inFlightFence = true ∧
    ( self.initialize renderer env fences).1.wait
      ( self.initialize renderer env fences).2.1 = true ∧
    ∀ (sync : frSynchronization) (table : FenceTable),
      (sync.reset table).signaled sync.mInFlightFence = false ∧
      sync.wait (sync.reset table) = false ∧
      (∀ events : List FenceEvent,
        (∀ e ∈ events, e ≠ FenceEvent.completed sync.mInFlightFence ∧
          ∀ flags, e ≠ FenceEvent.created flags sync.mInFlightFence) →
        ((sync.reset table).run events).signaled sync.mInFlightFence = false ∧
        sync.wait ((sync.reset table).run events) = false) ∧
      (∀ pending : FenceTable, sync.mInFlightFence ∈ pending.pending →
        sync.wait (pending.step (FenceEvent.completed sync.mInFlightFence)) = true) := by
  have hinit : self.initialize renderer env fences =
      ({ self with
          mImageAvailableSemaphore := env.imageAvailableSemaphore
          mRenderFinishedSemaphore := env.renderFinishedSemaphore
          mInFlightFence := env.inFlightFence
          mDevice := renderer.mDevice },
        vkCreateFence fences VK_FENCE_CREATE_SIGNALED_BIT env.inFlightFence, Except.ok ()) := by
    unfold frSynchronization.initialize
    rw [VK_WRAPPER_ok _ _ h1, VK_WRAPPER_ok _ _ h2, VK_WRAPPER_ok _ _ h3]
  have hsig : (vkCreateFence fences VK_FENCE_CREATE_SIGNALED_BIT env.inFlightFence).signaled
      env.inFlightFence = true := by
    simp [vkCreateFence, VK_FENCE_CREATE_SIGNALED_BIT]
  rw [hinit]
  refine ⟨rfl, rfl, hsig, hsig, ?_⟩
  intro sync table
  have hreset : (sync.reset table).signaled sync.mInFlightFence = false := by
    simp [frSynchronization.reset, vkResetFences]
  refine ⟨hreset, hreset, ?_, ?_⟩
  · intro events h
    have := run_keeps_unsignaled events (sync.reset table) sync.mInFlightFence hreset h
    exact ⟨this, this⟩
  · intro pending hp
    simp [frSynchronization.wait, FenceTable.step, fenceCompleted, hp]

theorem fence_starts_signaled_witness :
    sampleSynchronizationEnv.imageAvailableResult = VK_SUCCESS ∧
    sampleSynchronizationEnv.renderFinishedResult = VK_SUCCESS ∧
    sampleSynchronizationEnv.fenceResult = VK_SUCCESS ∧
    ( frSynchronization.fresh.initialize sampleRenderer sampleSynchronizationEnv noFences).2.2 =
      Except.ok () ∧
    ( frSynchronization.fresh.initialize sampleRenderer sampleSynchronizationEnv
      noFences).2.1.signaled 33 = true ∧
    sampleSync.wait ((sampleSync.reset noFences).run
      [FenceEvent.submitted 33, FenceEvent.wasReset 34]) = false ∧
    sampleSync.wait ((sampleSync.reset noFences).run
      [FenceEvent.submitted 33, FenceEvent.completed 33]) = true := by
  have h := fence_starts_signaled frSynchronization.fresh sampleRenderer sampleSynchronizationEnv
    noFences rfl rfl rfl
  refine ⟨rfl, rfl, rfl, h.1, h.2.2.1, ?_, by decide⟩
  exact ((h.2.2.2.2 sampleSync noFences).2.2.1
    [FenceEvent.submitted 33, FenceEvent.wasReset 34] (by simp)).2

/-! ## Properties of the frame loop -/

/-- C27 fails on the code. The example is set up on a swapchain of three images,
so the synchronization triples, the per-frame command buffers and the per-frame
uniform descriptors have length 3 and the frame index is 0. A pass on which the
acquisition reports the swapchain out of date recreates it, here with four
images, and rebuilds none of the three arrays; three ordinary passes later the
frame index, taken modulo the new image count, is 3, which is the length of
each of the three arrays, and the next pass indexes them out of bounds whatever
the driver answers. -/
theorem frame_index_leaves_bounds :
    ∃ st0 st,
      exampleSetup sampleRenderer exampleEnv (fun _ => none) samplePerFrameEnv =
        ExampleRun.returned st0 ∧
      st0.frame = 0 ∧ st0.synchronizations.length = 3 ∧ st0.commandBuffers.length = 3 ∧
      st0.ubos.length = 3 ∧
      frameLoop sampleRenderer [resizedPass, plainPass 0, plainPass 1, plainPass 2] st0 =
        ExampleRun.returned st ∧
      st.swapchain.mImageCount = 4 ∧ st.frame = 3 ∧
      st.synchronizations.length = 3 ∧ st.commandBuffers.length = 3 ∧ st.ubos.length = 3 ∧
      ∀ env, framePass st sampleRenderer env = ExampleRun.undefined := by
  refine ⟨_, _, rfl, ?_, ?_, ?_, ?_, rfl, ?_, ?_, ?_, ?_, ?_, ?_⟩
  · decide
  · decide
  · decide
  · decide
  · decide
  · decide
  · decide
  · decide
  · decide
  · intro env
    rfl
end fr
